import Mathlib

/-!
Verification of the binding layer of purego-sdl3.

A shallow embedding of the marshalling code of the repository
(`internal/mem`, the event overlay layer of `sdl/sdl_events.go`, the flag
constants, the callback wrapper, the string and slice accessors, the get-list
wrappers, the boolean conversion of native results, the gamepad binding unions
and the arithmetic helpers for versions, pixel formats, colors, rectangles,
window positions and surfaces), followed by the theorems proved about it.

Conventions of the embedding.

* A native pointer is a natural number, `0` being the null pointer.
* Native memory is a typed view `Nat → Option T`: the cell an address holds,
  `none` where the address is not mapped. Addresses of an array count
  elements, so element `i` of the array at `p` lives at `p + i`.
* A Go slice is `Option (List T)`: `none` is the nil slice, `some []` the
  empty non-nil slice.
* Every operation that touches native memory or calls the native `Free`
  returns a `Run`: its result, and the trace of native effects it performed,
  in program order.
-/

namespace PuregoSdl3

/-! ## Go runtime model -/

/-- Ways in which the Go side can fail at run time. -/
inductive GoError where
  /-- The panic `makeslice: len out of range`. -/
  | makeLenOutOfRange
  /-- The panic `unsafe.Slice: len out of range`. -/
  | sliceLenOutOfRange
  /-- The panic `unsafe.Slice: ptr is nil and len is not zero`. -/
  | sliceNilPointer
  /-- The panic `index out of range`. -/
  | indexOutOfRange
  /-- A read of native memory that is not mapped, at address `addr`. The Go
  runtime turns it into the recoverable panic `invalid memory address or nil
  pointer dereference` when `addr` is below `0x1000`, and ends the process
  (`unexpected fault address`) otherwise. -/
  | fault (addr : Nat)
  deriving DecidableEq, Repr

/-- Native effects a wrapper performs. -/
inductive Effect where
  /-- Read of the native cell at `addr`. -/
  | load (addr : Nat)
  /-- Call of the native `Free` on `addr`. -/
  | free (addr : Nat)
  deriving DecidableEq, Repr

/-- Go slice: `none` is the nil slice. -/
abbrev GoSlice (T : Type) := Option (List T)

/-- Outcome of running a piece of Go code: result and trace of native effects. -/
structure Run (α : Type) where
  result : Except GoError α
  trace : List Effect

/-- Typed view of native memory. -/
abbrev Heap (T : Type) := Nat → Option T

/-- Go `make([]T, count)`: panics on a negative length, else `count` zero values. -/
def makeSlice {T : Type} [Inhabited T] (count : Int) : Except GoError (List T) :=
  if count < 0 then .error .makeLenOutOfRange
  else .ok (List.replicate count.toNat default)

/-- Go `unsafe.Slice(array, count)`: a slice header (base address, length) over
native memory. It panics on a negative length, and on a nil pointer with a
length that is not zero; it reads nothing. -/
def sliceAt (array : Nat) (count : Int) : Except GoError (Nat × Nat) :=
  if count < 0 then .error .sliceLenOutOfRange
  else if array = 0 ∧ count ≠ 0 then .error .sliceNilPointer
  else .ok (array, count.toNat)

/-- Read `n` consecutive native cells starting at `base`, lowest address first. -/
def loadCells {T : Type} (heap : Heap T) (base : Nat) : Nat → Run (List T)
  | 0 => ⟨.ok [], []⟩
  | n + 1 =>
    match heap base with
    | none => ⟨.error (.fault base), [.load base]⟩
    | some v =>
      let r := loadCells heap (base + 1) n
      ⟨r.result.map (fun cells => v :: cells), .load base :: r.trace⟩

/-- Go `copy(dst, src)` with `src` a slice over native memory: copies
`min (len dst) (len src)` elements and leaves the rest of `dst` as it was. -/
def goCopy {T : Type} (heap : Heap T) (dst : List T) (src : Nat × Nat) : Run (List T) :=
  let n := min dst.length src.2
  let r := loadCells heap src.1 n
  ⟨r.result.map (fun cells => cells ++ dst.drop n), r.trace⟩

/-! ## internal/mem -/

namespace mem

/-- The function `mem.Copy` of `internal/mem/mem.go`. -/
def Copy {T : Type} [Inhabited T] (heap : Heap T) (array : Nat) (count : Int) :
    Run (GoSlice T) :=
  if array = 0 then ⟨.ok none, []⟩
  else
    match makeSlice count with
    | .error e => ⟨.error e, []⟩
    | .ok result =>
      match sliceAt array count with
      | .error e => ⟨.error e, []⟩
      | .ok src =>
        let r := goCopy heap result src
        ⟨r.result.map some, r.trace⟩

/-- The loop of `mem.DeepCopy`: `k` iterations remain, the next index is `i`. -/
def deepCopyLoop {T : Type} (ptrs : Heap Nat) (structs : Heap T) (array : Nat) :
    Nat → Nat → List (Option T) → Run (List (Option T))
  | 0, _, dst => ⟨.ok dst, []⟩
  | k + 1, i, dst =>
    match ptrs (array + i) with
    | none => ⟨.error (.fault (array + i)), [.load (array + i)]⟩
    | some p =>
      if p ≠ 0 then
        match structs p with
        | none => ⟨.error (.fault p), [.load (array + i), .load p]⟩
        | some value =>
          let r := deepCopyLoop ptrs structs array k (i + 1) (dst.set i (some value))
          ⟨r.result, .load (array + i) :: .load p :: r.trace⟩
      else
        let r := deepCopyLoop ptrs structs array k (i + 1) dst
        ⟨r.result, .load (array + i) :: r.trace⟩

/-- The function `mem.DeepCopy` of `internal/mem/mem.go`. The managed `*T`
entries of the result are `Option T`: `none` is nil, `some v` a pointer to a
fresh copy holding `v`. -/
def DeepCopy {T : Type} (ptrs : Heap Nat) (structs : Heap T) (array : Nat) (count : Int) :
    Run (GoSlice (Option T)) :=
  if array = 0 then ⟨.ok none, []⟩
  else
    match makeSlice count with
    | .error e => ⟨.error e, []⟩
    | .ok dst =>
      match sliceAt array count with
      | .error e => ⟨.error e, []⟩
      | .ok _ =>
        let r := deepCopyLoop ptrs structs array count.toNat 0 dst
        ⟨r.result.map some, r.trace⟩

end mem

/-! ## Get-list wrappers (sdl/sdl_camera.go, sdl/sdl_joystick.go) -/

/-- The type `CameraID` of `sdl/sdl_camera.go` (a `uint32`). -/
abbrev CameraID := Nat

/-- The type `JoystickID` of `sdl/sdl_joystick.go` (a `uint32`). -/
abbrev JoystickID := Nat

/-- Modelled from the spec: the wrapper `Free` of the native free function,
whose file is not among the sources. It releases the native buffer at `mem`,
which the trace records. -/
def Free (mem : Nat) : Run Unit := ⟨.ok (), [.free mem]⟩

/-- Go `defer`: the deferred call runs when the body returns or panics. A fault
on native memory at an address below `0x1000` is such a panic (the runtime
raises `invalid memory address or nil pointer dereference`), so the deferred
call runs; a fault at any other address is fatal and ends the process before
any deferred call. The address compared is the one the fault carries, that of
the cell read. -/
def withDefer {α : Type} (deferred : Run Unit) (body : Run α) : Run α :=
  match body.result with
  | .error (.fault addr) =>
    if addr < 0x1000 then ⟨body.result, body.trace ++ deferred.trace⟩ else body
  | _ => ⟨body.result, body.trace ++ deferred.trace⟩

/-- The function `GetCameras` of `sdl/sdl_camera.go`. The native call
`sdlGetCameras(&count)` is a parameter: given the value of `count` before the
call it yields the returned pointer and the value of `count` after the call;
`heap` is native memory after the call. -/
def GetCameras (heap : Heap CameraID) (sdlGetCameras : Int → Nat × Int) :
    Run (GoSlice CameraID) :=
  let count : Int := 0
  let (cameras, count) := sdlGetCameras count
  if cameras = 0 then ⟨.ok none, []⟩
  else withDefer (Free cameras) (mem.Copy heap cameras count)

/-- The function `GetJoysticks` of `sdl/sdl_joystick.go`, with the native call
`sdlGetJoysticks(&count)` as a parameter, as for `GetCameras`. -/
def GetJoysticks (heap : Heap JoystickID) (sdlGetJoysticks : Int → Nat × Int) :
    Run (GoSlice JoystickID) :=
  let count : Int := 0
  let (joysticks, count) := sdlGetJoysticks count
  if joysticks = 0 then ⟨.ok none, []⟩
  else withDefer (Free joysticks) (mem.Copy heap joysticks count)

/-! ## Memory layout of Go types (gc compiler, 64-bit target) -/

/-- Scalar Go types that occur in the overlay structs. Every pointer type
(`*byte`, `**byte`, `unsafe.Pointer`) is `pointer`. -/
inductive Scalar where
  | uint8 | bool | uint16 | int16 | uint32 | int32 | uint64 | int64 | float32 | pointer
  deriving DecidableEq, Repr

/-- Size in bytes of a scalar; its alignment is the same number. -/
def Scalar.size : Scalar → Nat
  | .uint8 => 1 | .bool => 1 | .uint16 => 2 | .int16 => 2 | .uint32 => 4 | .int32 => 4
  | .uint64 => 8 | .int64 => 8 | .float32 => 4 | .pointer => 8

mutual
/-- Go types: scalars, arrays of scalars, and structs. -/
inductive GoType where
  | scalar (s : Scalar)
  | array (n : Nat) (elem : Scalar)
  | struct (fields : FieldList)
/-- Fields of a struct in declaration order; a blank field is named `_`. -/
inductive FieldList where
  | nil
  | cons (name : String) (t : GoType) (rest : FieldList)
end

/-- Field list of a struct written as a list of name and type. -/
def FieldList.ofList : List (String × GoType) → FieldList
  | [] => .nil
  | (n, t) :: rest => .cons n t (FieldList.ofList rest)

/-- Struct type with the given fields. -/
def structOf (fs : List (String × GoType)) : GoType := .struct (FieldList.ofList fs)

/-- A field of scalar type. -/
def fld (name : String) (s : Scalar) : String × GoType := (name, .scalar s)

/-- Round `off` up to the next multiple of `a`. -/
def alignUp (off a : Nat) : Nat := (off + a - 1) / a * a

mutual
/-- Alignment of a type: that of a scalar is its size, that of an array its
element's, that of a struct the largest alignment of its fields. -/
def GoType.align : GoType → Nat
  | .scalar s => s.size
  | .array _ e => e.size
  | .struct fs => fs.align
/-- Largest alignment among the fields (1 for no field). -/
def FieldList.align : FieldList → Nat
  | .nil => 1
  | .cons _ t rest => max t.align rest.align
end

mutual
/-- Size of a type; a struct ends at the end of its last field, rounded up to the
struct's alignment. -/
def GoType.size : GoType → Nat
  | .scalar s => s.size
  | .array n e => n * e.size
  | .struct fs => alignUp (fs.endOffset 0) fs.align
/-- Offset just past the last field, when the fields are laid out from offset
`off` on, each at the next multiple of its alignment. -/
def FieldList.endOffset : FieldList → Nat → Nat
  | .nil, off => off
  | .cons _ t rest, off => rest.endOffset (alignUp off t.align + t.size)
end

/-- Value of a scalar read from memory. A `bool` and a `float32` keep their raw
bits. -/
inductive ScalarVal where
  | uint (v : Nat) | int (v : Int) | bool (raw : Nat) | float32 (bits : Nat)
  | pointer (addr : Nat)
  deriving DecidableEq, Repr

/-- Value of a struct field: a scalar or an array of scalars. -/
inductive FieldVal where
  | scalar (v : ScalarVal) | array (vs : List ScalarVal)
  deriving DecidableEq, Repr

/-- A decoded struct: its named fields in declaration order, those of a nested
struct `S` under the names `S.field`. Blank fields cannot be read and are left
out. -/
abbrev Overlay := List (String × FieldVal)

/-- Little-endian unsigned integer held by the `w` bytes at offset `off`. -/
def loadLE (bytes : List Nat) (off : Nat) : Nat → Nat
  | 0 => 0
  | w + 1 => bytes.getD off 0 + 256 * loadLE bytes (off + 1) w

/-- Two's complement reading of a `bits`-bit pattern. -/
def toSigned (bits raw : Nat) : Int :=
  if raw < 2 ^ (bits - 1) then (raw : Int) else (raw : Int) - 2 ^ bits

/-- Value of a scalar type given its raw little-endian bits. -/
def decodeScalar : Scalar → Nat → ScalarVal
  | .uint8, raw => .uint raw
  | .uint16, raw => .uint raw
  | .uint32, raw => .uint raw
  | .uint64, raw => .uint raw
  | .int16, raw => .int (toSigned 16 raw)
  | .int32, raw => .int (toSigned 32 raw)
  | .int64, raw => .int (toSigned 64 raw)
  | .bool, raw => .bool raw
  | .float32, raw => .float32 raw
  | .pointer, raw => .pointer raw

mutual
/-- Fields of the value of type `t` stored at byte offset `off`. -/
def GoType.decode : GoType → List Nat → Nat → String → Overlay
  | .scalar s, bytes, off, name =>
    [(name, .scalar (decodeScalar s (loadLE bytes off s.size)))]
  | .array n s, bytes, off, name =>
    [(name, .array ((List.range n).map fun i =>
      decodeScalar s (loadLE bytes (off + i * s.size) s.size)))]
  | .struct fs, bytes, off, name =>
    fs.decode bytes off 0 (if name = "" then "" else name ++ ".")
/-- Fields of a struct at `base` whose next field goes at relative offset `rel`
or the next multiple of its alignment. -/
def FieldList.decode : FieldList → List Nat → Nat → Nat → String → Overlay
  | .nil, _, _, _, _ => []
  | .cons name t rest, bytes, base, rel, pfx =>
    (if name = "_" then [] else t.decode bytes (base + alignUp rel t.align) (pfx ++ name))
      ++ rest.decode bytes base (alignUp rel t.align + t.size) pfx
end

/-- The Go expression `*(*T)(ptr)` on a block of bytes: the value of type `t`
at offset `off`, or `none` when the `t.size` bytes read do not all lie inside
the block. -/
def load (t : GoType) (bytes : List Nat) (off : Nat) : Option Overlay :=
  if off + t.size ≤ bytes.length then some (t.decode bytes off "") else none

/-! ## Event overlay layer (sdl/sdl_events.go) -/

namespace Layout

/-- The type `EventType`. -/
def EventType : Scalar := .uint32
/-- The type `DisplayID` of sdl_video.go. -/
def DisplayID : Scalar := .uint32
/-- The type `WindowID` of sdl_video.go. -/
def WindowID : Scalar := .uint32
/-- The type `KeyboardID` of sdl_keyboard.go. -/
def KeyboardID : Scalar := .uint32
/-- The type `MouseID` of sdl_mouse.go. -/
def MouseID : Scalar := .uint32
/-- The type `MouseButtonFlags` of sdl_mouse.go. -/
def MouseButtonFlags : Scalar := .uint32
/-- The type `MouseWheelDirection` of sdl_mouse.go. -/
def MouseWheelDirection : Scalar := .uint32
/-- The type `JoystickID` of sdl_joystick.go. -/
def JoystickID : Scalar := .uint32
/-- The type `PowerState` of sdl_power.go. -/
def PowerState : Scalar := .int32
/-- The type `AudioDeviceID` of sdl_audio.go. -/
def AudioDeviceID : Scalar := .uint32
/-- The type `CameraID` of sdl_camera.go. -/
def CameraID : Scalar := .uint32
/-- The type `TouchID` of sdl_touch.go. -/
def TouchID : Scalar := .uint64
/-- The type `FingerID` of sdl_touch.go. -/
def FingerID : Scalar := .uint64
/-- The type `PenID` of sdl_pen.go. -/
def PenID : Scalar := .uint32
/-- The type `PenInputFlags` of sdl_pen.go. -/
def PenInputFlags : Scalar := .uint32
/-- The type `PenAxis` of sdl_pen.go. -/
def PenAxis : Scalar := .uint32
/-- The type `SensorID` of sdl_sensor.go. -/
def SensorID : Scalar := .uint32

/-- The struct `CommonEvent`. -/
def CommonEvent : GoType := structOf
  [fld "Type" EventType, fld "reserved" .uint32, fld "Timestamp" .uint64]

/-- The struct `DisplayEvent`. -/
def DisplayEvent : GoType := structOf
  [("CommonEvent", CommonEvent), fld "DisplayID" DisplayID, fld "Data1" .int32,
   fld "Data2" .int32]

/-- The struct `WindowEvent`. -/
def WindowEvent : GoType := structOf
  [("CommonEvent", CommonEvent), fld "WindowID" WindowID, fld "Data1" .int32,
   fld "Data2" .int32]

/-- The struct `KeyboardDeviceEvent`. -/
def KeyboardDeviceEvent : GoType := structOf
  [("CommonEvent", CommonEvent), fld "Which" KeyboardID]

/-- The struct `KeyboardEvent`. The declarations of `Scancode`, `Keycode` and
`Keymod` are not among the sources: the scalar types they name are the
parameters `sc`, `kc` and `km`. -/
def KeyboardEvent (sc kc km : Scalar) : GoType := structOf
  [("CommonEvent", CommonEvent), fld "WindowID" WindowID, fld "Which" KeyboardID,
   fld "Scancode" sc, fld "Key" kc, fld "Mod" km, fld "Raw" .uint16, fld "Down" .bool,
   fld "Repeat" .bool]

/-- The struct `TextEditingEvent`. -/
def TextEditingEvent : GoType := structOf
  [("CommonEvent", CommonEvent), fld "WindowID" WindowID, fld "text" .pointer,
   fld "Start" .int32, fld "Length" .int32]

/-- The struct `TextEditingCandidatesEvent`. -/
def TextEditingCandidatesEvent : GoType := structOf
  [("CommonEvent", CommonEvent), fld "WindowID" WindowID, fld "candidates" .pointer,
   fld "numCandidates" .int32, fld "SelectedCandidate" .int32, fld "Horizontal" .bool,
   fld "_" .uint8, fld "_" .uint8, fld "_" .uint8]

/-- The struct `TextInputEvent`. -/
def TextInputEvent : GoType := structOf
  [("CommonEvent", CommonEvent), fld "WindowID" WindowID, fld "text" .pointer]

/-- The struct `MouseDeviceEvent`. -/
def MouseDeviceEvent : GoType := structOf
  [("CommonEvent", CommonEvent), fld "Which" MouseID]

/-- The struct `MouseMotionEvent`. -/
def MouseMotionEvent : GoType := structOf
  [("CommonEvent", CommonEvent), fld "WindowID" WindowID, fld "Which" MouseID,
   fld "State" MouseButtonFlags, fld "X" .float32, fld "Y" .float32, fld "Xrel" .float32,
   fld "Yrel" .float32]

/-- The struct `MouseButtonEvent`. -/
def MouseButtonEvent : GoType := structOf
  [("CommonEvent", CommonEvent), fld "WindowID" WindowID, fld "Which" MouseID,
   fld "Button" .uint8, fld "Down" .bool, fld "Clicks" .uint8, fld "_" .uint8,
   fld "X" .float32, fld "Y" .float32]

/-- The struct `MouseWheelEvent`. -/
def MouseWheelEvent : GoType := structOf
  [("CommonEvent", CommonEvent), fld "WindowID" WindowID, fld "Which" MouseID,
   fld "X" .float32, fld "Y" .float32, fld "Direction" MouseWheelDirection,
   fld "MouseX" .float32, fld "MouseY" .float32, fld "IntegerX" .int32,
   fld "IntegerY" .int32]

/-- The struct `JoyAxisEvent`. -/
def JoyAxisEvent : GoType := structOf
  [("CommonEvent", CommonEvent), fld "Which" JoystickID, fld "Axis" .uint8,
   fld "_" .uint8, fld "_" .uint8, fld "_" .uint8, fld "Value" .int16, fld "_" .uint16]

/-- The struct `JoyBallEvent`. -/
def JoyBallEvent : GoType := structOf
  [("CommonEvent", CommonEvent), fld "Which" JoystickID, fld "Ball" .uint8,
   fld "_" .uint8, fld "_" .uint8, fld "_" .uint8, fld "Xrel" .int16, fld "Yrel" .int16]

/-- The struct `JoyHatEvent`. -/
def JoyHatEvent : GoType := structOf
  [("CommonEvent", CommonEvent), fld "Which" JoystickID, fld "Hat" .uint8,
   fld "Value" .uint8, fld "_" .uint8, fld "_" .uint8]

/-- The struct `JoyButtonEvent`. -/
def JoyButtonEvent : GoType := structOf
  [("CommonEvent", CommonEvent), fld "Which" JoystickID, fld "Button" .uint8,
   fld "Down" .bool, fld "_" .uint8, fld "_" .uint8]

/-- The struct `JoyDeviceEvent`. -/
def JoyDeviceEvent : GoType := structOf
  [("CommonEvent", CommonEvent), fld "Which" JoystickID]

/-- The struct `JoyBatteryEvent`. -/
def JoyBatteryEvent : GoType := structOf
  [("CommonEvent", CommonEvent), fld "Which" JoystickID, fld "State" PowerState,
   fld "Percent" .int32]

/-- The struct `GamepadAxisEvent`. -/
def GamepadAxisEvent : GoType := structOf
  [("CommonEvent", CommonEvent), fld "Which" JoystickID, fld "Axis" .uint8,
   fld "_" .uint8, fld "_" .uint8, fld "_" .uint8, fld "Value" .int16, fld "_" .uint16]

/-- The struct `GamepadButtonEvent`. -/
def GamepadButtonEvent : GoType := structOf
  [("CommonEvent", CommonEvent), fld "Which" JoystickID, fld "Button" .uint8,
   fld "Down" .bool, fld "_" .uint8, fld "_" .uint8]

/-- The struct `GamepadDeviceEvent`. -/
def GamepadDeviceEvent : GoType := structOf
  [("CommonEvent", CommonEvent), fld "Which" JoystickID]

/-- The struct `GamepadTouchpadEvent`. -/
def GamepadTouchpadEvent : GoType := structOf
  [("CommonEvent", CommonEvent), fld "Which" JoystickID, fld "Touchpad" .int32,
   fld "Finger" .int32, fld "X" .float32, fld "Y" .float32, fld "Pressure" .float32]

/-- The struct `GamepadSensorEvent`. -/
def GamepadSensorEvent : GoType := structOf
  [("CommonEvent", CommonEvent), fld "Which" JoystickID, fld "Sensor" .int32,
   ("Data", .array 3 .float32), fld "SensorTimestamp" .uint64]

/-- The struct `AudioDeviceEvent`. -/
def AudioDeviceEvent : GoType := structOf
  [("CommonEvent", CommonEvent), fld "Which" AudioDeviceID, fld "Recording" .bool,
   fld "_" .uint8, fld "_" .uint8, fld "_" .uint8]

/-- The struct `CameraDeviceEvent`. -/
def CameraDeviceEvent : GoType := structOf
  [("CommonEvent", CommonEvent), fld "Which" CameraID]

/-- The struct `RenderEvent`. -/
def RenderEvent : GoType := structOf
  [("CommonEvent", CommonEvent), fld "WindowID" WindowID]

/-- The struct `TouchFingerEvent`. -/
def TouchFingerEvent : GoType := structOf
  [("CommonEvent", CommonEvent), fld "TouchID" TouchID, fld "FingerID" FingerID,
   fld "X" .float32, fld "Y" .float32, fld "Dx" .float32, fld "Dy" .float32,
   fld "Pressure" .float32, fld "WindowID" WindowID]

/-- The struct `PenProximityEvent`. -/
def PenProximityEvent : GoType := structOf
  [("CommonEvent", CommonEvent), fld "WindowID" WindowID, fld "Which" PenID]

/-- The struct `PenMotionEvent`. -/
def PenMotionEvent : GoType := structOf
  [("CommonEvent", CommonEvent), fld "WindowID" WindowID, fld "Which" PenID,
   fld "PenState" PenInputFlags, fld "X" .float32, fld "Y" .float32]

/-- The struct `PenTouchEvent`. -/
def PenTouchEvent : GoType := structOf
  [("CommonEvent", CommonEvent), fld "WindowID" WindowID, fld "Which" PenID,
   fld "PenState" PenInputFlags, fld "X" .float32, fld "Y" .float32, fld "Eraser" .bool,
   fld "Down" .bool]

/-- The struct `PenButtonEvent`. -/
def PenButtonEvent : GoType := structOf
  [("CommonEvent", CommonEvent), fld "WindowID" WindowID, fld "Which" PenID,
   fld "PenState" PenInputFlags, fld "X" .float32, fld "Y" .float32, fld "Button" .uint8,
   fld "Down" .bool]

/-- The struct `PenAxisEvent`. -/
def PenAxisEvent : GoType := structOf
  [("CommonEvent", CommonEvent), fld "WindowID" WindowID, fld "Which" PenID,
   fld "PenState" PenInputFlags, fld "X" .float32, fld "Y" .float32, fld "Axis" PenAxis,
   fld "Value" .float32]

/-- The struct `DropEvent`. -/
def DropEvent : GoType := structOf
  [("CommonEvent", CommonEvent), fld "WindowID" WindowID, fld "X" .float32,
   fld "Y" .float32, fld "source" .pointer, fld "data" .pointer]

/-- The struct `ClipboardEvent`. -/
def ClipboardEvent : GoType := structOf
  [("CommonEvent", CommonEvent), fld "Owner" .bool, fld "NumMimeTypes" .int32,
   fld "mimeTypes" .pointer]

/-- The struct `SensorEvent`. -/
def SensorEvent : GoType := structOf
  [("CommonEvent", CommonEvent), fld "Which" SensorID, ("Data", .array 6 .float32),
   fld "SensorTimestamp" .uint64]

/-- The struct `QuitEvent`. -/
def QuitEvent : GoType := structOf [("CommonEvent", CommonEvent)]

/-- The struct `UserEvent`. -/
def UserEvent : GoType := structOf
  [("CommonEvent", CommonEvent), fld "WindowID" WindowID, fld "Code" .int32,
   fld "Data1" .pointer, fld "Data2" .pointer]

end Layout

/-- The type `Event`: a block of 128 bytes. -/
structure Event where
  bytes : List Nat
  size_eq : bytes.length = 128
  byte_lt : ∀ b ∈ bytes, b < 256

/-- The event type `EventQuit`. -/
def EventQuit : Nat := 0x100

/-- The event type `EventWindowResized`. -/
def EventWindowResized : Nat := 0x206

namespace Event

/-- The method `Type` of `Event`: the `EventType` at the start of the block. -/
def eventType (e : Event) : Nat := loadLE e.bytes 0 Layout.EventType.size

/-- The method `Common`. -/
def Common (e : Event) : Option Overlay := load Layout.CommonEvent e.bytes 0
/-- The method `Display`. -/
def Display (e : Event) : Option Overlay := load Layout.DisplayEvent e.bytes 0
/-- The method `Window`. -/
def Window (e : Event) : Option Overlay := load Layout.WindowEvent e.bytes 0
/-- The method `KDevice`. -/
def KDevice (e : Event) : Option Overlay := load Layout.KeyboardDeviceEvent e.bytes 0
/-- The method `Key`. -/
def Key (sc kc km : Scalar) (e : Event) : Option Overlay :=
  load (Layout.KeyboardEvent sc kc km) e.bytes 0
/-- The method `Edit`. -/
def Edit (e : Event) : Option Overlay := load Layout.TextEditingEvent e.bytes 0
/-- The method `EditCandidates`. -/
def EditCandidates (e : Event) : Option Overlay :=
  load Layout.TextEditingCandidatesEvent e.bytes 0
/-- The method `Text`. -/
def Text (e : Event) : Option Overlay := load Layout.TextInputEvent e.bytes 0
/-- The method `MDevice`. -/
def MDevice (e : Event) : Option Overlay := load Layout.MouseDeviceEvent e.bytes 0
/-- The method `Motion`. -/
def Motion (e : Event) : Option Overlay := load Layout.MouseMotionEvent e.bytes 0
/-- The method `Button`. -/
def Button (e : Event) : Option Overlay := load Layout.MouseButtonEvent e.bytes 0
/-- The method `Wheel`. -/
def Wheel (e : Event) : Option Overlay := load Layout.MouseWheelEvent e.bytes 0
/-- The method `JDevice`. -/
def JDevice (e : Event) : Option Overlay := load Layout.JoyDeviceEvent e.bytes 0
/-- The method `JAxis`. -/
def JAxis (e : Event) : Option Overlay := load Layout.JoyAxisEvent e.bytes 0
/-- The method `JBall`. -/
def JBall (e : Event) : Option Overlay := load Layout.JoyBallEvent e.bytes 0
/-- The method `JHat`. -/
def JHat (e : Event) : Option Overlay := load Layout.JoyHatEvent e.bytes 0
/-- The method `JButton`. -/
def JButton (e : Event) : Option Overlay := load Layout.JoyButtonEvent e.bytes 0
/-- The method `JBattery`. -/
def JBattery (e : Event) : Option Overlay := load Layout.JoyBatteryEvent e.bytes 0
/-- The method `GDevice`. -/
def GDevice (e : Event) : Option Overlay := load Layout.GamepadDeviceEvent e.bytes 0
/-- The method `GAxis`. -/
def GAxis (e : Event) : Option Overlay := load Layout.GamepadAxisEvent e.bytes 0
/-- The method `GButton`. -/
def GButton (e : Event) : Option Overlay := load Layout.GamepadButtonEvent e.bytes 0
/-- The method `GTouchpad`. -/
def GTouchpad (e : Event) : Option Overlay := load Layout.GamepadTouchpadEvent e.bytes 0
/-- The method `GSensor`. -/
def GSensor (e : Event) : Option Overlay := load Layout.GamepadSensorEvent e.bytes 0
/-- The method `ADevice`. -/
def ADevice (e : Event) : Option Overlay := load Layout.AudioDeviceEvent e.bytes 0
/-- The method `CDevice`. -/
def CDevice (e : Event) : Option Overlay := load Layout.CameraDeviceEvent e.bytes 0
/-- The method `Sensor`. -/
def Sensor (e : Event) : Option Overlay := load Layout.SensorEvent e.bytes 0
/-- The method `Quit`. -/
def Quit (e : Event) : Option Overlay := load Layout.QuitEvent e.bytes 0
/-- The method `User`. -/
def User (e : Event) : Option Overlay := load Layout.UserEvent e.bytes 0
/-- The method `TFinger`. -/
def TFinger (e : Event) : Option Overlay := load Layout.TouchFingerEvent e.bytes 0
/-- The method `PProximity`. -/
def PProximity (e : Event) : Option Overlay := load Layout.PenProximityEvent e.bytes 0
/-- The method `PTouch`. -/
def PTouch (e : Event) : Option Overlay := load Layout.PenTouchEvent e.bytes 0
/-- The method `PMotion`. -/
def PMotion (e : Event) : Option Overlay := load Layout.PenMotionEvent e.bytes 0
/-- The method `PButton`. -/
def PButton (e : Event) : Option Overlay := load Layout.PenButtonEvent e.bytes 0
/-- The method `PAxis`. -/
def PAxis (e : Event) : Option Overlay := load Layout.PenAxisEvent e.bytes 0
/-- The method `Render`. -/
def Render (e : Event) : Option Overlay := load Layout.RenderEvent e.bytes 0
/-- The method `Drop`. -/
def Drop (e : Event) : Option Overlay := load Layout.DropEvent e.bytes 0
/-- The method `Clipboard`. -/
def Clipboard (e : Event) : Option Overlay := load Layout.ClipboardEvent e.bytes 0

/-- Every accessor of `Event` that returns an overlay struct: its name, the
struct type it returns, and the accessor itself. -/
def accessors (sc kc km : Scalar) : List (String × GoType × (Event → Option Overlay)) :=
  [("Common", Layout.CommonEvent, Common),
   ("Display", Layout.DisplayEvent, Display),
   ("Window", Layout.WindowEvent, Window),
   ("KDevice", Layout.KeyboardDeviceEvent, KDevice),
   ("Key", Layout.KeyboardEvent sc kc km, Key sc kc km),
   ("Edit", Layout.TextEditingEvent, Edit),
   ("EditCandidates", Layout.TextEditingCandidatesEvent, EditCandidates),
   ("Text", Layout.TextInputEvent, Text),
   ("MDevice", Layout.MouseDeviceEvent, MDevice),
   ("Motion", Layout.MouseMotionEvent, Motion),
   ("Button", Layout.MouseButtonEvent, Button),
   ("Wheel", Layout.MouseWheelEvent, Wheel),
   ("JDevice", Layout.JoyDeviceEvent, JDevice),
   ("JAxis", Layout.JoyAxisEvent, JAxis),
   ("JBall", Layout.JoyBallEvent, JBall),
   ("JHat", Layout.JoyHatEvent, JHat),
   ("JButton", Layout.JoyButtonEvent, JButton),
   ("JBattery", Layout.JoyBatteryEvent, JBattery),
   ("GDevice", Layout.GamepadDeviceEvent, GDevice),
   ("GAxis", Layout.GamepadAxisEvent, GAxis),
   ("GButton", Layout.GamepadButtonEvent, GButton),
   ("GTouchpad", Layout.GamepadTouchpadEvent, GTouchpad),
   ("GSensor", Layout.GamepadSensorEvent, GSensor),
   ("ADevice", Layout.AudioDeviceEvent, ADevice),
   ("CDevice", Layout.CameraDeviceEvent, CDevice),
   ("Sensor", Layout.SensorEvent, Sensor),
   ("Quit", Layout.QuitEvent, Quit),
   ("User", Layout.UserEvent, User),
   ("TFinger", Layout.TouchFingerEvent, TFinger),
   ("PProximity", Layout.PenProximityEvent, PProximity),
   ("PTouch", Layout.PenTouchEvent, PTouch),
   ("PMotion", Layout.PenMotionEvent, PMotion),
   ("PButton", Layout.PenButtonEvent, PButton),
   ("PAxis", Layout.PenAxisEvent, PAxis),
   ("Render", Layout.RenderEvent, Render),
   ("Drop", Layout.DropEvent, Drop),
   ("Clipboard", Layout.ClipboardEvent, Clipboard)]

/-- Write byte `b` at offset `i` of the block (no change when `i` is outside). -/
def setByte (e : Event) (i b : Nat) : Event :=
  ⟨e.bytes.set i (b % 256), by rw [List.length_set]; exact e.size_eq, fun x hx => by
    rcases List.mem_or_eq_of_mem_set hx with h | h
    · exact e.byte_lt x h
    · rw [h]; exact Nat.mod_lt b (by decide)⟩

/-- Write the low `w` bytes of `v` at offset `off`, least significant first. -/
def storeLE (e : Event) (off : Nat) : Nat → Nat → Event
  | 0, _ => e
  | w + 1, v => (e.setByte off v).storeLE (off + 1) w (v / 256)

/-- Write `v` as a little-endian `uint32` at offset `off`. -/
def putUint32 (e : Event) (off v : Nat) : Event := e.storeLE off 4 v

/-- Write `v` as a little-endian `uint64` at offset `off`. -/
def putUint64 (e : Event) (off v : Nat) : Event := e.storeLE off 8 v

/-- Write `v` as a little-endian two's complement `int32` at offset `off`. -/
def putInt32 (e : Event) (off : Nat) (v : Int) : Event :=
  e.storeLE off 4 (v % 2 ^ 32).toNat

/-- A window event written field by field in native byte order: `type`,
`timestamp`, `windowID`, `data1` and `data2` stored over the block `e` at
offsets 0, 8, 16, 20 and 24. -/
def withWindowFields (e : Event) (type timestamp windowID : Nat) (data1 data2 : Int) :
    Event :=
  ((((e.putUint32 0 type).putUint64 8 timestamp).putUint32 16 windowID).putInt32 20
    data1).putInt32 24 data2

end Event

/-! ## Flag constants (sdl/sdl_video.go, sdl/sdl_init.go) -/

/-- The `WindowFlags` constant `WindowFullscreen` (a `uint64`). -/
def WindowFullscreen : Nat := 0x0000000000000001
/-- The `WindowFlags` constant `WindowOpenGL` (a `uint64`). -/
def WindowOpenGL : Nat := 0x0000000000000002
/-- The `WindowFlags` constant `WindowOccluded` (a `uint64`). -/
def WindowOccluded : Nat := 0x0000000000000004
/-- The `WindowFlags` constant `WindowHidden` (a `uint64`). -/
def WindowHidden : Nat := 0x0000000000000008
/-- The `WindowFlags` constant `WindowBorderless` (a `uint64`). -/
def WindowBorderless : Nat := 0x0000000000000010
/-- The `WindowFlags` constant `WindowResizable` (a `uint64`). -/
def WindowResizable : Nat := 0x0000000000000020
/-- The `WindowFlags` constant `WindowMinimized` (a `uint64`). -/
def WindowMinimized : Nat := 0x0000000000000040
/-- The `WindowFlags` constant `WindowMaximized` (a `uint64`). -/
def WindowMaximized : Nat := 0x0000000000000080
/-- The `WindowFlags` constant `WindowMouseGrabbed` (a `uint64`). -/
def WindowMouseGrabbed : Nat := 0x0000000000000100
/-- The `WindowFlags` constant `WindowInputFocus` (a `uint64`). -/
def WindowInputFocus : Nat := 0x0000000000000200
/-- The `WindowFlags` constant `WindowMouseFocus` (a `uint64`). -/
def WindowMouseFocus : Nat := 0x0000000000000400
/-- The `WindowFlags` constant `WindowExternal` (a `uint64`). -/
def WindowExternal : Nat := 0x0000000000000800
/-- The `WindowFlags` constant `WindowModal` (a `uint64`). -/
def WindowModal : Nat := 0x0000000000001000
/-- The `WindowFlags` constant `WindowHighPixelDensity` (a `uint64`). -/
def WindowHighPixelDensity : Nat := 0x0000000000002000
/-- The `WindowFlags` constant `WindowMouseCapture` (a `uint64`). -/
def WindowMouseCapture : Nat := 0x0000000000004000
/-- The `WindowFlags` constant `WindowMouseRelativeMode` (a `uint64`). -/
def WindowMouseRelativeMode : Nat := 0x0000000000008000
/-- The `WindowFlags` constant `WindowAlwaysOnTop` (a `uint64`). -/
def WindowAlwaysOnTop : Nat := 0x0000000000010000
/-- The `WindowFlags` constant `WindowUtility` (a `uint64`). -/
def WindowUtility : Nat := 0x0000000000020000
/-- The `WindowFlags` constant `WindowTooltip` (a `uint64`). -/
def WindowTooltip : Nat := 0x0000000000040000
/-- The `WindowFlags` constant `WindowPopupMenu` (a `uint64`). -/
def WindowPopupMenu : Nat := 0x0000000000080000
/-- The `WindowFlags` constant `WindowKeyboardGrabbed` (a `uint64`). -/
def WindowKeyboardGrabbed : Nat := 0x0000000000100000
/-- The `WindowFlags` constant `WindowVulkan` (a `uint64`). -/
def WindowVulkan : Nat := 0x0000000010000000
/-- The `WindowFlags` constant `WindowMetal` (a `uint64`). -/
def WindowMetal : Nat := 0x0000000020000000
/-- The `WindowFlags` constant `WindowTransparent` (a `uint64`). -/
def WindowTransparent : Nat := 0x0000000040000000
/-- The `WindowFlags` constant `WindowNotFocusable` (a `uint64`). -/
def WindowNotFocusable : Nat := 0x0000000080000000

/-- Every `WindowFlags` constant, in declaration order. -/
def windowFlagsConstants : List Nat :=
  [WindowFullscreen, WindowOpenGL, WindowOccluded, WindowHidden, WindowBorderless,
   WindowResizable, WindowMinimized, WindowMaximized, WindowMouseGrabbed, WindowInputFocus,
   WindowMouseFocus, WindowExternal, WindowModal, WindowHighPixelDensity,
   WindowMouseCapture, WindowMouseRelativeMode, WindowAlwaysOnTop, WindowUtility,
   WindowTooltip, WindowPopupMenu, WindowKeyboardGrabbed, WindowVulkan, WindowMetal,
   WindowTransparent, WindowNotFocusable]

/-- The `InitFlags` constant `InitAudio` (a `uint32`). -/
def InitAudio : Nat := 0x00000010
/-- The `InitFlags` constant `InitVideo` (a `uint32`). -/
def InitVideo : Nat := 0x00000020
/-- The `InitFlags` constant `InitJoystick` (a `uint32`). -/
def InitJoystick : Nat := 0x00000200
/-- The `InitFlags` constant `InitHaptic` (a `uint32`). -/
def InitHaptic : Nat := 0x00001000
/-- The `InitFlags` constant `InitGamepad` (a `uint32`). -/
def InitGamepad : Nat := 0x00002000
/-- The `InitFlags` constant `InitEvents` (a `uint32`). -/
def InitEvents : Nat := 0x00004000
/-- The `InitFlags` constant `InitSensor` (a `uint32`). -/
def InitSensor : Nat := 0x00008000
/-- The `InitFlags` constant `InitCamera` (a `uint32`). -/
def InitCamera : Nat := 0x00010000

/-- Every `InitFlags` constant, in declaration order. -/
def initFlagsConstants : List Nat :=
  [InitAudio, InitVideo, InitJoystick, InitHaptic, InitGamepad, InitEvents, InitSensor,
   InitCamera]

/-! ## Event filter callback (sdl/sdl_events.go) -/

/-- The function `NewEventFilter`. A Go filter may have effects, so it is a
function that passes a state: from `userdata`, the event pointer and the
state before the call to its boolean result and the state after. The result
is the native-facing function handed to `purego.NewCallback`; it returns a
`uintptr`. -/
def NewEventFilter {σ : Type} (filter : Nat → Nat → σ → Bool × σ) :
    Nat → Nat → σ → Nat × σ :=
  fun userdata event st =>
    match filter userdata event st with
    | (true, st1) => (1, st1)
    | (false, st1) => (0, st1)

/-- A filter that decides by `f` and appends the arguments of each call to a log. -/
def recordCalls (f : Nat → Nat → Bool) : Nat → Nat → List (Nat × Nat) → Bool × List (Nat × Nat) :=
  fun userdata event log => (f userdata event, log ++ [(userdata, event)])

/-! ## Strings (internal/convert, sdl/sdl_messagebox.go, sdl/sdl_dialog.go) -/

/-- A Go string: its bytes. -/
abbrev GoString := List Nat

/-- A `*byte`: `none` is the null pointer, `some buf` a pointer to the first of
the bytes `buf`. -/
abbrev BytePtr := Option (List Nat)

namespace convert

/-- Modelled from the spec: `ToBytePtr` of `internal/convert`, which is not
among the sources. A managed string is converted to a null-terminated byte
sequence; the result points to its first byte. -/
def ToBytePtr (s : GoString) : BytePtr := some (s ++ [0])

/-- Modelled from the spec: `ToString` of `internal/convert`, which is not
among the sources. It copies a null-terminated byte sequence into a managed
string, and returns the empty string for a null pointer. -/
def ToString (p : BytePtr) : GoString :=
  match p with
  | none => []
  | some buf => buf.takeWhile (fun b => b != 0)

end convert

/-- The struct `MessageBoxButtonData`. -/
structure MessageBoxButtonData where
  Flags : Nat
  ButtonID : Int
  text : BytePtr

/-- The method `Text` of `MessageBoxButtonData`. -/
def MessageBoxButtonData.Text (m : MessageBoxButtonData) : GoString :=
  convert.ToString m.text

/-- The struct `MessageBoxData`. The pointers `Window` and `ColorScheme` are
addresses; `buttons` is null or points to the first element of an array of
buttons. -/
structure MessageBoxData where
  Flags : Nat
  Window : Nat
  title : BytePtr
  message : BytePtr
  numbuttons : Int
  buttons : Option (List MessageBoxButtonData)
  ColorScheme : Nat

/-- The method `Title` of `MessageBoxData`. -/
def MessageBoxData.Title (m : MessageBoxData) : GoString := convert.ToString m.title

/-- The method `SetTitle` of `MessageBoxData`. -/
def MessageBoxData.SetTitle (m : MessageBoxData) (s : GoString) : MessageBoxData :=
  { m with title := convert.ToBytePtr s }

/-- The method `Message` of `MessageBoxData`. -/
def MessageBoxData.Message (m : MessageBoxData) : GoString := convert.ToString m.message

/-- The method `SetMessage` of `MessageBoxData`. -/
def MessageBoxData.SetMessage (m : MessageBoxData) (s : GoString) : MessageBoxData :=
  { m with message := convert.ToBytePtr s }

/-- The struct `CommonEvent` as a value; the field `Type` is named `type`. -/
structure CommonEvent where
  type : Nat
  reserved : Nat
  Timestamp : Nat

/-- The struct `DropEvent` as a value; `X` and `Y` are the bits of a `float32`. -/
structure DropEvent where
  common : CommonEvent
  WindowID : Nat
  X : Nat
  Y : Nat
  source : BytePtr
  data : BytePtr

/-- The method `Source` of `DropEvent`. -/
def DropEvent.Source (d : DropEvent) : GoString := convert.ToString d.source

/-- The method `Data` of `DropEvent`. -/
def DropEvent.Data (d : DropEvent) : GoString := convert.ToString d.data

/-- The loop `for i, v := range src` with body `dst[i] = convert.ToString(v)`,
over a slice `src` of native string pointers that starts at `base`: `k`
iterations remain and the next index is `i`. -/
def stringsLoop (heap : Heap BytePtr) (base : Nat) :
    Nat → Nat → List GoString → Run (List GoString)
  | 0, _, dst => ⟨.ok dst, []⟩
  | k + 1, i, dst =>
    match heap (base + i) with
    | none => ⟨.error (.fault (base + i)), [.load (base + i)]⟩
    | some v =>
      if i < dst.length then
        let r := stringsLoop heap base k (i + 1) (dst.set i (convert.ToString v))
        ⟨r.result, .load (base + i) :: r.trace⟩
      else ⟨.error .indexOutOfRange, [.load (base + i)]⟩

/-- The struct `ClipboardEvent` as a value; `mimeTypes` is the address of a
native array of string pointers. -/
structure ClipboardEvent where
  common : CommonEvent
  Owner : Bool
  NumMimeTypes : Int
  mimeTypes : Nat

/-- The method `MimeTypes` of `ClipboardEvent`; `heap` is the native memory
holding arrays of string pointers. -/
def ClipboardEvent.MimeTypes (heap : Heap BytePtr) (c : ClipboardEvent) :
    Run (GoSlice GoString) :=
  match makeSlice c.NumMimeTypes with
  | .error e => ⟨.error e, []⟩
  | .ok mimeTypes =>
    match sliceAt c.mimeTypes c.NumMimeTypes with
    | .error e => ⟨.error e, []⟩
    | .ok src =>
      let r := stringsLoop heap src.1 src.2 0 mimeTypes
      ⟨r.result.map some, r.trace⟩

/-- The struct `TextEditingCandidatesEvent` as a value; `candidates` is the
address of a native array of string pointers. -/
structure TextEditingCandidatesEvent where
  common : CommonEvent
  WindowID : Nat
  candidates : Nat
  numCandidates : Int
  SelectedCandidate : Int
  Horizontal : Bool

/-- The method `Candidates` of `TextEditingCandidatesEvent`. -/
def TextEditingCandidatesEvent.Candidates (heap : Heap BytePtr)
    (t : TextEditingCandidatesEvent) : Run (GoSlice GoString) :=
  if t.candidates = 0 ∨ t.numCandidates ≤ 0 then ⟨.ok (some []), []⟩
  else
    match makeSlice t.numCandidates with
    | .error e => ⟨.error e, []⟩
    | .ok candidates =>
      match sliceAt t.candidates t.numCandidates with
      | .error e => ⟨.error e, []⟩
      | .ok src =>
        let r := stringsLoop heap src.1 src.2 0 candidates
        ⟨r.result.map some, r.trace⟩

/-- The struct `Color`. -/
structure Color where
  R : Nat
  G : Nat
  B : Nat
  A : Nat
  deriving DecidableEq, Repr

/-- The struct `Palette`; `colors` is the address of a native array of `Color`. -/
structure Palette where
  ncolors : Int
  colors : Nat
  version : Nat
  refcount : Int

/-- The method `Colors` of `Palette`, on a pointer to a palette (`none` is nil).
The slice it returns is a view of native memory: base address and length,
`none` for the nil slice. -/
def Palette.Colors (p : Option Palette) : Except GoError (Option (Nat × Nat)) :=
  match p with
  | none => .ok none
  | some pal =>
    if pal.colors = 0 then .ok none
    else (sliceAt pal.colors pal.ncolors).map some

/-- Element `i` of a slice over native memory, `none` when `i` is not below the
length or the cell is not mapped. -/
def sliceIndex {T : Type} (heap : Heap T) (s : Nat × Nat) (i : Nat) : Option T :=
  if i < s.2 then heap (s.1 + i) else none

/-! ## Pixel formats (sdl/sdl_pixels.go) -/

/-- The `PixelType` constant `PixelTypeUnknown` (iota = 0). -/
def PixelTypeUnknown : Nat := 0
/-- The `PixelType` constant `PixelTypeIndex1` (iota = 1). -/
def PixelTypeIndex1 : Nat := 1
/-- The `PixelType` constant `PixelTypeIndex4` (iota = 2). -/
def PixelTypeIndex4 : Nat := 2
/-- The `PixelType` constant `PixelTypeIndex8` (iota = 3). -/
def PixelTypeIndex8 : Nat := 3
/-- The `PixelType` constant `PixelTypePacked8` (iota = 4). -/
def PixelTypePacked8 : Nat := 4
/-- The `PixelType` constant `PixelTypePacked16` (iota = 5). -/
def PixelTypePacked16 : Nat := 5
/-- The `PixelType` constant `PixelTypePacked32` (iota = 6). -/
def PixelTypePacked32 : Nat := 6
/-- The `PixelType` constant `PixelTypeArrayU8` (iota = 7). -/
def PixelTypeArrayU8 : Nat := 7
/-- The `PixelType` constant `PixelTypeArrayU16` (iota = 8). -/
def PixelTypeArrayU16 : Nat := 8
/-- The `PixelType` constant `PixelTypeArrayU32` (iota = 9). -/
def PixelTypeArrayU32 : Nat := 9
/-- The `PixelType` constant `PixelTypeArrayF16` (iota = 10). -/
def PixelTypeArrayF16 : Nat := 10
/-- The `PixelType` constant `PixelTypeArrayF32` (iota = 11). -/
def PixelTypeArrayF32 : Nat := 11
/-- The `PixelType` constant `PixelTypeIndex2` (iota = 12). -/
def PixelTypeIndex2 : Nat := 12

/-- The `BitmapOrder` constant `BitmapOrderNone` (iota = 0). -/
def BitmapOrderNone : Nat := 0
/-- The `BitmapOrder` constant `BitmapOrder4321` (iota = 1). -/
def BitmapOrder4321 : Nat := 1
/-- The `BitmapOrder` constant `BitmapOrder1234` (iota = 2). -/
def BitmapOrder1234 : Nat := 2

/-- The `PackedOrder` constant `PackedOrderNone` (iota = 0). -/
def PackedOrderNone : Nat := 0
/-- The `PackedOrder` constant `PackedOrderXRGB` (iota = 1). -/
def PackedOrderXRGB : Nat := 1
/-- The `PackedOrder` constant `PackedOrderRGBX` (iota = 2). -/
def PackedOrderRGBX : Nat := 2
/-- The `PackedOrder` constant `PackedOrderARGB` (iota = 3). -/
def PackedOrderARGB : Nat := 3
/-- The `PackedOrder` constant `PackedOrderRGBA` (iota = 4). -/
def PackedOrderRGBA : Nat := 4
/-- The `PackedOrder` constant `PackedOrderXBGR` (iota = 5). -/
def PackedOrderXBGR : Nat := 5
/-- The `PackedOrder` constant `PackedOrderBGRX` (iota = 6). -/
def PackedOrderBGRX : Nat := 6
/-- The `PackedOrder` constant `PackedOrderABGR` (iota = 7). -/
def PackedOrderABGR : Nat := 7
/-- The `PackedOrder` constant `PackedOrderBGRA` (iota = 8). -/
def PackedOrderBGRA : Nat := 8

/-- The `ArrayOrder` constant `ArrayOrderNone` (iota = 0). -/
def ArrayOrderNone : Nat := 0
/-- The `ArrayOrder` constant `ArrayOrderRGB` (iota = 1). -/
def ArrayOrderRGB : Nat := 1
/-- The `ArrayOrder` constant `ArrayOrderRGBA` (iota = 2). -/
def ArrayOrderRGBA : Nat := 2
/-- The `ArrayOrder` constant `ArrayOrderARGB` (iota = 3). -/
def ArrayOrderARGB : Nat := 3
/-- The `ArrayOrder` constant `ArrayOrderBGR` (iota = 4). -/
def ArrayOrderBGR : Nat := 4
/-- The `ArrayOrder` constant `ArrayOrderBGRA` (iota = 5). -/
def ArrayOrderBGRA : Nat := 5
/-- The `ArrayOrder` constant `ArrayOrderABGR` (iota = 6). -/
def ArrayOrderABGR : Nat := 6

/-- The `PackedLayout` constant `PackedLayoutNone` (iota = 0). -/
def PackedLayoutNone : Nat := 0
/-- The `PackedLayout` constant `PackedLayout332` (iota = 1). -/
def PackedLayout332 : Nat := 1
/-- The `PackedLayout` constant `PackedLayout4444` (iota = 2). -/
def PackedLayout4444 : Nat := 2
/-- The `PackedLayout` constant `PackedLayout1555` (iota = 3). -/
def PackedLayout1555 : Nat := 3
/-- The `PackedLayout` constant `PackedLayout5551` (iota = 4). -/
def PackedLayout5551 : Nat := 4
/-- The `PackedLayout` constant `PackedLayout565` (iota = 5). -/
def PackedLayout565 : Nat := 5
/-- The `PackedLayout` constant `PackedLayout8888` (iota = 6). -/
def PackedLayout8888 : Nat := 6
/-- The `PackedLayout` constant `PackedLayout2101010` (iota = 7). -/
def PackedLayout2101010 : Nat := 7
/-- The `PackedLayout` constant `PackedLayout1010102` (iota = 8). -/
def PackedLayout1010102 : Nat := 8

/-- The `PixelFormat` constant `PixelFormatIndex1LSB`. -/
def PixelFormatIndex1LSB : Nat := 0x11100100
/-- The `PixelFormat` constant `PixelFormatIndex1MSB`. -/
def PixelFormatIndex1MSB : Nat := 0x11200100
/-- The `PixelFormat` constant `PixelFormatIndex2LSB`. -/
def PixelFormatIndex2LSB : Nat := 0x1C100200
/-- The `PixelFormat` constant `PixelFormatIndex2MSB`. -/
def PixelFormatIndex2MSB : Nat := 0x1C200200
/-- The `PixelFormat` constant `PixelFormatIndex4LSB`. -/
def PixelFormatIndex4LSB : Nat := 0x12100400
/-- The `PixelFormat` constant `PixelFormatIndex4MSB`. -/
def PixelFormatIndex4MSB : Nat := 0x12200400
/-- The `PixelFormat` constant `PixelFormatIndex8`. -/
def PixelFormatIndex8 : Nat := 0x13000801
/-- The `PixelFormat` constant `PixelFormatRGB332`. -/
def PixelFormatRGB332 : Nat := 0x14110801
/-- The `PixelFormat` constant `PixelFormatXRGB4444`. -/
def PixelFormatXRGB4444 : Nat := 0x15120C02
/-- The `PixelFormat` constant `PixelFormatXBGR4444`. -/
def PixelFormatXBGR4444 : Nat := 0x15520C02
/-- The `PixelFormat` constant `PixelFormatXRGB1555`. -/
def PixelFormatXRGB1555 : Nat := 0x15130F02
/-- The `PixelFormat` constant `PixelFormatXBGR1555`. -/
def PixelFormatXBGR1555 : Nat := 0x15530F02
/-- The `PixelFormat` constant `PixelFormatARGB4444`. -/
def PixelFormatARGB4444 : Nat := 0x15321002
/-- The `PixelFormat` constant `PixelFormatRGBA4444`. -/
def PixelFormatRGBA4444 : Nat := 0x15421002
/-- The `PixelFormat` constant `PixelFormatABGR4444`. -/
def PixelFormatABGR4444 : Nat := 0x15721002
/-- The `PixelFormat` constant `PixelFormatBGRA4444`. -/
def PixelFormatBGRA4444 : Nat := 0x15821002
/-- The `PixelFormat` constant `PixelFormatARGB1555`. -/
def PixelFormatARGB1555 : Nat := 0x15331002
/-- The `PixelFormat` constant `PixelFormatRGBA5551`. -/
def PixelFormatRGBA5551 : Nat := 0x15441002
/-- The `PixelFormat` constant `PixelFormatABGR1555`. -/
def PixelFormatABGR1555 : Nat := 0x15731002
/-- The `PixelFormat` constant `PixelFormatBGRA5551`. -/
def PixelFormatBGRA5551 : Nat := 0x15841002
/-- The `PixelFormat` constant `PixelFormatRGB565`. -/
def PixelFormatRGB565 : Nat := 0x15151002
/-- The `PixelFormat` constant `PixelFormatBGR565`. -/
def PixelFormatBGR565 : Nat := 0x15551002
/-- The `PixelFormat` constant `PixelFormatRGB24`. -/
def PixelFormatRGB24 : Nat := 0x17101803
/-- The `PixelFormat` constant `PixelFormatBGR24`. -/
def PixelFormatBGR24 : Nat := 0x17401803
/-- The `PixelFormat` constant `PixelFormatXRGB8888`. -/
def PixelFormatXRGB8888 : Nat := 0x16161804
/-- The `PixelFormat` constant `PixelFormatRGBX8888`. -/
def PixelFormatRGBX8888 : Nat := 0x16261804
/-- The `PixelFormat` constant `PixelFormatXBGR8888`. -/
def PixelFormatXBGR8888 : Nat := 0x16561804
/-- The `PixelFormat` constant `PixelFormatBGRX8888`. -/
def PixelFormatBGRX8888 : Nat := 0x16661804
/-- The `PixelFormat` constant `PixelFormatARGB8888`. -/
def PixelFormatARGB8888 : Nat := 0x16362004
/-- The `PixelFormat` constant `PixelFormatRGBA8888`. -/
def PixelFormatRGBA8888 : Nat := 0x16462004
/-- The `PixelFormat` constant `PixelFormatABGR8888`. -/
def PixelFormatABGR8888 : Nat := 0x16762004
/-- The `PixelFormat` constant `PixelFormatBGRA8888`. -/
def PixelFormatBGRA8888 : Nat := 0x16862004
/-- The `PixelFormat` constant `PixelFormatXRGB2101010`. -/
def PixelFormatXRGB2101010 : Nat := 0x16172004
/-- The `PixelFormat` constant `PixelFormatXBGR2101010`. -/
def PixelFormatXBGR2101010 : Nat := 0x16572004
/-- The `PixelFormat` constant `PixelFormatARGB2101010`. -/
def PixelFormatARGB2101010 : Nat := 0x16372004
/-- The `PixelFormat` constant `PixelFormatABGR2101010`. -/
def PixelFormatABGR2101010 : Nat := 0x16772004
/-- The `PixelFormat` constant `PixelFormatRGB48`. -/
def PixelFormatRGB48 : Nat := 0x18103006
/-- The `PixelFormat` constant `PixelFormatBGR48`. -/
def PixelFormatBGR48 : Nat := 0x18403006
/-- The `PixelFormat` constant `PixelFormatRGBA64`. -/
def PixelFormatRGBA64 : Nat := 0x18204008
/-- The `PixelFormat` constant `PixelFormatARGB64`. -/
def PixelFormatARGB64 : Nat := 0x18304008
/-- The `PixelFormat` constant `PixelFormatBGRA64`. -/
def PixelFormatBGRA64 : Nat := 0x18504008
/-- The `PixelFormat` constant `PixelFormatABGR64`. -/
def PixelFormatABGR64 : Nat := 0x18604008
/-- The `PixelFormat` constant `PixelFormatRGB48Float`. -/
def PixelFormatRGB48Float : Nat := 0x1A103006
/-- The `PixelFormat` constant `PixelFormatBGR48Float`. -/
def PixelFormatBGR48Float : Nat := 0x1A403006
/-- The `PixelFormat` constant `PixelFormatRGBA64Float`. -/
def PixelFormatRGBA64Float : Nat := 0x1A204008
/-- The `PixelFormat` constant `PixelFormatARGB64Float`. -/
def PixelFormatARGB64Float : Nat := 0x1A304008
/-- The `PixelFormat` constant `PixelFormatBGRA64Float`. -/
def PixelFormatBGRA64Float : Nat := 0x1A504008
/-- The `PixelFormat` constant `PixelFormatABGR64Float`. -/
def PixelFormatABGR64Float : Nat := 0x1A604008
/-- The `PixelFormat` constant `PixelFormatRGB96Float`. -/
def PixelFormatRGB96Float : Nat := 0x1B10600C
/-- The `PixelFormat` constant `PixelFormatBGR96Float`. -/
def PixelFormatBGR96Float : Nat := 0x1B40600C
/-- The `PixelFormat` constant `PixelFormatRGBA128Float`. -/
def PixelFormatRGBA128Float : Nat := 0x1B208010
/-- The `PixelFormat` constant `PixelFormatARGB128Float`. -/
def PixelFormatARGB128Float : Nat := 0x1B308010
/-- The `PixelFormat` constant `PixelFormatBGRA128Float`. -/
def PixelFormatBGRA128Float : Nat := 0x1B508010
/-- The `PixelFormat` constant `PixelFormatABGR128Float`. -/
def PixelFormatABGR128Float : Nat := 0x1B608010

/-- The function `DefinePixelFormat`. `PixelFormat` is a `uint32`: each shift
is taken modulo `2 ^ 32`; `bitsPerPixel` and `bytesPerPixel` are bytes. -/
def DefinePixelFormat (pixelType order layout bitsPerPixel bytesPerPixel : Nat) : Nat :=
  1 <<< 28 ||| (pixelType <<< 24) % 2 ^ 32 ||| (order <<< 20) % 2 ^ 32
    ||| (layout <<< 16) % 2 ^ 32 ||| (bitsPerPixel <<< 8) % 2 ^ 32 ||| bytesPerPixel

/-- Every predefined non-FourCC `PixelFormat` constant, paired with
`DefinePixelFormat` applied to the pixel type, component order, layout, bits per
pixel and bytes per pixel its name denotes. -/
def pixelFormatTable : List (Nat × Nat) :=
  [(PixelFormatIndex1LSB, DefinePixelFormat PixelTypeIndex1 BitmapOrder4321 PackedLayoutNone 1 0),
   (PixelFormatIndex1MSB, DefinePixelFormat PixelTypeIndex1 BitmapOrder1234 PackedLayoutNone 1 0),
   (PixelFormatIndex2LSB, DefinePixelFormat PixelTypeIndex2 BitmapOrder4321 PackedLayoutNone 2 0),
   (PixelFormatIndex2MSB, DefinePixelFormat PixelTypeIndex2 BitmapOrder1234 PackedLayoutNone 2 0),
   (PixelFormatIndex4LSB, DefinePixelFormat PixelTypeIndex4 BitmapOrder4321 PackedLayoutNone 4 0),
   (PixelFormatIndex4MSB, DefinePixelFormat PixelTypeIndex4 BitmapOrder1234 PackedLayoutNone 4 0),
   (PixelFormatIndex8, DefinePixelFormat PixelTypeIndex8 BitmapOrderNone PackedLayoutNone 8 1),
   (PixelFormatRGB332, DefinePixelFormat PixelTypePacked8 PackedOrderXRGB PackedLayout332 8 1),
   (PixelFormatXRGB4444, DefinePixelFormat PixelTypePacked16 PackedOrderXRGB PackedLayout4444 12 2),
   (PixelFormatXBGR4444, DefinePixelFormat PixelTypePacked16 PackedOrderXBGR PackedLayout4444 12 2),
   (PixelFormatXRGB1555, DefinePixelFormat PixelTypePacked16 PackedOrderXRGB PackedLayout1555 15 2),
   (PixelFormatXBGR1555, DefinePixelFormat PixelTypePacked16 PackedOrderXBGR PackedLayout1555 15 2),
   (PixelFormatARGB4444, DefinePixelFormat PixelTypePacked16 PackedOrderARGB PackedLayout4444 16 2),
   (PixelFormatRGBA4444, DefinePixelFormat PixelTypePacked16 PackedOrderRGBA PackedLayout4444 16 2),
   (PixelFormatABGR4444, DefinePixelFormat PixelTypePacked16 PackedOrderABGR PackedLayout4444 16 2),
   (PixelFormatBGRA4444, DefinePixelFormat PixelTypePacked16 PackedOrderBGRA PackedLayout4444 16 2),
   (PixelFormatARGB1555, DefinePixelFormat PixelTypePacked16 PackedOrderARGB PackedLayout1555 16 2),
   (PixelFormatRGBA5551, DefinePixelFormat PixelTypePacked16 PackedOrderRGBA PackedLayout5551 16 2),
   (PixelFormatABGR1555, DefinePixelFormat PixelTypePacked16 PackedOrderABGR PackedLayout1555 16 2),
   (PixelFormatBGRA5551, DefinePixelFormat PixelTypePacked16 PackedOrderBGRA PackedLayout5551 16 2),
   (PixelFormatRGB565, DefinePixelFormat PixelTypePacked16 PackedOrderXRGB PackedLayout565 16 2),
   (PixelFormatBGR565, DefinePixelFormat PixelTypePacked16 PackedOrderXBGR PackedLayout565 16 2),
   (PixelFormatRGB24, DefinePixelFormat PixelTypeArrayU8 ArrayOrderRGB PackedLayoutNone 24 3),
   (PixelFormatBGR24, DefinePixelFormat PixelTypeArrayU8 ArrayOrderBGR PackedLayoutNone 24 3),
   (PixelFormatXRGB8888, DefinePixelFormat PixelTypePacked32 PackedOrderXRGB PackedLayout8888 24 4),
   (PixelFormatRGBX8888, DefinePixelFormat PixelTypePacked32 PackedOrderRGBX PackedLayout8888 24 4),
   (PixelFormatXBGR8888, DefinePixelFormat PixelTypePacked32 PackedOrderXBGR PackedLayout8888 24 4),
   (PixelFormatBGRX8888, DefinePixelFormat PixelTypePacked32 PackedOrderBGRX PackedLayout8888 24 4),
   (PixelFormatARGB8888, DefinePixelFormat PixelTypePacked32 PackedOrderARGB PackedLayout8888 32 4),
   (PixelFormatRGBA8888, DefinePixelFormat PixelTypePacked32 PackedOrderRGBA PackedLayout8888 32 4),
   (PixelFormatABGR8888, DefinePixelFormat PixelTypePacked32 PackedOrderABGR PackedLayout8888 32 4),
   (PixelFormatBGRA8888, DefinePixelFormat PixelTypePacked32 PackedOrderBGRA PackedLayout8888 32 4),
   (PixelFormatXRGB2101010, DefinePixelFormat PixelTypePacked32 PackedOrderXRGB PackedLayout2101010 32 4),
   (PixelFormatXBGR2101010, DefinePixelFormat PixelTypePacked32 PackedOrderXBGR PackedLayout2101010 32 4),
   (PixelFormatARGB2101010, DefinePixelFormat PixelTypePacked32 PackedOrderARGB PackedLayout2101010 32 4),
   (PixelFormatABGR2101010, DefinePixelFormat PixelTypePacked32 PackedOrderABGR PackedLayout2101010 32 4),
   (PixelFormatRGB48, DefinePixelFormat PixelTypeArrayU16 ArrayOrderRGB PackedLayoutNone 48 6),
   (PixelFormatBGR48, DefinePixelFormat PixelTypeArrayU16 ArrayOrderBGR PackedLayoutNone 48 6),
   (PixelFormatRGBA64, DefinePixelFormat PixelTypeArrayU16 ArrayOrderRGBA PackedLayoutNone 64 8),
   (PixelFormatARGB64, DefinePixelFormat PixelTypeArrayU16 ArrayOrderARGB PackedLayoutNone 64 8),
   (PixelFormatBGRA64, DefinePixelFormat PixelTypeArrayU16 ArrayOrderBGRA PackedLayoutNone 64 8),
   (PixelFormatABGR64, DefinePixelFormat PixelTypeArrayU16 ArrayOrderABGR PackedLayoutNone 64 8),
   (PixelFormatRGB48Float, DefinePixelFormat PixelTypeArrayF16 ArrayOrderRGB PackedLayoutNone 48 6),
   (PixelFormatBGR48Float, DefinePixelFormat PixelTypeArrayF16 ArrayOrderBGR PackedLayoutNone 48 6),
   (PixelFormatRGBA64Float, DefinePixelFormat PixelTypeArrayF16 ArrayOrderRGBA PackedLayoutNone 64 8),
   (PixelFormatARGB64Float, DefinePixelFormat PixelTypeArrayF16 ArrayOrderARGB PackedLayoutNone 64 8),
   (PixelFormatBGRA64Float, DefinePixelFormat PixelTypeArrayF16 ArrayOrderBGRA PackedLayoutNone 64 8),
   (PixelFormatABGR64Float, DefinePixelFormat PixelTypeArrayF16 ArrayOrderABGR PackedLayoutNone 64 8),
   (PixelFormatRGB96Float, DefinePixelFormat PixelTypeArrayF32 ArrayOrderRGB PackedLayoutNone 96 12),
   (PixelFormatBGR96Float, DefinePixelFormat PixelTypeArrayF32 ArrayOrderBGR PackedLayoutNone 96 12),
   (PixelFormatRGBA128Float, DefinePixelFormat PixelTypeArrayF32 ArrayOrderRGBA PackedLayoutNone 128 16),
   (PixelFormatARGB128Float, DefinePixelFormat PixelTypeArrayF32 ArrayOrderARGB PackedLayoutNone 128 16),
   (PixelFormatBGRA128Float, DefinePixelFormat PixelTypeArrayF32 ArrayOrderBGRA PackedLayoutNone 128 16),
   (PixelFormatABGR128Float, DefinePixelFormat PixelTypeArrayF32 ArrayOrderABGR PackedLayoutNone 128 16)]

/-! ## Mouse buttons (sdl/sdl_mouse.go) -/

/-- The `MouseButtonFlags` constant `ButtonLeft` (`iota + 1`, iota = 0). -/
def ButtonLeft : Nat := 0 + 1
/-- The `MouseButtonFlags` constant `ButtonMiddle` (`iota + 1`, iota = 1). -/
def ButtonMiddle : Nat := 1 + 1
/-- The `MouseButtonFlags` constant `ButtonRight` (`iota + 1`, iota = 2). -/
def ButtonRight : Nat := 2 + 1
/-- The `MouseButtonFlags` constant `ButtonX1` (`iota + 1`, iota = 3). -/
def ButtonX1 : Nat := 3 + 1
/-- The `MouseButtonFlags` constant `ButtonX2` (`iota + 1`, iota = 4). -/
def ButtonX2 : Nat := 4 + 1
/-- The `MouseButtonFlags` constant `ButtonLMask`. -/
def ButtonLMask : Nat := 1 <<< (ButtonLeft - 1)
/-- The `MouseButtonFlags` constant `ButtonMMask`. -/
def ButtonMMask : Nat := 1 <<< (ButtonMiddle - 1)
/-- The `MouseButtonFlags` constant `ButtonRMask`. -/
def ButtonRMask : Nat := 1 <<< (ButtonRight - 1)
/-- The `MouseButtonFlags` constant `ButtonX1Mask`. -/
def ButtonX1Mask : Nat := 1 <<< (ButtonX1 - 1)
/-- The `MouseButtonFlags` constant `ButtonX2Mask`. -/
def ButtonX2Mask : Nat := 1 <<< (ButtonX2 - 1)

/-- The five buttons: index and mask. -/
def mouseButtons : List (Nat × Nat) :=
  [(ButtonLeft, ButtonLMask), (ButtonMiddle, ButtonMMask), (ButtonRight, ButtonRMask),
   (ButtonX1, ButtonX1Mask), (ButtonX2, ButtonX2Mask)]

/-- The button state formed by OR-ing the masks of the buttons in `set`. -/
def buttonState : List (Nat × Nat) → Nat
  | [] => 0
  | b :: rest => b.2 ||| buttonState rest

/-! ## Versions (sdl/sdl_version.go, img/sdl_image.go, ttf/sdl_ttf.go) -/

/-- The function `GetVersion` of package `sdl`; the argument is the `int32` the
native `sdlGetVersion()` returns. Go integer division truncates toward zero. -/
def GetVersion (version : Int) : Int × Int × Int :=
  (version.tdiv 1000000, (version.tdiv 1000).tmod 1000, version.tmod 1000)

/-- The function `Version` of package `img`, on the result of `imgVersion()`. -/
def img.Version (version : Int) : Int × Int × Int :=
  (version.tdiv 1000000, (version.tdiv 1000).tmod 1000, version.tmod 1000)

/-- The function `Version` of package `ttf`, on the result of `ttfVersion()`. -/
def ttf.Version (version : Int) : Int × Int × Int :=
  (version.tdiv 1000000, (version.tdiv 1000).tmod 1000, version.tmod 1000)

/-! ## Rectangles (sdl/sdl_rect.go) -/

/-- The value an `int32` computation yields for the mathematical result `x`
(two's complement wrap-around). -/
def wrapInt32 (x : Int) : Int := (x + 2 ^ 31) % 2 ^ 32 - 2 ^ 31

/-- The struct `Point`. -/
structure Point where
  X : Int
  Y : Int

/-- The struct `Rect`. -/
structure Rect where
  X : Int
  Y : Int
  W : Int
  H : Int

/-- The function `PointInRect`. -/
def PointInRect (p : Point) (r : Rect) : Bool :=
  decide (p.X ≥ r.X) && decide (p.X < wrapInt32 (r.X + r.W)) && decide (p.Y ≥ r.Y)
    && decide (p.Y < wrapInt32 (r.Y + r.H))

/-! ## Window positions (sdl/sdl_video.go) -/

/-- The `SurfaceFlags` constant `SurfacePreallocated` (`1 << iota`, iota = 0). -/
def SurfacePreallocated : Nat := 1 <<< 0
/-- The `SurfaceFlags` constant `SurfaceLockNeeded` (`1 << iota`, iota = 1). -/
def SurfaceLockNeeded : Nat := 1 <<< 1
/-- The `SurfaceFlags` constant `SurfaceLocked` (`1 << iota`, iota = 2). -/
def SurfaceLocked : Nat := 1 <<< 2
/-- The `SurfaceFlags` constant `SurfaceSIMDAligned` (`1 << iota`, iota = 3). -/
def SurfaceSIMDAligned : Nat := 1 <<< 3

/-- The struct `Surface`; pointers are addresses. -/
structure Surface where
  Flags : Nat
  Format : Nat
  W : Int
  H : Int
  Pitch : Int
  Pixels : Nat
  Refcount : Int
  Reserved : Nat

/-- The function `InvalidParamError`, with the native `sdlSetError` as a
parameter; `SetError` passes it the formatted message. -/
def InvalidParamError (sdlSetError : String → Bool) (param : String) : Bool :=
  sdlSetError ("Parameter '" ++ param ++ "' is invalid")

/-- The function `MustLock`, on a pointer to a surface (`none` is nil). -/
def MustLock (sdlSetError : String → Bool) (surface : Option Surface) : Bool :=
  match surface with
  | none => InvalidParamError sdlSetError "surface"
  | some s => s.Flags &&& SurfaceLockNeeded == SurfaceLockNeeded

/-! ## Boolean results of native calls (sdl/sdl_events.go, sdl/sdl_audio.go, sdl/sdl_video.go) -/

/-- Go conversion `byte(ret)` of a `uintptr`: its low 8 bits. -/
def toByte (ret : Nat) : Nat := ret % 256

/-- Go conversion `uintptr(x)` of a signed integer on a 64-bit target. -/
def toUintptr (x : Int) : Nat := (x % 2 ^ 64).toNat

/-- The function `PollEvent`. The native function called through
`purego.SyscallN` is a parameter: from the argument registers to the return
register. -/
def PollEvent (sdlPollEvent : List Nat → Nat) (event : Nat) : Bool :=
  toByte (sdlPollEvent [event]) != 0

/-- The function `AudioStreamDevicePaused`. -/
def AudioStreamDevicePaused (sdlAudioStreamDevicePaused : List Nat → Nat) (stream : Nat) :
    Bool :=
  toByte (sdlAudioStreamDevicePaused [stream]) != 0

/-- The function `ClearAudioStream`. -/
def ClearAudioStream (sdlClearAudioStream : List Nat → Nat) (stream : Nat) : Bool :=
  toByte (sdlClearAudioStream [stream]) != 0

/-- The function `FlushAudioStream`. -/
def FlushAudioStream (sdlFlushAudioStream : List Nat → Nat) (stream : Nat) : Bool :=
  toByte (sdlFlushAudioStream [stream]) != 0

/-- The function `PauseAudioStreamDevice`. -/
def PauseAudioStreamDevice (sdlPauseAudioStreamDevice : List Nat → Nat) (stream : Nat) :
    Bool :=
  toByte (sdlPauseAudioStreamDevice [stream]) != 0

/-- The function `ResumeAudioStreamDevice`. -/
def ResumeAudioStreamDevice (sdlResumeAudioStreamDevice : List Nat → Nat) (stream : Nat) :
    Bool :=
  toByte (sdlResumeAudioStreamDevice [stream]) != 0

/-- The function `PutAudioStreamData`; `len` is an `int32`. -/
def PutAudioStreamData (sdlPutAudioStreamData : List Nat → Nat) (stream buf : Nat)
    (len : Int) : Bool :=
  toByte (sdlPutAudioStreamData [stream, buf, toUintptr len]) != 0

/-- The function `GLSetSwapInterval`; `interval` is an `int32`. -/
def GLSetSwapInterval (sdlGLSetSwapInterval : List Nat → Nat) (interval : Int) : Bool :=
  toByte (sdlGLSetSwapInterval [toUintptr interval]) != 0

/-- The function `GLSwapWindow`. -/
def GLSwapWindow (sdlGLSwapWindow : List Nat → Nat) (window : Nat) : Bool :=
  toByte (sdlGLSwapWindow [window]) != 0

/-! ## Get-list wrappers without a null test (sdl_mouse.go, sdl_video.go, sdl_keyboard.go,
sdl_gamepad.go, sdl_surface.go) and with one (sdl_gamepad.go, sdl_camera.go) -/

/-- The function `GetMice`; the native call is a parameter as for `GetCameras`. -/
def GetMice (heap : Heap Nat) (sdlGetMice : Int → Nat × Int) : Run (GoSlice Nat) :=
  let count : Int := 0
  let (mice, count) := sdlGetMice count
  withDefer (Free mice) (mem.Copy heap mice count)

/-- The function `GetDisplays`. -/
def GetDisplays (heap : Heap Nat) (sdlGetDisplays : Int → Nat × Int) : Run (GoSlice Nat) :=
  let count : Int := 0
  let (displays, count) := sdlGetDisplays count
  withDefer (Free displays) (mem.Copy heap displays count)

/-- The function `GetKeyboards`. -/
def GetKeyboards (heap : Heap Nat) (sdlGetKeyboards : Int → Nat × Int) :
    Run (GoSlice Nat) :=
  let count : Int := 0
  let (keyboards, count) := sdlGetKeyboards count
  withDefer (Free keyboards) (mem.Copy heap keyboards count)

/-- The function `GetGamepads`. -/
def GetGamepads (heap : Heap Nat) (sdlGetGamepads : Int → Nat × Int) : Run (GoSlice Nat) :=
  let count : Int := 0
  let (gamepads, count) := sdlGetGamepads count
  withDefer (Free gamepads) (mem.Copy heap gamepads count)

/-- The function `GetSurfaceImages`: the elements copied are surface pointers. -/
def GetSurfaceImages (heap : Heap Nat) (sdlGetSurfaceImages : Nat → Int → Nat × Int)
    (surface : Nat) : Run (GoSlice Nat) :=
  let count : Int := 0
  let (surfaces, count) := sdlGetSurfaceImages surface count
  withDefer (Free surfaces) (mem.Copy heap surfaces count)

/-- The function `GetFullscreenDisplayModes`, for any struct type `T` in the
place of `DisplayMode`. -/
def GetFullscreenDisplayModes {T : Type} (ptrs : Heap Nat) (structs : Heap T)
    (sdlGetFullscreenDisplayModes : Nat → Int → Nat × Int) (displayID : Nat) :
    Run (GoSlice (Option T)) :=
  let count : Int := 0
  let (displayModes, count) := sdlGetFullscreenDisplayModes displayID count
  withDefer (Free displayModes) (mem.DeepCopy ptrs structs displayModes count)

/-- The function `GetGamepadBindings`, for any struct type `T` in the place of
`GamepadBinding`. -/
def GetGamepadBindings {T : Type} (ptrs : Heap Nat) (structs : Heap T)
    (sdlGetGamepadBindings : Nat → Int → Nat × Int) (gamepad : Nat) :
    Run (GoSlice (Option T)) :=
  let count : Int := 0
  let (bindings, count) := sdlGetGamepadBindings gamepad count
  if bindings = 0 then ⟨.ok none, []⟩
  else withDefer (Free bindings) (mem.DeepCopy ptrs structs bindings count)

/-- The function `GetCameraSupportedFormats`, for any struct type `T` in the
place of `CameraSpec`. -/
def GetCameraSupportedFormats {T : Type} (ptrs : Heap Nat) (structs : Heap T)
    (sdlGetCameraSupportedFormats : Nat → Int → Nat × Int) (instanceId : Nat) :
    Run (GoSlice (Option T)) :=
  let count : Int := 0
  let (formats, count) := sdlGetCameraSupportedFormats instanceId count
  if formats = 0 then ⟨.ok none, []⟩
  else withDefer (Free formats) (mem.DeepCopy ptrs structs formats count)

/-! ## Message box buttons (sdl/sdl_messagebox.go) -/

/-- Go `unsafe.Slice(ptr, count)` on a pointer into a managed array, `backing`
being the elements from the pointer to the end of the array. It panics on a
negative length and on a nil pointer with a length that is not zero; a nil
pointer with length zero gives the nil slice; a length beyond the end of the
array leaves the array, which is a fault. -/
def sliceOfArray {T : Type} (ptr : Option (List T)) (count : Int) :
    Except GoError (GoSlice T) :=
  if count < 0 then .error .sliceLenOutOfRange
  else
    match ptr with
    | none => if count ≠ 0 then .error .sliceNilPointer else .ok none
    | some backing =>
      if count.toNat ≤ backing.length then .ok (some (backing.take count.toNat))
      else .error (.fault backing.length)

/-- The method `Buttons` of `MessageBoxData`. -/
def MessageBoxData.Buttons (m : MessageBoxData) :
    Except GoError (GoSlice MessageBoxButtonData) :=
  sliceOfArray m.buttons m.numbuttons

/-- The method `SetButtons` of `MessageBoxData`; `numbuttons` is
`int32(len(buttons))`, and `&buttons[0]` points to the first of `buttons`. -/
def MessageBoxData.SetButtons (m : MessageBoxData) (buttons : List MessageBoxButtonData) :
    MessageBoxData :=
  if wrapInt32 buttons.length = 0 then
    { m with numbuttons := wrapInt32 buttons.length, buttons := none }
  else
    { m with numbuttons := wrapInt32 buttons.length, buttons := some buttons }

/-- The zero value of `MessageBoxData`. -/
def MessageBoxData.zero : MessageBoxData := ⟨0, 0, none, none, 0, none, 0⟩

/-- The values of `MessageBoxData` built from the zero value by `SetButtons`
(with fewer than `2 ^ 31` buttons), `SetTitle`, `SetMessage` and assignments to
the exported fields `Flags`, `Window` and `ColorScheme`. -/
inductive MessageBoxData.Built : MessageBoxData → Prop where
  | zero : MessageBoxData.Built MessageBoxData.zero
  | setButtons (m : MessageBoxData) (bs : List MessageBoxButtonData) :
      MessageBoxData.Built m → bs.length < 2 ^ 31 → MessageBoxData.Built (m.SetButtons bs)
  | setTitle (m : MessageBoxData) (s : GoString) :
      MessageBoxData.Built m → MessageBoxData.Built (m.SetTitle s)
  | setMessage (m : MessageBoxData) (s : GoString) :
      MessageBoxData.Built m → MessageBoxData.Built (m.SetMessage s)
  | setExported (m : MessageBoxData) (flags window colorScheme : Nat) :
      MessageBoxData.Built m →
      MessageBoxData.Built
        { m with Flags := flags, Window := window, ColorScheme := colorScheme }

/-! ## Empty rectangles (sdl/sdl_rect.go) -/

/-- The function `RectEmpty`. -/
def RectEmpty (r : Rect) : Bool := decide (r.W ≤ 0) || decide (r.H ≤ 0)

/-! ## Colors passed to the native text renderer (ttf/sdl_ttf.go) -/

/-- The expression `uint32(c.A)<<24 + uint32(c.B)<<16 + uint32(c.G)<<8 + uint32(c.R)`
that every `Render*` wrapper of package `ttf` computes for a color (`fgColor`
from `fg` and, where there is one, `bgColor` from `bg`), in `uint32` arithmetic:
each shift and each sum is taken modulo `2 ^ 32`. The wrappers pass it on as
`uintptr(fgColor)`, a zero extension that keeps the value. -/
def ttf.colorArg (c : Color) : Nat :=
  ((((c.A <<< 24) % 2 ^ 32 + (c.B <<< 16) % 2 ^ 32) % 2 ^ 32 + (c.G <<< 8) % 2 ^ 32) % 2 ^ 32
    + c.R) % 2 ^ 32

/-- The function `RenderGlyphBlended` of package `ttf`, with the native function
as a parameter. -/
def ttf.RenderGlyphBlended (ttfRenderGlyphBlended : Nat → Nat → Nat → Nat) (font ch : Nat)
    (fg : Color) : Nat :=
  ttfRenderGlyphBlended font ch (ttf.colorArg fg)

/-- The function `RenderGlyphLCD` of package `ttf`, with the native function as a
parameter. -/
def ttf.RenderGlyphLCD (ttfRenderGlyphLCD : Nat → Nat → Nat → Nat → Nat) (font ch : Nat)
    (fg bg : Color) : Nat :=
  ttfRenderGlyphLCD font ch (ttf.colorArg fg) (ttf.colorArg bg)

/-- The function `RenderGlyphShaded` of package `ttf`, with the native function
as a parameter. -/
def ttf.RenderGlyphShaded (ttfRenderGlyphShaded : Nat → Nat → Nat → Nat → Nat)
    (font ch : Nat) (fg bg : Color) : Nat :=
  ttfRenderGlyphShaded font ch (ttf.colorArg fg) (ttf.colorArg bg)

/-- The function `RenderGlyphSolid` of package `ttf`, with the native function as
a parameter. -/
def ttf.RenderGlyphSolid (ttfRenderGlyphSolid : Nat → Nat → Nat → Nat) (font ch : Nat)
    (fg : Color) : Nat :=
  ttfRenderGlyphSolid font ch (ttf.colorArg fg)

/-- The function `RenderTextBlended` of package `ttf`, with the native function
as a parameter. -/
def ttf.RenderTextBlended (ttfRenderTextBlended : Nat → GoString → Nat → Nat → Nat)
    (font : Nat) (text : GoString) (length : Nat) (fg : Color) : Nat :=
  ttfRenderTextBlended font text length (ttf.colorArg fg)

/-- The function `RenderTextBlendedWrapped` of package `ttf`, with the native
function as a parameter. -/
def ttf.RenderTextBlendedWrapped
    (ttfRenderTextBlendedWrapped : Nat → GoString → Nat → Nat → Int → Nat)
    (font : Nat) (text : GoString) (length : Nat) (fg : Color) (wrapWidth : Int) : Nat :=
  ttfRenderTextBlendedWrapped font text length (ttf.colorArg fg) wrapWidth

/-- The function `RenderTextLCD` of package `ttf`, with the native function as a
parameter. -/
def ttf.RenderTextLCD (ttfRenderTextLCD : Nat → GoString → Nat → Nat → Nat → Nat)
    (font : Nat) (text : GoString) (length : Nat) (fg bg : Color) : Nat :=
  ttfRenderTextLCD font text length (ttf.colorArg fg) (ttf.colorArg bg)

/-- The function `RenderTextLCDWrapped` of package `ttf`, with the native function
as a parameter. -/
def ttf.RenderTextLCDWrapped
    (ttfRenderTextLCDWrapped : Nat → GoString → Nat → Nat → Nat → Int → Nat)
    (font : Nat) (text : GoString) (length : Nat) (fg bg : Color) (wrapWidth : Int) : Nat :=
  ttfRenderTextLCDWrapped font text length (ttf.colorArg fg) (ttf.colorArg bg) wrapWidth

/-- The function `RenderTextShaded` of package `ttf`, with the native function as
a parameter. -/
def ttf.RenderTextShaded (ttfRenderTextShaded : Nat → GoString → Nat → Nat → Nat → Nat)
    (font : Nat) (text : GoString) (length : Nat) (fg bg : Color) : Nat :=
  ttfRenderTextShaded font text length (ttf.colorArg fg) (ttf.colorArg bg)

/-- The function `RenderTextShadedWrapped` of package `ttf`, with the native
function as a parameter. -/
def ttf.RenderTextShadedWrapped
    (ttfRenderTextShadedWrapped : Nat → GoString → Nat → Nat → Nat → Int → Nat)
    (font : Nat) (text : GoString) (length : Nat) (fg bg : Color) (wrapWidth : Int) : Nat :=
  ttfRenderTextShadedWrapped font text length (ttf.colorArg fg) (ttf.colorArg bg) wrapWidth

/-- The function `RenderTextSolid` of package `ttf`, with the native function as a
parameter. -/
def ttf.RenderTextSolid (ttfRenderTextSolid : Nat → GoString → Nat → Nat → Nat)
    (font : Nat) (text : GoString) (length : Nat) (fg : Color) : Nat :=
  ttfRenderTextSolid font text length (ttf.colorArg fg)

/-- The function `RenderTextSolidWrapped` of package `ttf`, with the native
function as a parameter. -/
def ttf.RenderTextSolidWrapped
    (ttfRenderTextSolidWrapped : Nat → GoString → Nat → Nat → Int → Nat)
    (font : Nat) (text : GoString) (length : Nat) (fg : Color) (wrapLength : Int) : Nat :=
  ttfRenderTextSolidWrapped font text length (ttf.colorArg fg) wrapLength

/-- The struct `Color` of package `sdl` as a memory layout. -/
def Layout.Color : GoType := structOf
  [fld "R" .uint8, fld "G" .uint8, fld "B" .uint8, fld "A" .uint8]

/-- The `PixelFormat` constant `PixelFormatUnknown`. -/
def PixelFormatUnknown : Nat := 0

/-! ## Gamepad bindings (sdl/sdl_gamepad.go) -/

/-- Offset of the field `name` among fields laid out from relative offset `rel`. -/
def FieldList.offsetOf : FieldList → String → Nat → Option Nat
  | .nil, _, _ => none
  | .cons n t rest, name, rel =>
    if n = name then some (alignUp rel t.align)
    else rest.offsetOf name (alignUp rel t.align + t.size)

/-- Offset of the field `name` of a struct type. -/
def GoType.offsetOf : GoType → String → Option Nat
  | .struct fs, name => fs.offsetOf name 0
  | _, _ => none

/-- The Go expression `*(*T)(ptr)` for a scalar type: the scalar at offset `off`
of a block of bytes, `none` when it does not lie inside the block. -/
def loadScalar (s : Scalar) (bytes : List Nat) (off : Nat) : Option ScalarVal :=
  if off + s.size ≤ bytes.length then some (decodeScalar s (loadLE bytes off s.size))
  else none

namespace Layout

/-- The type `GamepadBindingType`. -/
def GamepadBindingType : Scalar := .uint32
/-- The type `GamepadAxis`. -/
def GamepadAxis : Scalar := .int32
/-- The type `GamepadButton`. -/
def GamepadButton : Scalar := .int32

/-- The struct `GamepadBinding`. -/
def GamepadBinding : GoType := structOf
  [fld "InputType" GamepadBindingType, ("input", .array 12 .uint8),
   fld "OutputType" GamepadBindingType, ("output", .array 12 .uint8)]

/-- The anonymous struct `InputAxis()` returns. -/
def InputAxisStruct : GoType := structOf
  [fld "Axis" .int32, fld "AxisMin" .int32, fld "AxisMax" .int32]

/-- The anonymous struct `InputHat()` returns. -/
def InputHatStruct : GoType := structOf [fld "Hat" .int32, fld "HatMask" .int32]

/-- The anonymous struct `OutputAxis()` returns. -/
def OutputAxisStruct : GoType := structOf
  [fld "Axis" GamepadAxis, fld "AxisMin" .int32, fld "AxisMax" .int32]

end Layout

/-- A `GamepadBinding` in memory: the bytes of the struct. -/
structure GamepadBinding where
  bytes : List Nat
  size_eq : bytes.length = 32
  byte_lt : ∀ b ∈ bytes, b < 256

namespace GamepadBinding

/-- Offset of the field `input`, the address `&g.input` relative to `g`. -/
def inputOffset : Nat := (Layout.GamepadBinding.offsetOf "input").getD 0

/-- Offset of the field `output`, the address `&g.output` relative to `g`. -/
def outputOffset : Nat := (Layout.GamepadBinding.offsetOf "output").getD 0

/-- The method `InputButton`. -/
def InputButton (g : GamepadBinding) : Option ScalarVal :=
  loadScalar .int32 g.bytes inputOffset

/-- The method `InputAxis`. -/
def InputAxis (g : GamepadBinding) : Option Overlay :=
  load Layout.InputAxisStruct g.bytes inputOffset

/-- The method `InputHat`. -/
def InputHat (g : GamepadBinding) : Option Overlay :=
  load Layout.InputHatStruct g.bytes inputOffset

/-- The method `OutputButton`. -/
def OutputButton (g : GamepadBinding) : Option ScalarVal :=
  loadScalar Layout.GamepadButton g.bytes outputOffset

/-- The method `OutputAxis`. -/
def OutputAxis (g : GamepadBinding) : Option Overlay :=
  load Layout.OutputAxisStruct g.bytes outputOffset

end GamepadBinding

/-! ## Concrete inputs used by the witnesses -/

/-- A native array of three pointers at address 100: to 200, null, to 201. -/
def exPtrs : Heap Nat := fun a =>
  if a = 100 then some 200 else if a = 101 then some 0 else if a = 102 then some 201
  else none

/-- The structs the pointers of `exPtrs` point to. -/
def exStructs : Heap Nat := fun a =>
  if a = 200 then some 7 else if a = 201 then some 9 else none

/-- A native array holding 10, 20, 30 at address 500. -/
def exList : Heap Nat := fun a =>
  if a = 500 then some 10 else if a = 501 then some 20 else if a = 502 then some 30
  else none

/-- A native get-list call returning the array of `exList` and writing count 3. -/
def exGetList : Int → Nat × Int := fun _ => (500, 3)

/-- The UTF-8 bytes of the string "héllo", whose second character takes two bytes. -/
def exString : GoString := [0x68, 0xC3, 0xA9, 0x6C, 0x6C, 0x6F]

/-- A message box with nothing set (the zero value). -/
def exMessageBox : MessageBoxData := ⟨0, 0, none, none, 0, none, 0⟩

/-- A button with nothing set (the zero value). -/
def exButton : MessageBoxButtonData := ⟨0, 0, none⟩

/-- A drop event with nothing set (the zero value). -/
def exDrop : DropEvent := ⟨⟨0, 0, 0⟩, 0, 0, 0, none, none⟩

/-- The UTF-8 bytes of "ab" behind a pointer. -/
def exStrAb : BytePtr := some [0x61, 0x62, 0]

/-- A native array of two string pointers at address 700: to "ab" and to null. -/
def exStrings : Heap BytePtr := fun a =>
  if a = 700 then some exStrAb else if a = 701 then some none else none

/-- A candidates event with the two candidates of `exStrings`. -/
def exCandidates : TextEditingCandidatesEvent := ⟨⟨0x307, 0, 0⟩, 1, 700, 2, 0, false⟩

/-- A clipboard event whose pointer is null while its count is 1. -/
def exClipboardOne : ClipboardEvent := ⟨⟨0x900, 0, 0⟩, false, 1, 0⟩

/-- A clipboard event whose pointer is null while its count is negative. -/
def exClipboardNeg : ClipboardEvent := ⟨⟨0x900, 0, 0⟩, false, -1, 0⟩

/-- A clipboard event whose pointer is null and whose count is 0. -/
def exClipboardZero : ClipboardEvent := ⟨⟨0x900, 0, 0⟩, false, 0, 0⟩

/-- A native array of two colors at address 900. -/
def exColors : Heap Color := fun a =>
  if a = 900 then some ⟨255, 0, 0, 255⟩ else if a = 901 then some ⟨0, 255, 0, 255⟩
  else none

/-- A palette of the two colors of `exColors`. -/
def exPalette : Palette := ⟨2, 900, 1, 1⟩

/-- A palette whose colors pointer is null while its count is 5. -/
def exPaletteNull : Palette := ⟨5, 0, 1, 1⟩

/-- The rectangle of width 1 and height 1 at the origin. -/
def exUnitRect : Rect := ⟨0, 0, 1, 1⟩

/-- A surface whose flags are `SurfacePreallocated | SurfaceLockNeeded`. -/
def exSurface : Surface := ⟨3, 0x16362004, 4, 4, 16, 1000, 1, 0⟩

/-- A native get-list call that fails: it returns null, having written count 7. -/
def exGetListNull : Int → Nat × Int := fun _ => (0, 7)

/-- A native get-list call with one argument that fails: it returns null,
having written count -3. -/
def exGetListNullArg : Nat → Int → Nat × Int := fun _ _ => (0, -3)

/-- Two buttons, "ab" with id 1 and an untitled one with id 2. -/
def exButtons : List MessageBoxButtonData := [⟨1, 1, exStrAb⟩, ⟨2, 2, none⟩]

/-- An opaque orange. -/
def exColor : Color := ⟨255, 128, 0, 255⟩

/-- A gamepad binding holding the bytes 0, 1, ..., 31. -/
def exBinding : GamepadBinding :=
  ⟨List.range 32, List.length_range 32, fun b hb => by
    have := List.mem_range.mp hb
    omega⟩

/-- An event block holding the bytes 0, 1, ..., 127. -/
def exEvent : Event :=
  ⟨List.range 128, List.length_range 128, fun b hb => by
    have := List.mem_range.mp hb
    omega⟩

/-! ## Theorems -/

theorem loadCells_result {T : Type} (heap : Heap T) (n : Nat) :
    ∀ base : Nat, (∀ i, i < n → (heap (base + i)).isSome) →
      ∃ xs : List T, (loadCells heap base n).result = .ok xs ∧ xs.length = n ∧
        ∀ i, i < n → xs[i]? = heap (base + i) := by
  induction n with
  | zero => intro base _; exact ⟨[], rfl, rfl, fun i hi => absurd hi (Nat.not_lt_zero i)⟩
  | succ n ih =>
    intro base hv
    have h0 := hv 0 (Nat.succ_pos n)
    obtain ⟨v, hvv⟩ := Option.isSome_iff_exists.mp h0
    rw [Nat.add_zero] at hvv
    obtain ⟨xs, hxs, hlen, hget⟩ := ih (base + 1) (fun i hi => by
      have := hv (i + 1) (Nat.succ_lt_succ hi)
      rwa [show base + 1 + i = base + (i + 1) by omega])
    refine ⟨v :: xs, ?_, by simp [hlen], ?_⟩
    · simp [loadCells, hvv, hxs, Except.map]
    · intro i hi
      cases i with
      | zero => simp [hvv]
      | succ j =>
        have := hget j (Nat.lt_of_succ_lt_succ hi)
        simp only [List.getElem?_cons_succ, this]
        congr 1; omega

/-- Trace of `loadCells`: one read per cell, lowest address first. -/
theorem loadCells_trace {T : Type} (heap : Heap T) (n : Nat) :
    ∀ base : Nat, (∀ i, i < n → (heap (base + i)).isSome) →
      (loadCells heap base n).trace = (List.range n).map (fun i => Effect.load (base + i)) := by
  induction n with
  | zero => intro base _; rfl
  | succ n ih =>
    intro base hv
    have h0 := hv 0 (Nat.succ_pos n)
    obtain ⟨v, hvv⟩ := Option.isSome_iff_exists.mp h0
    rw [Nat.add_zero] at hvv
    have ih1 := ih (base + 1) (fun i hi => by
      have := hv (i + 1) (Nat.succ_lt_succ hi)
      rwa [show base + 1 + i = base + (i + 1) by omega])
    simp only [loadCells, hvv, ih1, List.range_succ_eq_map, List.map_cons, List.map_map,
      Nat.add_zero]
    congr 1
    apply List.map_congr_left
    intro i _
    simp only [Function.comp, Nat.succ_eq_add_one]
    congr 1; omega

/-- Result and trace of `mem.Copy` on a non-null array valid for `count` cells. -/
theorem Copy_valid {T : Type} [Inhabited T] (heap : Heap T) (array : Nat) (count : Int)
    (hnull : array ≠ 0) (hcount : 0 ≤ count)
    (hvalid : ∀ i, i < count.toNat → (heap (array + i)).isSome) :
    ∃ xs : List T, (mem.Copy heap array count).result = .ok (some xs) ∧
      xs.length = count.toNat ∧ (∀ i, i < count.toNat → xs[i]? = heap (array + i)) ∧
      (mem.Copy heap array count).trace
        = (List.range count.toNat).map (fun i => Effect.load (array + i)) := by
  obtain ⟨xs, hxs, hlen, hget⟩ := loadCells_result heap count.toNat array hvalid
  have htr := loadCells_trace heap count.toNat array hvalid
  have hneg : ¬ count < 0 := not_lt.mpr hcount
  refine ⟨xs, ?_, hlen, hget, ?_⟩
  · simp [mem.Copy, hnull, makeSlice, sliceAt, hneg, goCopy, hxs, Except.map]
  · simp [mem.Copy, hnull, makeSlice, sliceAt, hneg, goCopy, htr]

/-- The value `mem.DeepCopy` stores for a source entry holding pointer `p`. -/
theorem deepCopyLoop_spec {T : Type} (ptrs : Heap Nat) (structs : Heap T) (array : Nat)
    (k : Nat) :
    ∀ (i : Nat) (dst : List (Option T)), dst.length = i + k →
      (∀ j, i ≤ j → j < i + k →
        ∃ p, ptrs (array + j) = some p ∧ (p ≠ 0 → (structs p).isSome)) →
      ∃ out : List (Option T),
        (mem.deepCopyLoop ptrs structs array k i dst).result = .ok out ∧
        out.length = i + k ∧
        (∀ j, j < i → out[j]? = dst[j]?) ∧
        (∀ j, i ≤ j → j < i + k → ∀ p, ptrs (array + j) = some p →
          (p = 0 → out[j]? = dst[j]?) ∧ (p ≠ 0 → out[j]? = some (structs p))) := by
  induction k with
  | zero =>
    intro i dst hlen _
    exact ⟨dst, rfl, hlen, fun _ _ => rfl, fun j h1 h2 => by omega⟩
  | succ k ih =>
    intro i dst hlen hvalid
    obtain ⟨p, hp, hps⟩ := hvalid i (Nat.le_refl i) (by omega)
    by_cases hp0 : p = 0
    · obtain ⟨out, hres, holen, hlow, hhigh⟩ := ih (i + 1) dst (by omega)
        (fun j h1 h2 => hvalid j (by omega) (by omega))
      refine ⟨out, ?_, by omega, fun j hj => hlow j (by omega), ?_⟩
      · simp [mem.deepCopyLoop, hp, hp0, hres]
      · intro j h1 h2 q hq
        rcases Nat.eq_or_lt_of_le h1 with heq | hlt
        · subst heq
          have hqp : q = p := by rw [hp] at hq; exact (Option.some.inj hq).symm
          subst hqp
          exact ⟨fun _ => hlow i (Nat.lt_succ_self i), fun h => absurd hp0 h⟩
        · exact hhigh j hlt (by omega) q hq
    · obtain ⟨v, hv⟩ := Option.isSome_iff_exists.mp (hps hp0)
      obtain ⟨out, hres, holen, hlow, hhigh⟩ := ih (i + 1) (dst.set i (some v))
        (by simp only [List.length_set]; omega)
        (fun j h1 h2 => hvalid j (by omega) (by omega))
      refine ⟨out, ?_, by omega, ?_, ?_⟩
      · simp [mem.deepCopyLoop, hp, hp0, hv, hres]
      · intro j hj
        rw [hlow j (by omega), List.getElem?_set_ne (by omega)]
      · intro j h1 h2 q hq
        rcases Nat.eq_or_lt_of_le h1 with heq | hlt
        · subst heq
          have hqp : q = p := by rw [hp] at hq; exact (Option.some.inj hq).symm
          subst hqp
          refine ⟨fun h => absurd h hp0, fun _ => ?_⟩
          rw [hlow i (Nat.lt_succ_self i), List.getElem?_set_eq_of_lt _ (by omega), hv]
        · obtain ⟨h0, h1⟩ := hhigh j hlt (by omega) q hq
          refine ⟨fun h => ?_, h1⟩
          rw [h0 h, List.getElem?_set_ne (by omega)]

/-- C1: on a non-null native array of `count ≥ 0` pointers-to-struct, valid for
`count` entries, `mem.DeepCopy` returns a non-nil sequence of length exactly
`count` whose entry `i` is nil exactly when source entry `i` is the null
pointer, and otherwise holds the struct source entry `i` points to. -/
theorem C1_DeepCopy_preserves_entries {T : Type} (ptrs : Heap Nat) (structs : Heap T)
    (array : Nat) (count : Int) (hnull : array ≠ 0) (hcount : 0 ≤ count)
    (hvalid : ∀ i, i < count.toNat →
      ∃ p, ptrs (array + i) = some p ∧ (p ≠ 0 → (structs p).isSome)) :
    ∃ dst : List (Option T),
      (mem.DeepCopy ptrs structs array count).result = .ok (some dst) ∧
      dst.length = count.toNat ∧
      ∀ i, i < count.toNat → ∀ p, ptrs (array + i) = some p →
        (dst[i]? = some none ↔ p = 0) ∧
        (p ≠ 0 → ∃ v, structs p = some v ∧ dst[i]? = some (some v)) := by
  have hneg : ¬ count < 0 := not_lt.mpr hcount
  obtain ⟨out, hres, holen, _, hhigh⟩ := deepCopyLoop_spec ptrs structs array count.toNat 0
    (List.replicate count.toNat default) (by simp)
    (fun j _ h2 => hvalid j (by omega))
  refine ⟨out, ?_, by omega, ?_⟩
  · simp [mem.DeepCopy, hnull, makeSlice, sliceAt, hneg, hres, Except.map]
  · intro i hi p hp
    obtain ⟨h0, h1⟩ := hhigh i (Nat.zero_le i) (by omega) p hp
    obtain ⟨q, hq, hqs⟩ := hvalid i hi
    have hqp : q = p := by rw [hp] at hq; exact (Option.some.inj hq).symm
    subst hqp
    constructor
    · constructor
      · intro hnone
        by_contra hne
        obtain ⟨v, hv⟩ := Option.isSome_iff_exists.mp (hqs hne)
        rw [h1 hne, hv] at hnone
        cases hnone
      · intro hz
        rw [h0 hz]
        simp only [List.getElem?_replicate, hi, if_true]
        rfl
    · intro hne
      obtain ⟨v, hv⟩ := Option.isSome_iff_exists.mp (hqs hne)
      exact ⟨v, hv, by rw [h1 hne, hv]⟩

/-- Witness of C1 on a three-entry array whose middle entry is null. -/
theorem C1_DeepCopy_preserves_entries_witness :
    ∃ dst : List (Option Nat),
      (mem.DeepCopy exPtrs exStructs 100 3).result = .ok (some dst) ∧
      dst.length = (3 : Int).toNat ∧
      ∀ i, i < (3 : Int).toNat → ∀ p, exPtrs (100 + i) = some p →
        (dst[i]? = some none ↔ p = 0) ∧
        (p ≠ 0 → ∃ v, exStructs p = some v ∧ dst[i]? = some (some v)) :=
  C1_DeepCopy_preserves_entries exPtrs exStructs 100 3 (by decide) (by decide)
    (fun i hi => by
      have h3 : i < 3 := hi
      interval_cases i
      · exact ⟨200, rfl, fun _ => rfl⟩
      · exact ⟨0, rfl, fun h => absurd rfl h⟩
      · exact ⟨201, rfl, fun _ => rfl⟩)

/-- C2: on a non-null native array valid for `count ≥ 0` elements, `mem.Copy`
returns a non-nil sequence of length exactly `count` whose `i`-th element is
`array[i]`; for `count = 0` the result is the empty non-nil slice, and in every
case it differs from the nil slice returned for a null array. -/
theorem C2_Copy_returns_elements {T : Type} [Inhabited T] (heap : Heap T) (array : Nat)
    (count : Int) (hnull : array ≠ 0) (hcount : 0 ≤ count)
    (hvalid : ∀ i, i < count.toNat → (heap (array + i)).isSome) :
    ∃ xs : List T, (mem.Copy heap array count).result = .ok (some xs) ∧
      xs.length = count.toNat ∧ (∀ i, i < count.toNat → xs[i]? = heap (array + i)) ∧
      (count = 0 → xs = []) ∧
      (mem.Copy heap 0 count).result = .ok none ∧
      (mem.Copy heap array count).result ≠ (mem.Copy heap 0 count).result := by
  obtain ⟨xs, hres, hlen, hget, _⟩ := Copy_valid heap array count hnull hcount hvalid
  have hnil : (mem.Copy heap 0 count).result = .ok none := by simp [mem.Copy]
  refine ⟨xs, hres, hlen, hget, ?_, hnil, ?_⟩
  · intro h0
    subst h0
    exact List.eq_nil_of_length_eq_zero hlen
  · rw [hres, hnil]
    intro h
    cases h

/-- Witness of C2 on the native array 10, 20, 30. -/
theorem C2_Copy_returns_elements_witness :
    ∃ xs : List Nat, (mem.Copy exList 500 3).result = .ok (some xs) ∧
      xs.length = (3 : Int).toNat ∧
      (∀ i, i < (3 : Int).toNat → xs[i]? = exList (500 + i)) ∧
      ((3 : Int) = 0 → xs = []) ∧
      (mem.Copy exList 0 3).result = .ok none ∧
      (mem.Copy exList 500 3).result ≠ (mem.Copy exList 0 3).result :=
  C2_Copy_returns_elements exList 500 3 (by decide) (by decide)
    (fun i hi => by
      have h3 : i < 3 := hi
      interval_cases i <;> rfl)

/-- C3: for a null native pointer `mem.Copy` and `mem.DeepCopy` return nil without
failing and without reading native memory, for every count (zero, positive or
negative) and every state of native memory. -/
theorem C3_null_pointer_returns_nil {T : Type} [Inhabited T] (heap : Heap T)
    (ptrs : Heap Nat) (count : Int) :
    (mem.Copy heap 0 count).result = .ok none ∧
    (mem.Copy heap 0 count).trace = [] ∧
    (mem.DeepCopy ptrs heap 0 count).result = .ok none ∧
    (mem.DeepCopy ptrs heap 0 count).trace = [] := by
  simp [mem.Copy, mem.DeepCopy]

/-- Result and trace of a get-list wrapper body: copy, then the deferred `Free`. -/
theorem withDefer_Copy_valid (heap : Heap Nat) (array : Nat) (count : Int)
    (hnull : array ≠ 0) (hcount : 0 ≤ count)
    (hvalid : ∀ i, i < count.toNat → (heap (array + i)).isSome) :
    ∃ xs : List Nat,
      (withDefer (Free array) (mem.Copy heap array count)).result = .ok (some xs) ∧
      xs.length = count.toNat ∧ (∀ i, i < count.toNat → xs[i]? = heap (array + i)) ∧
      (withDefer (Free array) (mem.Copy heap array count)).trace
        = (List.range count.toNat).map (fun i => Effect.load (array + i))
          ++ [Effect.free array] := by
  obtain ⟨xs, hres, hlen, hget, htr⟩ := Copy_valid heap array count hnull hcount hvalid
  refine ⟨xs, ?_, hlen, hget, ?_⟩
  · simp only [withDefer, hres]
  · simp only [withDefer, hres, htr, Free]

/-- A fault below `0x1000` is a panic: the deferred `Free` still runs. Here the
native call returns the pointer `8`, which is not mapped. -/
theorem withDefer_fault_low_runs_deferred :
    (GetCameras (fun _ => none) (fun _ => (8, 1))).result = .error (.fault 8) ∧
    (GetCameras (fun _ => none) (fun _ => (8, 1))).trace = [.load 8, .free 8] := by
  constructor <;> rfl

/-- A fault at `0x1000` or above is fatal: the deferred `Free` does not run. Here
the native call returns the pointer `0x2000`, which is not mapped. -/
theorem withDefer_fault_high_is_fatal :
    (GetCameras (fun _ => none) (fun _ => (0x2000, 1))).result = .error (.fault 0x2000) ∧
    (GetCameras (fun _ => none) (fun _ => (0x2000, 1))).trace = [.load 0x2000] := by
  constructor <;> rfl

/-- A panic that is not a fault runs the deferred `Free`: a negative count makes
`make` panic before any read. -/
theorem withDefer_panic_runs_deferred :
    (GetCameras (fun _ => none) (fun _ => (0x2000, -1))).result
      = .error .makeLenOutOfRange ∧
    (GetCameras (fun _ => none) (fun _ => (0x2000, -1))).trace = [.free 0x2000] := by
  constructor <;> rfl

/-- C4: when the native call returns a non-null array and writes a count
`n ≥ 0`, `GetCameras` and `GetJoysticks` return exactly the `n` native elements
in native order, and the trace of native effects is the `n` element reads
followed by one call of `Free` on the returned pointer: `Free` is invoked
exactly once, on that pointer, after every element has been copied. -/
theorem C4_get_list_copies_then_frees (heap : Heap Nat) (native : Int → Nat × Int)
    (hnull : (native 0).1 ≠ 0) (hcount : 0 ≤ (native 0).2)
    (hvalid : ∀ i, i < (native 0).2.toNat → (heap ((native 0).1 + i)).isSome) :
    (∃ xs : List CameraID, (GetCameras heap native).result = .ok (some xs) ∧
      xs.length = (native 0).2.toNat ∧
      (∀ i, i < (native 0).2.toNat → xs[i]? = heap ((native 0).1 + i)) ∧
      (GetCameras heap native).trace
        = (List.range (native 0).2.toNat).map (fun i => Effect.load ((native 0).1 + i))
          ++ [Effect.free (native 0).1] ∧
      (GetCameras heap native).trace.count (Effect.free (native 0).1) = 1) ∧
    (∃ xs : List JoystickID, (GetJoysticks heap native).result = .ok (some xs) ∧
      xs.length = (native 0).2.toNat ∧
      (∀ i, i < (native 0).2.toNat → xs[i]? = heap ((native 0).1 + i)) ∧
      (GetJoysticks heap native).trace
        = (List.range (native 0).2.toNat).map (fun i => Effect.load ((native 0).1 + i))
          ++ [Effect.free (native 0).1] ∧
      (GetJoysticks heap native).trace.count (Effect.free (native 0).1) = 1) := by
  obtain ⟨xs, hres, hlen, hget, htr⟩ :=
    withDefer_Copy_valid heap (native 0).1 (native 0).2 hnull hcount hvalid
  have hcnt : ((List.range (native 0).2.toNat).map (fun i => Effect.load ((native 0).1 + i))
      ++ [Effect.free (native 0).1]).count (Effect.free (native 0).1) = 1 := by
    rw [List.count_append, List.count_eq_zero_of_not_mem]
    · simp
    · intro hmem
      obtain ⟨i, _, hi⟩ := List.mem_map.mp hmem
      cases hi
  constructor
  · refine ⟨xs, ?_, hlen, hget, ?_, ?_⟩
    · simp only [GetCameras, hnull, if_false, hres]
    · simp only [GetCameras, hnull, if_false, htr]
    · simp only [GetCameras, hnull, if_false, htr, hcnt]
  · refine ⟨xs, ?_, hlen, hget, ?_, ?_⟩
    · simp only [GetJoysticks, hnull, if_false, hres]
    · simp only [GetJoysticks, hnull, if_false, htr]
    · simp only [GetJoysticks, hnull, if_false, htr, hcnt]

/-- Witness of C4: the native array 10, 20, 30 yields the elements 10, 20, 30 and
one call of `Free`, made after the three reads. -/
theorem C4_get_list_copies_then_frees_witness :
    (GetCameras exList exGetList).result = .ok (some [10, 20, 30]) ∧
    (GetCameras exList exGetList).trace
      = [Effect.load 500, Effect.load 501, Effect.load 502, Effect.free 500] ∧
    (GetJoysticks exList exGetList).result = .ok (some [10, 20, 30]) ∧
    (GetJoysticks exList exGetList).trace
      = [Effect.load 500, Effect.load 501, Effect.load 502, Effect.free 500] ∧
    ((∃ xs : List CameraID, (GetCameras exList exGetList).result = .ok (some xs) ∧
      xs.length = (exGetList 0).2.toNat ∧
      (∀ i, i < (exGetList 0).2.toNat → xs[i]? = exList ((exGetList 0).1 + i)) ∧
      (GetCameras exList exGetList).trace
        = (List.range (exGetList 0).2.toNat).map
            (fun i => Effect.load ((exGetList 0).1 + i))
          ++ [Effect.free (exGetList 0).1] ∧
      (GetCameras exList exGetList).trace.count (Effect.free (exGetList 0).1) = 1) ∧
    (∃ xs : List JoystickID, (GetJoysticks exList exGetList).result = .ok (some xs) ∧
      xs.length = (exGetList 0).2.toNat ∧
      (∀ i, i < (exGetList 0).2.toNat → xs[i]? = exList ((exGetList 0).1 + i)) ∧
      (GetJoysticks exList exGetList).trace
        = (List.range (exGetList 0).2.toNat).map
            (fun i => Effect.load ((exGetList 0).1 + i))
          ++ [Effect.free (exGetList 0).1] ∧
      (GetJoysticks exList exGetList).trace.count (Effect.free (exGetList 0).1) = 1)) :=
  ⟨rfl, rfl, rfl, rfl,
    C4_get_list_copies_then_frees exList exGetList (by decide) (by decide)
      (fun i hi => by
        have h3 : i < 3 := hi
        interval_cases i <;> rfl)⟩

/-! ### Reading and writing little-endian integers -/

theorem loadLE_congr (bs cs : List Nat) (w : Nat) :
    ∀ off : Nat, (∀ j, off ≤ j → j < off + w → bs.getD j 0 = cs.getD j 0) →
      loadLE bs off w = loadLE cs off w := by
  induction w with
  | zero => intro off _; rfl
  | succ w ih =>
    intro off h
    simp only [loadLE]
    rw [h off (Nat.le_refl off) (by omega), ih (off + 1) (fun j h1 h2 => h j (by omega) (by omega))]

theorem loadLE_lt (bs : List Nat) (hb : ∀ b ∈ bs, b < 256) (w : Nat) :
    ∀ off : Nat, loadLE bs off w < 256 ^ w := by
  induction w with
  | zero => intro off; simp [loadLE]
  | succ w ih =>
    intro off
    have h1 : bs.getD off 0 < 256 := by
      rw [List.getD_eq_getElem?_getD]
      cases hget : bs[off]? with
      | none => simp
      | some b => exact hb b (List.getElem?_mem hget)
    have h2 := ih (off + 1)
    simp only [loadLE, pow_succ]
    omega

theorem Event.getD_setByte (e : Event) (i b j : Nat) :
    (e.setByte i b).bytes.getD j 0 = if j = i ∧ i < 128 then b % 256 else e.bytes.getD j 0 := by
  have hlen := e.size_eq
  simp only [Event.setByte, List.getD_eq_getElem?_getD, List.getElem?_set]
  by_cases hji : i = j
  · subst hji
    by_cases hi : i < 128
    · simp [hi, hlen]
    · have : e.bytes[i]? = none := List.getElem?_eq_none (by omega)
      simp [hi, hlen, this]
  · have hji2 : ¬ j = i := fun h => hji h.symm
    simp [hji, hji2]

theorem Event.getD_storeLE_outside (w : Nat) :
    ∀ (e : Event) (off v j : Nat), (j < off ∨ off + w ≤ j) →
      (e.storeLE off w v).bytes.getD j 0 = e.bytes.getD j 0 := by
  induction w with
  | zero => intro e off v j _; rfl
  | succ w ih =>
    intro e off v j h
    simp only [Event.storeLE]
    rw [ih (e.setByte off v) (off + 1) (v / 256) j (by omega), Event.getD_setByte]
    have : ¬ (j = off ∧ off < 128) := by omega
    simp [this]

theorem Event.loadLE_storeLE_same (w : Nat) :
    ∀ (e : Event) (off v : Nat), off + w ≤ 128 →
      loadLE (e.storeLE off w v).bytes off w = v % 256 ^ w := by
  induction w with
  | zero => intro e off v _; simp [loadLE, Nat.mod_one]
  | succ w ih =>
    intro e off v h
    simp only [Event.storeLE, loadLE]
    rw [ih (e.setByte off v) (off + 1) (v / 256) (by omega),
      Event.getD_storeLE_outside w (e.setByte off v) (off + 1) (v / 256) off (by omega),
      Event.getD_setByte]
    have : off = off ∧ off < 128 := ⟨rfl, by omega⟩
    simp only [this, and_self, if_true]
    rw [pow_succ', Nat.mod_mul]

theorem Event.loadLE_storeLE_disjoint (e : Event) (off w v off2 w2 : Nat)
    (h : off2 + w2 ≤ off ∨ off + w ≤ off2) :
    loadLE (e.storeLE off w v).bytes off2 w2 = loadLE e.bytes off2 w2 := by
  apply loadLE_congr
  intro j h1 h2
  exact Event.getD_storeLE_outside w e off v j (by omega)

theorem toSigned_int32 (d : Int) (h1 : -2 ^ 31 ≤ d) (h2 : d < 2 ^ 31) :
    toSigned 32 ((d % 2 ^ 32).toNat % 256 ^ 4) = d := by
  norm_num at h1 h2
  have hnn : 0 ≤ d % 4294967296 := Int.emod_nonneg d (by decide)
  have hlt : d % 4294967296 < 4294967296 := Int.emod_lt_of_pos d (by decide)
  have hmod : (d % 4294967296).toNat % 4294967296 = (d % 4294967296).toNat := by
    apply Nat.mod_eq_of_lt
    omega
  simp only [toSigned]
  norm_num
  rw [hmod]
  split <;> omega

/-! ### The event overlays -/

/-- The `WindowEvent` an event block decodes to, field by field: it is formed
from bytes 0 to 27 of the block. -/
theorem Event.Window_eq (e : Event) :
    e.Window = some
      [("CommonEvent.Type", .scalar (.uint (loadLE e.bytes 0 4))),
       ("CommonEvent.reserved", .scalar (.uint (loadLE e.bytes 4 4))),
       ("CommonEvent.Timestamp", .scalar (.uint (loadLE e.bytes 8 8))),
       ("WindowID", .scalar (.uint (loadLE e.bytes 16 4))),
       ("Data1", .scalar (.int (toSigned 32 (loadLE e.bytes 20 4)))),
       ("Data2", .scalar (.int (toSigned 32 (loadLE e.bytes 24 4))))] := by
  have hs : Layout.WindowEvent.size = 32 := by decide
  simp only [Event.Window, load, hs, e.size_eq]
  simp [Layout.WindowEvent, Layout.CommonEvent, Layout.EventType, Layout.WindowID, structOf,
    fld, FieldList.ofList, GoType.decode, FieldList.decode, GoType.align, FieldList.align,
    GoType.size, FieldList.endOffset, Scalar.size, alignUp, decodeScalar]

/-- C5: a block on which `type` is written as a little-endian `uint32` at
offset 0, `timestamp` as a `uint64` at offset 8, `windowID` as a `uint32` at
offset 16 and `data1`, `data2` as `int32` at offsets 20 and 24 decodes via
`Type()` to `type` and via `Window()` to a `WindowEvent` whose `Type`,
`Timestamp`, `WindowID`, `Data1` and `Data2` are the values written, whatever
the other bytes of the block hold (bytes 4 to 7 stay what they were). -/
theorem C5_window_event_roundtrip (e : Event) (type timestamp windowID : Nat)
    (data1 data2 : Int) (htype : type < 2 ^ 32) (hts : timestamp < 2 ^ 64)
    (hwid : windowID < 2 ^ 32) (hd1 : -2 ^ 31 ≤ data1 ∧ data1 < 2 ^ 31)
    (hd2 : -2 ^ 31 ≤ data2 ∧ data2 < 2 ^ 31) :
    (e.withWindowFields type timestamp windowID data1 data2).eventType = type ∧
    (e.withWindowFields type timestamp windowID data1 data2).Window = some
      [("CommonEvent.Type", .scalar (.uint type)),
       ("CommonEvent.reserved", .scalar (.uint (loadLE e.bytes 4 4))),
       ("CommonEvent.Timestamp", .scalar (.uint timestamp)),
       ("WindowID", .scalar (.uint windowID)),
       ("Data1", .scalar (.int data1)),
       ("Data2", .scalar (.int data2))] := by
  have h0 : loadLE (e.withWindowFields type timestamp windowID data1 data2).bytes 0 4
      = type := by
    simp only [Event.withWindowFields, Event.putUint32, Event.putUint64, Event.putInt32]
    rw [Event.loadLE_storeLE_disjoint _ _ _ _ _ _ (by decide),
      Event.loadLE_storeLE_disjoint _ _ _ _ _ _ (by decide),
      Event.loadLE_storeLE_disjoint _ _ _ _ _ _ (by decide),
      Event.loadLE_storeLE_disjoint _ _ _ _ _ _ (by decide),
      Event.loadLE_storeLE_same _ _ _ _ (by decide)]
    exact Nat.mod_eq_of_lt (by norm_num at htype ⊢; exact htype)
  have h4 : loadLE (e.withWindowFields type timestamp windowID data1 data2).bytes 4 4
      = loadLE e.bytes 4 4 := by
    simp only [Event.withWindowFields, Event.putUint32, Event.putUint64, Event.putInt32]
    rw [Event.loadLE_storeLE_disjoint _ _ _ _ _ _ (by decide),
      Event.loadLE_storeLE_disjoint _ _ _ _ _ _ (by decide),
      Event.loadLE_storeLE_disjoint _ _ _ _ _ _ (by decide),
      Event.loadLE_storeLE_disjoint _ _ _ _ _ _ (by decide),
      Event.loadLE_storeLE_disjoint _ _ _ _ _ _ (by decide)]
  have h8 : loadLE (e.withWindowFields type timestamp windowID data1 data2).bytes 8 8
      = timestamp := by
    simp only [Event.withWindowFields, Event.putUint32, Event.putUint64, Event.putInt32]
    rw [Event.loadLE_storeLE_disjoint _ _ _ _ _ _ (by decide),
      Event.loadLE_storeLE_disjoint _ _ _ _ _ _ (by decide),
      Event.loadLE_storeLE_disjoint _ _ _ _ _ _ (by decide),
      Event.loadLE_storeLE_same _ _ _ _ (by decide)]
    exact Nat.mod_eq_of_lt (by norm_num at hts ⊢; exact hts)
  have h16 : loadLE (e.withWindowFields type timestamp windowID data1 data2).bytes 16 4
      = windowID := by
    simp only [Event.withWindowFields, Event.putUint32, Event.putUint64, Event.putInt32]
    rw [Event.loadLE_storeLE_disjoint _ _ _ _ _ _ (by decide),
      Event.loadLE_storeLE_disjoint _ _ _ _ _ _ (by decide),
      Event.loadLE_storeLE_same _ _ _ _ (by decide)]
    exact Nat.mod_eq_of_lt (by norm_num at hwid ⊢; exact hwid)
  have h20 : toSigned 32
      (loadLE (e.withWindowFields type timestamp windowID data1 data2).bytes 20 4)
      = data1 := by
    simp only [Event.withWindowFields, Event.putUint32, Event.putUint64, Event.putInt32]
    rw [Event.loadLE_storeLE_disjoint _ _ _ _ _ _ (by decide),
      Event.loadLE_storeLE_same _ _ _ _ (by decide)]
    exact toSigned_int32 data1 hd1.1 hd1.2
  have h24 : toSigned 32
      (loadLE (e.withWindowFields type timestamp windowID data1 data2).bytes 24 4)
      = data2 := by
    simp only [Event.withWindowFields, Event.putUint32, Event.putUint64, Event.putInt32]
    rw [Event.loadLE_storeLE_same _ _ _ _ (by decide)]
    exact toSigned_int32 data2 hd2.1 hd2.2
  refine ⟨h0, ?_⟩
  rw [Event.Window_eq, h0, h4, h8, h16, h20, h24]


set_option maxRecDepth 100000 in
/-- Witness of C5: a resize event written over the block 0, 1, ..., 127. -/
theorem C5_window_event_roundtrip_witness :
    (exEvent.withWindowFields EventWindowResized 123456789012 7 (-640) 480).eventType
      = EventWindowResized ∧
    (exEvent.withWindowFields EventWindowResized 123456789012 7 (-640) 480).Window = some
      [("CommonEvent.Type", .scalar (.uint EventWindowResized)),
       ("CommonEvent.reserved", .scalar (.uint (loadLE exEvent.bytes 4 4))),
       ("CommonEvent.Timestamp", .scalar (.uint 123456789012)),
       ("WindowID", .scalar (.uint 7)),
       ("Data1", .scalar (.int (-640))),
       ("Data2", .scalar (.int 480))] :=
  C5_window_event_roundtrip exEvent EventWindowResized 123456789012 7 (-640) 480
    (by decide) (by decide) (by decide) (by decide) (by decide)

/-! ### Layout facts -/

theorem Scalar.size_pos (s : Scalar) : 0 < s.size := by
  cases s <;> decide

theorem le_alignUp (off a : Nat) (ha : 0 < a) : off ≤ alignUp off a := by
  unfold alignUp
  have h1 := Nat.div_add_mod (off + a - 1) a
  have h2 := Nat.mod_lt (off + a - 1) ha
  have h3 : (off + a - 1) / a * a = a * ((off + a - 1) / a) := Nat.mul_comm _ _
  omega

mutual
theorem GoType.align_pos : ∀ t : GoType, 0 < t.align
  | .scalar s => by simp only [GoType.align]; exact s.size_pos
  | .array _ e => by simp only [GoType.align]; exact e.size_pos
  | .struct fs => by simp only [GoType.align]; exact FieldList.fields_align_pos fs
theorem FieldList.fields_align_pos : ∀ fs : FieldList, 0 < fs.align
  | .nil => by simp only [FieldList.align]; decide
  | .cons _ t rest => by
    simp only [FieldList.align]
    exact Nat.lt_of_lt_of_le (FieldList.fields_align_pos rest) (Nat.le_max_right _ _)
end

theorem FieldList.le_endOffset : ∀ (fs : FieldList) (rel : Nat), rel ≤ fs.endOffset rel
  | .nil, rel => by simp only [FieldList.endOffset]; exact Nat.le_refl rel
  | .cons _ t rest, rel => by
    simp only [FieldList.endOffset]
    have h1 := le_alignUp rel t.align t.align_pos
    have h2 := FieldList.le_endOffset rest (alignUp rel t.align + t.size)
    omega

mutual
/-- Decoding a value of type `t` at `off` reads only the bytes at offsets
`off ≤ j < off + t.size`. -/
theorem GoType.decode_congr : ∀ (t : GoType) (bs cs : List Nat) (off : Nat) (name : String),
    (∀ j, off ≤ j → j < off + t.size → bs.getD j 0 = cs.getD j 0) →
    t.decode bs off name = t.decode cs off name
  | .scalar s, bs, cs, off, name, h => by
    simp only [GoType.decode]
    rw [loadLE_congr bs cs s.size off (fun j h1 h2 => h j h1 (by simpa [GoType.size] using h2))]
  | .array n s, bs, cs, off, name, h => by
    simp only [GoType.decode]
    have hmap : (List.range n).map (fun i =>
          decodeScalar s (loadLE bs (off + i * s.size) s.size))
        = (List.range n).map (fun i =>
          decodeScalar s (loadLE cs (off + i * s.size) s.size)) := by
      apply List.map_congr_left
      intro i hi
      have hin : i < n := List.mem_range.mp hi
      have hle : (i + 1) * s.size ≤ n * s.size := Nat.mul_le_mul_right _ hin
      rw [Nat.add_mul, Nat.one_mul] at hle
      rw [loadLE_congr bs cs s.size (off + i * s.size) (fun j h1 h2 =>
        h j (by omega) (by simp only [GoType.size]; omega))]
    rw [hmap]
  | .struct fs, bs, cs, off, name, h => by
    simp only [GoType.decode]
    apply FieldList.fields_decode_congr fs bs cs off 0
    intro j h1 h2
    have h3 := le_alignUp (fs.endOffset 0) fs.align fs.fields_align_pos
    exact h j (by omega) (by simp only [GoType.size]; omega)
/-- Decoding the fields laid out from relative offset `rel` on reads only the
bytes from `base + rel` up to the end of the last field. -/
theorem FieldList.fields_decode_congr : ∀ (fs : FieldList) (bs cs : List Nat) (base rel : Nat)
    (pfx : String),
    (∀ j, base + rel ≤ j → j < base + fs.endOffset rel → bs.getD j 0 = cs.getD j 0) →
    fs.decode bs base rel pfx = fs.decode cs base rel pfx
  | .nil, _, _, _, _, _, _ => by simp only [FieldList.decode]
  | .cons name t rest, bs, cs, base, rel, pfx, h => by
    simp only [FieldList.decode, FieldList.endOffset] at h ⊢
    have h1 := le_alignUp rel t.align t.align_pos
    have h2 := FieldList.le_endOffset rest (alignUp rel t.align + t.size)
    rw [GoType.decode_congr t bs cs (base + alignUp rel t.align) (pfx ++ name)
        (fun j h3 h4 => h j (by omega) (by omega)),
      FieldList.fields_decode_congr rest bs cs base (alignUp rel t.align + t.size) pfx
        (fun j h3 h4 => h j (by omega) (by omega))]
end

theorem Layout.KeyboardEvent_size_le (sc kc km : Scalar) :
    (Layout.KeyboardEvent sc kc km).size ≤ 128 := by
  cases sc <;> cases kc <;> cases km <;> decide

theorem Event.accessors_size_le (sc kc km : Scalar) :
    ∀ a ∈ Event.accessors sc kc km, a.2.1.size ≤ 128 := by
  have hkey := Layout.KeyboardEvent_size_le sc kc km
  simp only [Event.accessors, List.forall_mem_cons, List.not_mem_nil, false_imp_iff,
    implies_true, and_true, hkey, true_and]
  decide

theorem Event.accessors_load (sc kc km : Scalar) :
    ∀ a ∈ Event.accessors sc kc km, ∀ e : Event, a.2.2 e = load a.2.1 e.bytes 0 := by
  simp only [Event.accessors, List.forall_mem_cons, List.not_mem_nil, false_imp_iff,
    implies_true, and_true]
  repeat' apply And.intro
  all_goals exact fun _ => rfl

/-- C6: an `Event` is exactly 128 bytes; every overlay struct an accessor returns,
laid out with Go field alignment on a 64-bit target, has size at most 128; and
no accessor reads outside the block: what it returns is the same whatever
memory follows the 128 bytes of the block. -/
theorem C6_overlays_fit_event (sc kc km : Scalar) :
    (∀ e : Event, e.bytes.length = 128) ∧
    (∀ a ∈ Event.accessors sc kc km, a.2.1.size ≤ 128) ∧
    (∀ a ∈ Event.accessors sc kc km, ∀ (e : Event) (after1 after2 : List Nat),
      load a.2.1 (e.bytes ++ after1) 0 = a.2.2 e ∧
      load a.2.1 (e.bytes ++ after2) 0 = a.2.2 e) := by
  have hframe : ∀ a ∈ Event.accessors sc kc km, ∀ (e : Event) (rest : List Nat),
      load a.2.1 (e.bytes ++ rest) 0 = a.2.2 e := by
    intro a ha e rest
    have hsz := Event.accessors_size_le sc kc km a ha
    rw [Event.accessors_load sc kc km a ha e]
    have h1 : 0 + a.2.1.size ≤ (e.bytes ++ rest).length := by
      rw [List.length_append, e.size_eq]; omega
    have h2 : 0 + a.2.1.size ≤ e.bytes.length := by rw [e.size_eq]; omega
    simp only [load, h1, h2, if_true]
    congr 1
    apply GoType.decode_congr
    intro j _ hj
    exact List.getD_append _ _ _ _ (by rw [e.size_eq]; omega)
  exact ⟨fun e => e.size_eq, Event.accessors_size_le sc kc km,
    fun a ha e after1 after2 => ⟨hframe a ha e after1, hframe a ha e after2⟩⟩

set_option maxRecDepth 100000 in
/-- C7: every accessor is total and never looks at the discriminant before
decoding: on every block, whatever its `Type()`, it returns the overlay decoded
from the leading bytes of the block. `Window()` returns the `WindowEvent` formed
from bytes 0 to 27, also on a block whose type is `EventQuit`. -/
theorem C7_accessors_total (sc kc km : Scalar) (e : Event) :
    (∀ a ∈ Event.accessors sc kc km, a.2.2 e = some (a.2.1.decode e.bytes 0 "")) ∧
    e.Window = some
      [("CommonEvent.Type", .scalar (.uint e.eventType)),
       ("CommonEvent.reserved", .scalar (.uint (loadLE e.bytes 4 4))),
       ("CommonEvent.Timestamp", .scalar (.uint (loadLE e.bytes 8 8))),
       ("WindowID", .scalar (.uint (loadLE e.bytes 16 4))),
       ("Data1", .scalar (.int (toSigned 32 (loadLE e.bytes 20 4)))),
       ("Data2", .scalar (.int (toSigned 32 (loadLE e.bytes 24 4))))] ∧
    (exEvent.putUint32 0 EventQuit).eventType = EventQuit ∧
    (exEvent.putUint32 0 EventQuit).Window = some
      [("CommonEvent.Type", .scalar (.uint EventQuit)),
       ("CommonEvent.reserved", .scalar (.uint 0x07060504)),
       ("CommonEvent.Timestamp", .scalar (.uint 0x0f0e0d0c0b0a0908)),
       ("WindowID", .scalar (.uint 0x13121110)),
       ("Data1", .scalar (.int 0x17161514)),
       ("Data2", .scalar (.int 0x1b1a1918))] := by
  refine ⟨?_, Event.Window_eq e, rfl, rfl⟩
  intro a ha
  have hsz := Event.accessors_size_le sc kc km a ha
  have h2 : 0 + a.2.1.size ≤ e.bytes.length := by rw [e.size_eq]; omega
  rw [Event.accessors_load sc kc km a ha e]
  simp only [load, h2, if_true]

/-! ### Flags -/

set_option maxRecDepth 1000000 in
/-- C8: for every two distinct `WindowFlags` constants `a`, `b` (likewise
`InitFlags`), `(a|b)&a == a` and `(a|b)&b == b`, and `(a|b)&c == 0` for every
third constant `c` of the type; each constant has exactly one bit set and no
two constants of a type share a bit. -/
theorem C8_flag_bits_independent :
    (∀ a ∈ windowFlagsConstants, ∀ b ∈ windowFlagsConstants, a ≠ b →
      (a ||| b) &&& a = a ∧ (a ||| b) &&& b = b ∧ a &&& b = 0 ∧
      ∀ c ∈ windowFlagsConstants, c ≠ a → c ≠ b → (a ||| b) &&& c = 0) ∧
    (∀ a ∈ initFlagsConstants, ∀ b ∈ initFlagsConstants, a ≠ b →
      (a ||| b) &&& a = a ∧ (a ||| b) &&& b = b ∧ a &&& b = 0 ∧
      ∀ c ∈ initFlagsConstants, c ≠ a → c ≠ b → (a ||| b) &&& c = 0) ∧
    (∀ a ∈ windowFlagsConstants, ∃ k, k < 64 ∧ a = 2 ^ k) ∧
    (∀ a ∈ initFlagsConstants, ∃ k, k < 32 ∧ a = 2 ^ k) ∧
    (WindowResizable ||| WindowBorderless) &&& WindowResizable = WindowResizable ∧
    (WindowResizable ||| WindowBorderless) &&& WindowBorderless = WindowBorderless := by
  refine ⟨by decide, by decide, by decide, by decide, by decide, by decide⟩

/-! ### Event filter callback -/

/-- C9: the native-facing function `NewEventFilter` builds around a filter
returns 1 when the filter returns true and 0 when it returns false, for every
`userdata` and event, and its effect is that of one call of the filter on the
`userdata` and event it received: a filter that logs its calls logs exactly
that one call. -/
theorem C9_event_filter_encodes_bool {σ : Type} (filter : Nat → Nat → σ → Bool × σ)
    (f : Nat → Nat → Bool) (userdata event : Nat) (st : σ) :
    ((filter userdata event st).1 = true →
      (NewEventFilter filter userdata event st).1 = 1) ∧
    ((filter userdata event st).1 = false →
      (NewEventFilter filter userdata event st).1 = 0) ∧
    (NewEventFilter filter userdata event st).2 = (filter userdata event st).2 ∧
    NewEventFilter (recordCalls f) userdata event []
      = (if f userdata event then 1 else 0, [(userdata, event)]) := by
  refine ⟨?_, ?_, ?_, ?_⟩
  · intro h
    unfold NewEventFilter
    cases hf : filter userdata event st with
    | mk r st1 => rw [hf] at h; simp only at h; subst h; rfl
  · intro h
    unfold NewEventFilter
    cases hf : filter userdata event st with
    | mk r st1 => rw [hf] at h; simp only at h; subst h; rfl
  · unfold NewEventFilter
    cases hf : filter userdata event st with
    | mk r st1 => cases r <;> rfl
  · unfold NewEventFilter recordCalls
    cases f userdata event <;> rfl

/-! ### Strings -/

/-- C11: a string accessor whose native pointer is null returns the empty string:
`Title()` and `Message()` of a `MessageBoxData`, `Text()` of a
`MessageBoxButtonData`, `Source()` and `Data()` of a `DropEvent`; in particular
on the zero values. -/
theorem C11_null_string_is_empty (m : MessageBoxData) (b : MessageBoxButtonData)
    (d : DropEvent) (htitle : m.title = none) (hmessage : m.message = none)
    (htext : b.text = none) (hsource : d.source = none) (hdata : d.data = none) :
    m.Title = [] ∧ m.Message = [] ∧ b.Text = [] ∧ d.Source = [] ∧ d.Data = [] := by
  simp only [MessageBoxData.Title, MessageBoxData.Message, MessageBoxButtonData.Text,
    DropEvent.Source, DropEvent.Data, htitle, hmessage, htext, hsource, hdata,
    convert.ToString, and_self]

/-- Witness of C11 on the zero values. -/
theorem C11_null_string_is_empty_witness :
    exMessageBox.Title = [] ∧ exMessageBox.Message = [] ∧ exButton.Text = [] ∧
    exDrop.Source = [] ∧ exDrop.Data = [] :=
  C11_null_string_is_empty exMessageBox exButton exDrop rfl rfl rfl rfl rfl

/-- C12 at its failing inputs: with a null `mimeTypes` pointer, `MimeTypes()`
panics in `unsafe.Slice` when `NumMimeTypes` is 1 and in `make` when it is -1;
only for `NumMimeTypes = 0` does it return an empty sequence. -/
theorem C12_MimeTypes_null_pointer_panics (heap : Heap BytePtr) :
    (exClipboardOne.MimeTypes heap).result = .error .sliceNilPointer ∧
    (exClipboardNeg.MimeTypes heap).result = .error .makeLenOutOfRange ∧
    (exClipboardZero.MimeTypes heap).result = .ok (some []) :=
  ⟨rfl, rfl, rfl⟩

theorem stringsLoop_spec (heap : Heap BytePtr) (base : Nat) (k : Nat) :
    ∀ (i : Nat) (dst : List GoString), dst.length = i + k →
      (∀ j, i ≤ j → j < i + k → (heap (base + j)).isSome) →
      ∃ out : List GoString,
        (stringsLoop heap base k i dst).result = .ok out ∧
        out.length = i + k ∧
        (∀ j, j < i → out[j]? = dst[j]?) ∧
        (∀ j, i ≤ j → j < i + k → ∀ v, heap (base + j) = some v →
          out[j]? = some (convert.ToString v)) := by
  induction k with
  | zero =>
    intro i dst hlen _
    exact ⟨dst, rfl, hlen, fun _ _ => rfl, fun j h1 h2 => by omega⟩
  | succ k ih =>
    intro i dst hlen hvalid
    obtain ⟨v, hv⟩ := Option.isSome_iff_exists.mp (hvalid i (Nat.le_refl i) (by omega))
    have hi : i < dst.length := by omega
    obtain ⟨out, hres, holen, hlow, hhigh⟩ := ih (i + 1) (dst.set i (convert.ToString v))
      (by simp only [List.length_set]; omega)
      (fun j h1 h2 => hvalid j (by omega) (by omega))
    refine ⟨out, ?_, by omega, ?_, ?_⟩
    · simp only [stringsLoop, hv, hi, if_true, hres]
    · intro j hj
      rw [hlow j (by omega), List.getElem?_set_ne (by omega)]
    · intro j h1 h2 w hw
      rcases Nat.eq_or_lt_of_le h1 with heq | hlt
      · subst heq
        have hwv : w = v := by rw [hv] at hw; exact (Option.some.inj hw).symm
        subst hwv
        rw [hlow i (Nat.lt_succ_self i), List.getElem?_set_eq_of_lt _ hi]
      · exact hhigh j hlt (by omega) w hw

/-- C13: `Candidates()` returns an empty, non-nil sequence when the candidates
pointer is null or `numCandidates <= 0`; otherwise, the native array being
valid for `numCandidates` entries, it returns exactly `numCandidates` strings,
the `i`-th being `convert.ToString` of the `i`-th native string pointer. -/
theorem C13_Candidates_converts_each (heap : Heap BytePtr) (t : TextEditingCandidatesEvent)
    (hvalid : t.candidates ≠ 0 → ∀ i, i < t.numCandidates.toNat →
      (heap (t.candidates + i)).isSome) :
    ((t.candidates = 0 ∨ t.numCandidates ≤ 0) →
      (t.Candidates heap).result = .ok (some []) ∧ (t.Candidates heap).trace = []) ∧
    (¬ (t.candidates = 0 ∨ t.numCandidates ≤ 0) →
      ∃ xs : List GoString, (t.Candidates heap).result = .ok (some xs) ∧
        xs.length = t.numCandidates.toNat ∧
        ∀ i, i < t.numCandidates.toNat → ∀ v, heap (t.candidates + i) = some v →
          xs[i]? = some (convert.ToString v)) := by
  constructor
  · intro h
    simp only [TextEditingCandidatesEvent.Candidates, h, if_true, and_self]
  · intro h
    have hnull : t.candidates ≠ 0 := fun h0 => h (Or.inl h0)
    have hpos : ¬ t.numCandidates ≤ 0 := fun h0 => h (Or.inr h0)
    have hneg : ¬ t.numCandidates < 0 := by omega
    have hnz : ¬ (t.candidates = 0 ∧ t.numCandidates ≠ 0) := fun h0 => hnull h0.1
    obtain ⟨out, hres, holen, _, hhigh⟩ := stringsLoop_spec heap t.candidates
      t.numCandidates.toNat 0 (List.replicate t.numCandidates.toNat default) (by simp)
      (fun j _ h2 => hvalid hnull j (by omega))
    refine ⟨out, ?_, by omega, fun i hi v hv => hhigh i (Nat.zero_le i) (by omega) v hv⟩
    simp only [TextEditingCandidatesEvent.Candidates, h, if_false, makeSlice, sliceAt, hneg,
      hnz, hres, Except.map]

/-- Witness of C13: two candidates, the second a null string pointer. -/
theorem C13_Candidates_converts_each_witness :
    (exCandidates.Candidates exStrings).result = .ok (some [[0x61, 0x62], []]) ∧
    (((exCandidates.candidates = 0 ∨ exCandidates.numCandidates ≤ 0) →
      (exCandidates.Candidates exStrings).result = .ok (some []) ∧
      (exCandidates.Candidates exStrings).trace = []) ∧
    (¬ (exCandidates.candidates = 0 ∨ exCandidates.numCandidates ≤ 0) →
      ∃ xs : List GoString, (exCandidates.Candidates exStrings).result = .ok (some xs) ∧
        xs.length = exCandidates.numCandidates.toNat ∧
        ∀ i, i < exCandidates.numCandidates.toNat → ∀ v,
          exStrings (exCandidates.candidates + i) = some v →
          xs[i]? = some (convert.ToString v))) :=
  ⟨rfl, C13_Candidates_converts_each exStrings exCandidates (fun _ i hi => by
    have h2 : i < 2 := hi
    interval_cases i <;> rfl)⟩

/-- C14: `Colors()` returns nil when the palette is nil or its colors pointer is
null, whatever `ncolors` holds; on a palette with a non-null colors pointer
and `ncolors >= 0` it returns a slice of exactly `ncolors` elements whose
`i`-th element is the `i`-th native color. -/
theorem C14_Colors_views_native_array (heap : Heap Color) (pal nul : Palette)
    (hcolors : pal.colors ≠ 0) (hn : 0 ≤ pal.ncolors) (hnul : nul.colors = 0) :
    Palette.Colors none = .ok none ∧
    Palette.Colors (some nul) = .ok none ∧
    ∃ s : Nat × Nat, Palette.Colors (some pal) = .ok (some s) ∧
      s.2 = pal.ncolors.toNat ∧
      ∀ i, i < pal.ncolors.toNat → sliceIndex heap s i = heap (pal.colors + i) := by
  have hneg : ¬ pal.ncolors < 0 := not_lt.mpr hn
  refine ⟨rfl, ?_, (pal.colors, pal.ncolors.toNat), ?_, rfl, ?_⟩
  · simp only [Palette.Colors, hnul, if_true]
  · simp [Palette.Colors, hcolors, sliceAt, hneg, Except.map]
  · intro i hi
    simp only [sliceIndex, hi, if_true]

/-- Witness of C14: a palette of two colors, and one with a null pointer and
`ncolors = 5`. -/
theorem C14_Colors_views_native_array_witness :
    Palette.Colors none = .ok none ∧
    Palette.Colors (some exPaletteNull) = .ok none ∧
    ∃ s : Nat × Nat, Palette.Colors (some exPalette) = .ok (some s) ∧
      s.2 = exPalette.ncolors.toNat ∧
      ∀ i, i < exPalette.ncolors.toNat → sliceIndex exColors s i
        = exColors (exPalette.colors + i) :=
  C14_Colors_views_native_array exColors exPalette exPaletteNull (by decide) (by decide) rfl

/-! ### Mouse buttons -/

set_option maxRecDepth 100000 in
/-- C15: the buttons are 1 to 5 and their masks 1, 2, 4, 8, 16, each mask being
`1 << (button index - 1)`; for every state formed by OR-ing the masks of a set
of buttons, `state & mask(b) != 0` holds exactly for the buttons `b` of the set. -/
theorem C15_button_masks :
    [ButtonLeft, ButtonMiddle, ButtonRight, ButtonX1, ButtonX2] = [1, 2, 3, 4, 5] ∧
    [ButtonLMask, ButtonMMask, ButtonRMask, ButtonX1Mask, ButtonX2Mask] = [1, 2, 4, 8, 16] ∧
    (∀ b ∈ mouseButtons, b.2 = 1 <<< (b.1 - 1)) ∧
    (∀ set ∈ mouseButtons.sublists, ∀ b ∈ mouseButtons,
      (buttonState set &&& b.2 ≠ 0 ↔ b ∈ set)) := by
  refine ⟨by decide, by decide, by decide, by decide⟩

/-! ### Versions -/

/-- C16: for `major >= 0` and `minor`, `patch` in 0..999 such that
`v = major*1000000 + minor*1000 + patch` fits in `int32`, the decoding of
`sdl.GetVersion`, `img.Version` and `ttf.Version` maps `v` to
`(major, minor, patch)`. -/
theorem C16_version_decoding (major minor patch : Int) (hmajor : 0 ≤ major)
    (hminor : 0 ≤ minor ∧ minor ≤ 999) (hpatch : 0 ≤ patch ∧ patch ≤ 999)
    (hfit : major * 1000000 + minor * 1000 + patch < 2 ^ 31) :
    GetVersion (major * 1000000 + minor * 1000 + patch) = (major, minor, patch) ∧
    img.Version (major * 1000000 + minor * 1000 + patch) = (major, minor, patch) ∧
    ttf.Version (major * 1000000 + minor * 1000 + patch) = (major, minor, patch) := by
  have hv : 0 ≤ major * 1000000 + minor * 1000 + patch := by omega
  have h1 : (major * 1000000 + minor * 1000 + patch).tdiv 1000000 = major := by
    rw [Int.tdiv_eq_ediv hv (by decide)]; omega
  have h2 : (major * 1000000 + minor * 1000 + patch).tdiv 1000
      = major * 1000 + minor := by
    rw [Int.tdiv_eq_ediv hv (by decide)]; omega
  have h3 : (major * 1000 + minor).tmod 1000 = minor := by
    rw [Int.tmod_eq_emod (by omega) (by decide)]; omega
  have h4 : (major * 1000000 + minor * 1000 + patch).tmod 1000 = patch := by
    rw [Int.tmod_eq_emod hv (by decide)]; omega
  simp only [GetVersion, img.Version, ttf.Version, h1, h2, h3, h4, and_self]

/-- Witness of C16: version 3.2.12 is the number 3002012. -/
theorem C16_version_decoding_witness :
    GetVersion 3002012 = (3, 2, 12) ∧
    (GetVersion (3 * 1000000 + 2 * 1000 + 12) = (3, 2, 12) ∧
     img.Version (3 * 1000000 + 2 * 1000 + 12) = (3, 2, 12) ∧
     ttf.Version (3 * 1000000 + 2 * 1000 + 12) = (3, 2, 12)) :=
  ⟨by decide, C16_version_decoding 3 2 12 (by decide) (by decide) (by decide) (by decide)⟩

/-! ### Pixel formats -/

theorem or_mod_two_pow (a b n : Nat) : (a ||| b) % 2 ^ n = a % 2 ^ n ||| b % 2 ^ n := by
  apply Nat.eq_of_testBit_eq
  intro i
  simp only [Nat.testBit_or, Nat.testBit_mod_two_pow, Bool.and_or_distrib_left]

/-- C17: `DefinePixelFormat` is the `uint32` value of
`1<<28 | pixelType<<24 | order<<20 | layout<<16 | bitsPerPixel<<8 | bytesPerPixel`,
and applied to the components its name denotes it gives each of the 54
predefined non-FourCC `PixelFormat` constants, from `PixelFormatIndex1LSB` to
`PixelFormatABGR128Float`. -/
theorem C17_DefinePixelFormat_constants (pixelType order layout bitsPerPixel
    bytesPerPixel : Nat) (hbytes : bytesPerPixel < 256) :
    DefinePixelFormat pixelType order layout bitsPerPixel bytesPerPixel
      = (1 <<< 28 ||| pixelType <<< 24 ||| order <<< 20 ||| layout <<< 16
          ||| bitsPerPixel <<< 8 ||| bytesPerPixel) % 2 ^ 32 ∧
    (∀ row ∈ pixelFormatTable, row.1 = row.2) ∧
    pixelFormatTable.length = 54 ∧
    DefinePixelFormat PixelTypePacked32 PackedOrderARGB PackedLayout8888 32 4
      = PixelFormatARGB8888 ∧
    PixelFormatARGB8888 = 0x16362004 ∧
    DefinePixelFormat PixelTypeArrayU8 ArrayOrderRGB PackedLayoutNone 24 3
      = PixelFormatRGB24 ∧
    DefinePixelFormat PixelTypeIndex1 BitmapOrder4321 PackedLayoutNone 1 0
      = PixelFormatIndex1LSB ∧
    DefinePixelFormat PixelTypePacked16 PackedOrderXRGB PackedLayout565 16 2
      = PixelFormatRGB565 := by
  refine ⟨?_, by decide, by decide, by decide, by decide, by decide, by decide, by decide⟩
  have h1 : (1 <<< 28) % 2 ^ 32 = 1 <<< 28 := by decide
  have h2 : bytesPerPixel % 2 ^ 32 = bytesPerPixel :=
    Nat.mod_eq_of_lt (Nat.lt_trans hbytes (by decide))
  simp only [DefinePixelFormat, or_mod_two_pow, h1, h2]

/-- Witness of C17 on the components of `PixelFormatARGB8888`. -/
theorem C17_DefinePixelFormat_constants_witness :
    DefinePixelFormat 6 3 6 32 4 = 0x16362004 ∧
    (DefinePixelFormat 6 3 6 32 4
      = (1 <<< 28 ||| 6 <<< 24 ||| 3 <<< 20 ||| 6 <<< 16 ||| 32 <<< 8 ||| 4) % 2 ^ 32 ∧
    (∀ row ∈ pixelFormatTable, row.1 = row.2) ∧
    pixelFormatTable.length = 54 ∧
    DefinePixelFormat PixelTypePacked32 PackedOrderARGB PackedLayout8888 32 4
      = PixelFormatARGB8888 ∧
    PixelFormatARGB8888 = 0x16362004 ∧
    DefinePixelFormat PixelTypeArrayU8 ArrayOrderRGB PackedLayoutNone 24 3
      = PixelFormatRGB24 ∧
    DefinePixelFormat PixelTypeIndex1 BitmapOrder4321 PackedLayoutNone 1 0
      = PixelFormatIndex1LSB ∧
    DefinePixelFormat PixelTypePacked16 PackedOrderXRGB PackedLayout565 16 2
      = PixelFormatRGB565) :=
  ⟨by decide, C17_DefinePixelFormat_constants 6 3 6 32 4 (by decide)⟩

/-! ### Rectangles -/

theorem wrapInt32_of_fits (x : Int) (h1 : -2 ^ 31 ≤ x) (h2 : x < 2 ^ 31) :
    wrapInt32 x = x := by
  norm_num at h1 h2
  simp only [wrapInt32]
  norm_num
  omega

/-- C18: when `r.X + r.W` and `r.Y + r.H` do not overflow `int32`,
`PointInRect(p, r)` is true exactly when `r.X <= p.X < r.X + r.W` and
`r.Y <= p.Y < r.Y + r.H`; the 1x1 rectangle at the origin contains (0,0) but
neither (0,1) nor (1,0). -/
theorem C18_PointInRect_half_open (p : Point) (r : Rect)
    (hx : -2 ^ 31 ≤ r.X + r.W ∧ r.X + r.W < 2 ^ 31)
    (hy : -2 ^ 31 ≤ r.Y + r.H ∧ r.Y + r.H < 2 ^ 31) :
    (PointInRect p r = true ↔
      (r.X ≤ p.X ∧ p.X < r.X + r.W) ∧ (r.Y ≤ p.Y ∧ p.Y < r.Y + r.H)) ∧
    PointInRect ⟨0, 0⟩ exUnitRect = true ∧
    PointInRect ⟨0, 1⟩ exUnitRect = false ∧
    PointInRect ⟨1, 0⟩ exUnitRect = false := by
  refine ⟨?_, by decide, by decide, by decide⟩
  simp only [PointInRect, wrapInt32_of_fits _ hx.1 hx.2, wrapInt32_of_fits _ hy.1 hy.2,
    Bool.and_eq_true, decide_eq_true_eq, ge_iff_le, and_assoc]

/-- Witness of C18: the point (0,0) and the 1x1 rectangle at the origin. -/
theorem C18_PointInRect_half_open_witness :
    (PointInRect ⟨0, 0⟩ exUnitRect = true ↔
      (exUnitRect.X ≤ 0 ∧ (0 : Int) < exUnitRect.X + exUnitRect.W) ∧
      (exUnitRect.Y ≤ 0 ∧ (0 : Int) < exUnitRect.Y + exUnitRect.H)) ∧
    PointInRect ⟨0, 0⟩ exUnitRect = true ∧
    PointInRect ⟨0, 1⟩ exUnitRect = false ∧
    PointInRect ⟨1, 0⟩ exUnitRect = false :=
  C18_PointInRect_half_open ⟨0, 0⟩ exUnitRect (by decide) (by decide)

/-! ### Window positions -/

theorem lockNeeded_test (x : Nat) :
    (x &&& SurfaceLockNeeded == SurfaceLockNeeded) = x.testBit 1 := by
  have h2 : SurfaceLockNeeded = 2 ^ 1 := by decide
  rw [h2, Nat.and_two_pow]
  cases x.testBit 1 <;> decide

/-- C20: on a non-nil surface `MustLock` returns true exactly when the
`SurfaceLockNeeded` bit (value 2) is set in `surface.Flags`; setting or
flipping any other bits of the flags does not change the result. -/
theorem C20_MustLock_tests_one_bit (sdlSetError : String → Bool) (s : Surface)
    (other : Nat) (hother : other.testBit 1 = false) :
    SurfaceLockNeeded = 2 ∧
    (MustLock sdlSetError (some s) = true ↔ s.Flags.testBit 1 = true) ∧
    MustLock sdlSetError (some { s with Flags := s.Flags ||| other })
      = MustLock sdlSetError (some s) ∧
    MustLock sdlSetError (some { s with Flags := s.Flags ^^^ other })
      = MustLock sdlSetError (some s) := by
  refine ⟨by decide, ?_, ?_, ?_⟩
  · simp only [MustLock, lockNeeded_test]
  · simp only [MustLock, lockNeeded_test, Nat.testBit_or, hother, Bool.or_false]
  · simp only [MustLock, lockNeeded_test, Nat.testBit_xor, hother, Bool.xor_false]

/-- Witness of C20: flags `SurfacePreallocated | SurfaceLockNeeded`, with the
bits `SurfacePreallocated | SurfaceLocked | SurfaceSIMDAligned` set or flipped. -/
theorem C20_MustLock_tests_one_bit_witness :
    MustLock (fun _ => false) (some exSurface) = true ∧
    (SurfaceLockNeeded = 2 ∧
    (MustLock (fun _ => false) (some exSurface) = true ↔ exSurface.Flags.testBit 1 = true) ∧
    MustLock (fun _ => false) (some { exSurface with Flags := exSurface.Flags ||| 13 })
      = MustLock (fun _ => false) (some exSurface) ∧
    MustLock (fun _ => false) (some { exSurface with Flags := exSurface.Flags ^^^ 13 })
      = MustLock (fun _ => false) (some exSurface)) :=
  ⟨by decide, C20_MustLock_tests_one_bit (fun _ => false) exSurface 13 (by decide)⟩

/-! ### Boolean results of native calls -/

/-- C21: `PollEvent`, `AudioStreamDevicePaused`, `ClearAudioStream`,
`FlushAudioStream`, `PauseAudioStreamDevice`, `ResumeAudioStreamDevice`,
`PutAudioStreamData`, `GLSetSwapInterval` and `GLSwapWindow` return true exactly
when the native result `r` has `r mod 256 != 0`: 1 gives true, 0 gives false,
and the bits above the low byte (here `256 * high`) never change the result. -/
theorem C21_bool_from_low_byte (native : List Nat → Nat) (p q : Nat) (n : Int)
    (r high : Nat) :
    (PollEvent native p = true ↔ native [p] % 256 ≠ 0) ∧
    (AudioStreamDevicePaused native p = true ↔ native [p] % 256 ≠ 0) ∧
    (ClearAudioStream native p = true ↔ native [p] % 256 ≠ 0) ∧
    (FlushAudioStream native p = true ↔ native [p] % 256 ≠ 0) ∧
    (PauseAudioStreamDevice native p = true ↔ native [p] % 256 ≠ 0) ∧
    (ResumeAudioStreamDevice native p = true ↔ native [p] % 256 ≠ 0) ∧
    (PutAudioStreamData native p q n = true ↔ native [p, q, toUintptr n] % 256 ≠ 0) ∧
    (GLSetSwapInterval native n = true ↔ native [toUintptr n] % 256 ≠ 0) ∧
    (GLSwapWindow native p = true ↔ native [p] % 256 ≠ 0) ∧
    PollEvent (fun _ => 1) p = true ∧
    PollEvent (fun _ => 0) p = false ∧
    PollEvent (fun _ => r % 256 + 256 * high) p = PollEvent (fun _ => r) p ∧
    GLSwapWindow (fun _ => r % 256 + 256 * high) p = GLSwapWindow (fun _ => r) p := by
  have hhigh : (r % 256 + 256 * high) % 256 = r % 256 := by omega
  simp only [PollEvent, AudioStreamDevicePaused, ClearAudioStream, FlushAudioStream,
    PauseAudioStreamDevice, ResumeAudioStreamDevice, PutAudioStreamData, GLSetSwapInterval,
    GLSwapWindow, toByte, bne_iff_ne, ne_eq, hhigh, and_self, true_and]
  decide

/-! ### Get-list wrappers on a null result -/

/-- C22: when the native call returns a null pointer, whatever count it wrote,
every get-list wrapper returns nil without failing. The wrappers that test for
null first call nothing; those that do not call `Free` once, on the null
pointer. So no wrapper passes a non-null pointer to `Free`. -/
theorem C22_get_list_null_returns_nil {T : Type} (heap ptrs : Heap Nat) (structs : Heap T)
    (native : Int → Nat × Int) (nativeArg : Nat → Int → Nat × Int) (arg : Nat)
    (hnull : (native 0).1 = 0) (hnullArg : (nativeArg arg 0).1 = 0) :
    ((GetCameras heap native).result = .ok none ∧ (GetCameras heap native).trace = []) ∧
    ((GetJoysticks heap native).result = .ok none ∧ (GetJoysticks heap native).trace = []) ∧
    ((GetGamepadBindings ptrs structs nativeArg arg).result = .ok none ∧
      (GetGamepadBindings ptrs structs nativeArg arg).trace = []) ∧
    ((GetCameraSupportedFormats ptrs structs nativeArg arg).result = .ok none ∧
      (GetCameraSupportedFormats ptrs structs nativeArg arg).trace = []) ∧
    ((GetMice heap native).result = .ok none ∧
      (GetMice heap native).trace = [Effect.free 0]) ∧
    ((GetDisplays heap native).result = .ok none ∧
      (GetDisplays heap native).trace = [Effect.free 0]) ∧
    ((GetKeyboards heap native).result = .ok none ∧
      (GetKeyboards heap native).trace = [Effect.free 0]) ∧
    ((GetGamepads heap native).result = .ok none ∧
      (GetGamepads heap native).trace = [Effect.free 0]) ∧
    ((GetSurfaceImages heap nativeArg arg).result = .ok none ∧
      (GetSurfaceImages heap nativeArg arg).trace = [Effect.free 0]) ∧
    ((GetFullscreenDisplayModes ptrs structs nativeArg arg).result = .ok none ∧
      (GetFullscreenDisplayModes ptrs structs nativeArg arg).trace = [Effect.free 0]) ∧
    (∀ a, Effect.free a ∈ (GetMice heap native).trace ++ (GetDisplays heap native).trace
        ++ (GetKeyboards heap native).trace ++ (GetGamepads heap native).trace
        ++ (GetSurfaceImages heap nativeArg arg).trace
        ++ (GetFullscreenDisplayModes ptrs structs nativeArg arg).trace → a = 0) := by
  have hcopy : ∀ c : Int, (mem.Copy heap 0 c) = ⟨.ok none, []⟩ := fun c => by
    simp [mem.Copy]
  have hdeep : ∀ c : Int, (mem.DeepCopy ptrs structs 0 c) = ⟨.ok none, []⟩ := fun c => by
    simp [mem.DeepCopy]
  simp only [GetCameras, GetJoysticks, GetGamepadBindings, GetCameraSupportedFormats, GetMice,
    GetDisplays, GetKeyboards, GetGamepads, GetSurfaceImages, GetFullscreenDisplayModes,
    hnull, hnullArg, if_true, hcopy, hdeep, withDefer, Free, List.nil_append, and_self,
    true_and, List.append_assoc, List.cons_append, List.mem_cons, List.mem_singleton,
    Effect.free.injEq, List.not_mem_nil, or_false, or_self]
  intro a h
  exact h

/-- Witness of C22: native calls that return null after writing count 7 or -3. -/
theorem C22_get_list_null_returns_nil_witness :
    ((GetCameras exList exGetListNull).result = .ok none ∧
      (GetCameras exList exGetListNull).trace = []) ∧
    ((GetJoysticks exList exGetListNull).result = .ok none ∧
      (GetJoysticks exList exGetListNull).trace = []) ∧
    ((GetGamepadBindings exPtrs exStructs exGetListNullArg 5).result = .ok none ∧
      (GetGamepadBindings exPtrs exStructs exGetListNullArg 5).trace = []) ∧
    ((GetCameraSupportedFormats exPtrs exStructs exGetListNullArg 5).result = .ok none ∧
      (GetCameraSupportedFormats exPtrs exStructs exGetListNullArg 5).trace = []) ∧
    ((GetMice exList exGetListNull).result = .ok none ∧
      (GetMice exList exGetListNull).trace = [Effect.free 0]) ∧
    ((GetDisplays exList exGetListNull).result = .ok none ∧
      (GetDisplays exList exGetListNull).trace = [Effect.free 0]) ∧
    ((GetKeyboards exList exGetListNull).result = .ok none ∧
      (GetKeyboards exList exGetListNull).trace = [Effect.free 0]) ∧
    ((GetGamepads exList exGetListNull).result = .ok none ∧
      (GetGamepads exList exGetListNull).trace = [Effect.free 0]) ∧
    ((GetSurfaceImages exList exGetListNullArg 5).result = .ok none ∧
      (GetSurfaceImages exList exGetListNullArg 5).trace = [Effect.free 0]) ∧
    ((GetFullscreenDisplayModes exPtrs exStructs exGetListNullArg 5).result = .ok none ∧
      (GetFullscreenDisplayModes exPtrs exStructs exGetListNullArg 5).trace
        = [Effect.free 0]) ∧
    (∀ a, Effect.free a ∈ (GetMice exList exGetListNull).trace
        ++ (GetDisplays exList exGetListNull).trace
        ++ (GetKeyboards exList exGetListNull).trace
        ++ (GetGamepads exList exGetListNull).trace
        ++ (GetSurfaceImages exList exGetListNullArg 5).trace
        ++ (GetFullscreenDisplayModes exPtrs exStructs exGetListNullArg 5).trace → a = 0) :=
  C22_get_list_null_returns_nil exList exPtrs exStructs exGetListNull exGetListNullArg 5
    rfl rfl

/-! ### Padded overlays -/

theorem Event.loadLE_setByte_outside (e : Event) (i b off w : Nat)
    (h : i < off ∨ off + w ≤ i) :
    loadLE (e.setByte i b).bytes off w = loadLE e.bytes off w := by
  apply loadLE_congr
  intro j h1 h2
  rw [Event.getD_setByte]
  have : ¬ (j = i ∧ i < 128) := by omega
  simp only [this, if_false]

/-- The `JoyAxisEvent` an event block decodes to, field by field. -/
theorem Event.JAxis_eq (e : Event) :
    e.JAxis = some
      [("CommonEvent.Type", .scalar (.uint (loadLE e.bytes 0 4))),
       ("CommonEvent.reserved", .scalar (.uint (loadLE e.bytes 4 4))),
       ("CommonEvent.Timestamp", .scalar (.uint (loadLE e.bytes 8 8))),
       ("Which", .scalar (.uint (loadLE e.bytes 16 4))),
       ("Axis", .scalar (.uint (loadLE e.bytes 20 1))),
       ("Value", .scalar (.int (toSigned 16 (loadLE e.bytes 24 2))))] := by
  have hs : Layout.JoyAxisEvent.size = 32 := by decide
  simp only [Event.JAxis, load, hs, e.size_eq]
  simp [Layout.JoyAxisEvent, Layout.CommonEvent, Layout.EventType, Layout.JoystickID,
    structOf, fld, FieldList.ofList, GoType.decode, FieldList.decode, GoType.align,
    FieldList.align, GoType.size, FieldList.endOffset, Scalar.size, alignUp, decodeScalar]

/-- The `GamepadAxisEvent` an event block decodes to, field by field. -/
theorem Event.GAxis_eq (e : Event) :
    e.GAxis = some
      [("CommonEvent.Type", .scalar (.uint (loadLE e.bytes 0 4))),
       ("CommonEvent.reserved", .scalar (.uint (loadLE e.bytes 4 4))),
       ("CommonEvent.Timestamp", .scalar (.uint (loadLE e.bytes 8 8))),
       ("Which", .scalar (.uint (loadLE e.bytes 16 4))),
       ("Axis", .scalar (.uint (loadLE e.bytes 20 1))),
       ("Value", .scalar (.int (toSigned 16 (loadLE e.bytes 24 2))))] := by
  have hs : Layout.GamepadAxisEvent.size = 32 := by decide
  simp only [Event.GAxis, load, hs, e.size_eq]
  simp [Layout.GamepadAxisEvent, Layout.CommonEvent, Layout.EventType, Layout.JoystickID,
    structOf, fld, FieldList.ofList, GoType.decode, FieldList.decode, GoType.align,
    FieldList.align, GoType.size, FieldList.endOffset, Scalar.size, alignUp, decodeScalar]

/-- The `MouseButtonEvent` an event block decodes to, field by field. -/
theorem Event.Button_eq (e : Event) :
    e.Button = some
      [("CommonEvent.Type", .scalar (.uint (loadLE e.bytes 0 4))),
       ("CommonEvent.reserved", .scalar (.uint (loadLE e.bytes 4 4))),
       ("CommonEvent.Timestamp", .scalar (.uint (loadLE e.bytes 8 8))),
       ("WindowID", .scalar (.uint (loadLE e.bytes 16 4))),
       ("Which", .scalar (.uint (loadLE e.bytes 20 4))),
       ("Button", .scalar (.uint (loadLE e.bytes 24 1))),
       ("Down", .scalar (.bool (loadLE e.bytes 25 1))),
       ("Clicks", .scalar (.uint (loadLE e.bytes 26 1))),
       ("X", .scalar (.float32 (loadLE e.bytes 28 4))),
       ("Y", .scalar (.float32 (loadLE e.bytes 32 4)))] := by
  have hs : Layout.MouseButtonEvent.size = 40 := by decide
  simp only [Event.Button, load, hs, e.size_eq]
  simp [Layout.MouseButtonEvent, Layout.CommonEvent, Layout.EventType, Layout.WindowID,
    Layout.MouseID, structOf, fld, FieldList.ofList, GoType.decode, FieldList.decode,
    GoType.align, FieldList.align, GoType.size, FieldList.endOffset, Scalar.size, alignUp,
    decodeScalar]

/-- The `JoyHatEvent` an event block decodes to, field by field. -/
theorem Event.JHat_eq (e : Event) :
    e.JHat = some
      [("CommonEvent.Type", .scalar (.uint (loadLE e.bytes 0 4))),
       ("CommonEvent.reserved", .scalar (.uint (loadLE e.bytes 4 4))),
       ("CommonEvent.Timestamp", .scalar (.uint (loadLE e.bytes 8 8))),
       ("Which", .scalar (.uint (loadLE e.bytes 16 4))),
       ("Hat", .scalar (.uint (loadLE e.bytes 20 1))),
       ("Value", .scalar (.uint (loadLE e.bytes 21 1)))] := by
  have hs : Layout.JoyHatEvent.size = 24 := by decide
  simp only [Event.JHat, load, hs, e.size_eq]
  simp [Layout.JoyHatEvent, Layout.CommonEvent, Layout.EventType, Layout.JoystickID,
    structOf, fld, FieldList.ofList, GoType.decode, FieldList.decode, GoType.align,
    FieldList.align, GoType.size, FieldList.endOffset, Scalar.size, alignUp, decodeScalar]

/-- C23: `JAxis()` and `GAxis()` read `Which` from offset 16, `Axis` from offset
20 and `Value` as an `int16` from offsets 24-25; `Button()` reads `Button`,
`Down` and `Clicks` from offsets 24, 25, 26 and `X`, `Y` from offsets 28 and 32;
`JHat()` reads `Hat` and `Value` from offsets 20 and 21. Writing any byte `b`
at a padding position `i` (21-23 and 26-31 for the axis events, 27 and 36-39
for the button event, 22-23 for the hat event) changes none of the decoded
fields. -/
theorem C23_padded_overlay_offsets (e : Event) (i b : Nat) :
    (e.JAxis = some
      [("CommonEvent.Type", .scalar (.uint (loadLE e.bytes 0 4))),
       ("CommonEvent.reserved", .scalar (.uint (loadLE e.bytes 4 4))),
       ("CommonEvent.Timestamp", .scalar (.uint (loadLE e.bytes 8 8))),
       ("Which", .scalar (.uint (loadLE e.bytes 16 4))),
       ("Axis", .scalar (.uint (loadLE e.bytes 20 1))),
       ("Value", .scalar (.int (toSigned 16 (loadLE e.bytes 24 2))))] ∧
     e.GAxis = e.JAxis) ∧
    e.Button = some
      [("CommonEvent.Type", .scalar (.uint (loadLE e.bytes 0 4))),
       ("CommonEvent.reserved", .scalar (.uint (loadLE e.bytes 4 4))),
       ("CommonEvent.Timestamp", .scalar (.uint (loadLE e.bytes 8 8))),
       ("WindowID", .scalar (.uint (loadLE e.bytes 16 4))),
       ("Which", .scalar (.uint (loadLE e.bytes 20 4))),
       ("Button", .scalar (.uint (loadLE e.bytes 24 1))),
       ("Down", .scalar (.bool (loadLE e.bytes 25 1))),
       ("Clicks", .scalar (.uint (loadLE e.bytes 26 1))),
       ("X", .scalar (.float32 (loadLE e.bytes 28 4))),
       ("Y", .scalar (.float32 (loadLE e.bytes 32 4)))] ∧
    e.JHat = some
      [("CommonEvent.Type", .scalar (.uint (loadLE e.bytes 0 4))),
       ("CommonEvent.reserved", .scalar (.uint (loadLE e.bytes 4 4))),
       ("CommonEvent.Timestamp", .scalar (.uint (loadLE e.bytes 8 8))),
       ("Which", .scalar (.uint (loadLE e.bytes 16 4))),
       ("Hat", .scalar (.uint (loadLE e.bytes 20 1))),
       ("Value", .scalar (.uint (loadLE e.bytes 21 1)))] ∧
    (i ∈ [21, 22, 23, 26, 27, 28, 29, 30, 31] →
      (e.setByte i b).JAxis = e.JAxis ∧ (e.setByte i b).GAxis = e.GAxis) ∧
    (i ∈ [27, 36, 37, 38, 39] → (e.setByte i b).Button = e.Button) ∧
    (i ∈ [22, 23] → (e.setByte i b).JHat = e.JHat) := by
  refine ⟨⟨Event.JAxis_eq e, ?_⟩, Event.Button_eq e, Event.JHat_eq e, ?_, ?_, ?_⟩
  · rw [Event.GAxis_eq, Event.JAxis_eq]
  · intro hi
    have hcases : i = 21 ∨ i = 22 ∨ i = 23 ∨ i = 26 ∨ i = 27 ∨ i = 28 ∨ i = 29 ∨ i = 30
        ∨ i = 31 := by simpa using hi
    simp only [Event.JAxis_eq, Event.GAxis_eq]
    rw [Event.loadLE_setByte_outside e i b 0 4 (by omega),
      Event.loadLE_setByte_outside e i b 4 4 (by omega),
      Event.loadLE_setByte_outside e i b 8 8 (by omega),
      Event.loadLE_setByte_outside e i b 16 4 (by omega),
      Event.loadLE_setByte_outside e i b 20 1 (by omega),
      Event.loadLE_setByte_outside e i b 24 2 (by omega)]
    exact ⟨rfl, rfl⟩
  · intro hi
    have hcases : i = 27 ∨ i = 36 ∨ i = 37 ∨ i = 38 ∨ i = 39 := by simpa using hi
    simp only [Event.Button_eq]
    rw [Event.loadLE_setByte_outside e i b 0 4 (by omega),
      Event.loadLE_setByte_outside e i b 4 4 (by omega),
      Event.loadLE_setByte_outside e i b 8 8 (by omega),
      Event.loadLE_setByte_outside e i b 16 4 (by omega),
      Event.loadLE_setByte_outside e i b 20 4 (by omega),
      Event.loadLE_setByte_outside e i b 24 1 (by omega),
      Event.loadLE_setByte_outside e i b 25 1 (by omega),
      Event.loadLE_setByte_outside e i b 26 1 (by omega),
      Event.loadLE_setByte_outside e i b 28 4 (by omega),
      Event.loadLE_setByte_outside e i b 32 4 (by omega)]
  · intro hi
    have hcases : i = 22 ∨ i = 23 := by simpa using hi
    simp only [Event.JHat_eq]
    rw [Event.loadLE_setByte_outside e i b 0 4 (by omega),
      Event.loadLE_setByte_outside e i b 4 4 (by omega),
      Event.loadLE_setByte_outside e i b 8 8 (by omega),
      Event.loadLE_setByte_outside e i b 16 4 (by omega),
      Event.loadLE_setByte_outside e i b 20 1 (by omega),
      Event.loadLE_setByte_outside e i b 21 1 (by omega)]

/-! ### Message box buttons -/

theorem wrapInt32_length {T : Type} (bs : List T) (h : bs.length < 2 ^ 31) :
    wrapInt32 (bs.length : Int) = bs.length := by
  apply wrapInt32_of_fits
  · have : (0 : Int) ≤ bs.length := Int.ofNat_nonneg _
    omega
  · exact_mod_cast h

theorem MessageBoxData.SetButtons_nil (m : MessageBoxData) :
    m.SetButtons [] = { m with numbuttons := 0, buttons := none } := by
  have h0 : wrapInt32 (([] : List MessageBoxButtonData).length : Int) = 0 := by decide
  rw [MessageBoxData.SetButtons, if_pos h0, h0]

theorem MessageBoxData.SetButtons_cons (m : MessageBoxData) (b : MessageBoxButtonData)
    (rest : List MessageBoxButtonData) (hlen : (b :: rest).length < 2 ^ 31) :
    m.SetButtons (b :: rest)
      = { m with numbuttons := ((b :: rest).length : Int), buttons := some (b :: rest) } := by
  have hw := wrapInt32_length (b :: rest) hlen
  have hne : ¬ ((((b :: rest).length : Nat) : Int) = 0) := by
    simp only [List.length_cons]; omega
  rw [MessageBoxData.SetButtons, hw, if_neg hne]

theorem sliceOfArray_whole {T : Type} (bs : List T) :
    sliceOfArray (some bs) (bs.length : Int) = .ok (some bs) := by
  have h1 : ¬ ((bs.length : Int) < 0) := by omega
  simp only [sliceOfArray, h1, if_false, Int.toNat_ofNat, Nat.le_refl, if_true,
    List.take_length]

/-- What holds of every message box built through the methods: the pointer is
null exactly when the count is zero, and otherwise the count is the length of
the array the pointer points to. -/
theorem MessageBoxData.Built.shape (m : MessageBoxData) (h : MessageBoxData.Built m) :
    (m.buttons = none ∧ m.numbuttons = 0) ∨
    (∃ bs, m.buttons = some bs ∧ m.numbuttons = bs.length ∧ bs ≠ []) := by
  induction h with
  | zero => exact Or.inl ⟨rfl, rfl⟩
  | setButtons m bs _ hlen _ =>
    cases bs with
    | nil => left; rw [MessageBoxData.SetButtons_nil]; exact ⟨rfl, rfl⟩
    | cons b rest =>
      right
      rw [MessageBoxData.SetButtons_cons m b rest hlen]
      exact ⟨b :: rest, rfl, rfl, List.cons_ne_nil b rest⟩
  | setTitle m s _ ih => exact ih
  | setMessage m s _ ih => exact ih
  | setExported m f w c _ ih => exact ih

/-- C24: after `m.SetButtons(bs...)` with fewer than `2 ^ 31` buttons, `Buttons()`
returns a slice with exactly the elements `bs`; the buttons pointer is null if
and only if `numbuttons == 0` on the zero value and after `SetButtons`, and
`SetTitle` and `SetMessage` preserve that; `Buttons()` never fails on a value
built through these methods. -/
theorem C24_buttons_roundtrip (m built : MessageBoxData) (bs : List MessageBoxButtonData)
    (s : GoString) (hlen : bs.length < 2 ^ 31)
    (hinv : m.buttons = none ↔ m.numbuttons = 0) (hbuilt : MessageBoxData.Built built) :
    (∃ r, (m.SetButtons bs).Buttons = .ok r ∧ r.getD [] = bs) ∧
    (MessageBoxData.zero.buttons = none ↔ MessageBoxData.zero.numbuttons = 0) ∧
    ((m.SetButtons bs).buttons = none ↔ (m.SetButtons bs).numbuttons = 0) ∧
    ((m.SetTitle s).buttons = none ↔ (m.SetTitle s).numbuttons = 0) ∧
    ((m.SetMessage s).buttons = none ↔ (m.SetMessage s).numbuttons = 0) ∧
    (built.buttons = none ↔ built.numbuttons = 0) ∧
    (∃ r, built.Buttons = .ok r) := by
  refine ⟨?_, ⟨fun _ => rfl, fun _ => rfl⟩, ?_, hinv, hinv, ?_, ?_⟩
  · cases bs with
    | nil =>
      refine ⟨none, ?_, rfl⟩
      rw [MessageBoxData.SetButtons_nil]
      rfl
    | cons b rest =>
      refine ⟨some (b :: rest), ?_, rfl⟩
      rw [MessageBoxData.SetButtons_cons m b rest hlen]
      exact sliceOfArray_whole (b :: rest)
  · cases bs with
    | nil =>
      rw [MessageBoxData.SetButtons_nil]
      exact ⟨fun _ => rfl, fun _ => rfl⟩
    | cons b rest =>
      rw [MessageBoxData.SetButtons_cons m b rest hlen]
      constructor
      · intro h; cases h
      · intro h
        have h2 : ((b :: rest).length : Int) = 0 := h
        simp only [List.length_cons] at h2
        omega
  · rcases MessageBoxData.Built.shape built hbuilt with ⟨h1, h2⟩ | ⟨cs, h1, h2, hcs⟩
    · rw [h1, h2]
      exact ⟨fun _ => rfl, fun _ => rfl⟩
    · rw [h1, h2]
      constructor
      · intro h; cases h
      · intro h
        have h0 : cs.length = 0 := by exact_mod_cast h
        exact absurd (List.eq_nil_of_length_eq_zero h0) hcs
  · rcases MessageBoxData.Built.shape built hbuilt with ⟨h1, h2⟩ | ⟨cs, h1, h2, _⟩
    · refine ⟨none, ?_⟩
      rw [MessageBoxData.Buttons, h1, h2]
      rfl
    · refine ⟨some cs, ?_⟩
      rw [MessageBoxData.Buttons, h1, h2]
      exact sliceOfArray_whole cs

/-- Witness of C24: two buttons set on the zero value, read back from a value
built by `SetTitle` after `SetButtons`. -/
theorem C24_buttons_roundtrip_witness :
    (∃ r, (MessageBoxData.zero.SetButtons exButtons).Buttons = .ok r ∧
      r.getD [] = exButtons) ∧
    (MessageBoxData.zero.buttons = none ↔ MessageBoxData.zero.numbuttons = 0) ∧
    ((MessageBoxData.zero.SetButtons exButtons).buttons = none ↔
      (MessageBoxData.zero.SetButtons exButtons).numbuttons = 0) ∧
    ((MessageBoxData.zero.SetTitle exString).buttons = none ↔
      (MessageBoxData.zero.SetTitle exString).numbuttons = 0) ∧
    ((MessageBoxData.zero.SetMessage exString).buttons = none ↔
      (MessageBoxData.zero.SetMessage exString).numbuttons = 0) ∧
    (((MessageBoxData.zero.SetButtons exButtons).SetTitle exString).buttons = none ↔
      ((MessageBoxData.zero.SetButtons exButtons).SetTitle exString).numbuttons = 0) ∧
    (∃ r, ((MessageBoxData.zero.SetButtons exButtons).SetTitle exString).Buttons = .ok r) :=
  C24_buttons_roundtrip MessageBoxData.zero
    ((MessageBoxData.zero.SetButtons exButtons).SetTitle exString) exButtons exString
    (by decide) ⟨fun _ => rfl, fun _ => rfl⟩
    (MessageBoxData.Built.setTitle _ _
      (MessageBoxData.Built.setButtons _ _ MessageBoxData.Built.zero (by decide)))

/-! ### Empty rectangles -/

theorem PointInRect_iff (p : Point) (r : Rect)
    (hx : -2 ^ 31 ≤ r.X + r.W ∧ r.X + r.W < 2 ^ 31)
    (hy : -2 ^ 31 ≤ r.Y + r.H ∧ r.Y + r.H < 2 ^ 31) :
    PointInRect p r = true ↔
      (r.X ≤ p.X ∧ p.X < r.X + r.W) ∧ (r.Y ≤ p.Y ∧ p.Y < r.Y + r.H) := by
  simp only [PointInRect, wrapInt32_of_fits _ hx.1 hx.2, wrapInt32_of_fits _ hy.1 hy.2,
    Bool.and_eq_true, decide_eq_true_eq, ge_iff_le, and_assoc]

/-- C25: when `r.X + r.W` and `r.Y + r.H` do not overflow `int32`, `RectEmpty(r)`
holds if and only if `PointInRect(p, r)` is false for every point `p` (with
`int32` coordinates); a rectangle that is not empty contains its top-left
corner `(r.X, r.Y)`. -/
theorem C25_RectEmpty_iff_no_point (r : Rect)
    (hX : -2 ^ 31 ≤ r.X ∧ r.X < 2 ^ 31) (hY : -2 ^ 31 ≤ r.Y ∧ r.Y < 2 ^ 31)
    (hx : -2 ^ 31 ≤ r.X + r.W ∧ r.X + r.W < 2 ^ 31)
    (hy : -2 ^ 31 ≤ r.Y + r.H ∧ r.Y + r.H < 2 ^ 31) :
    (RectEmpty r = true ↔
      ∀ p : Point, (-2 ^ 31 ≤ p.X ∧ p.X < 2 ^ 31) → (-2 ^ 31 ≤ p.Y ∧ p.Y < 2 ^ 31) →
        PointInRect p r = false) ∧
    (RectEmpty r = false → PointInRect ⟨r.X, r.Y⟩ r = true) ∧
    (RectEmpty r = true → ∀ p : Point, PointInRect p r = false) := by
  have hempty : RectEmpty r = true ↔ (r.W ≤ 0 ∨ r.H ≤ 0) := by
    simp only [RectEmpty, Bool.or_eq_true, decide_eq_true_eq]
  have hcorner : RectEmpty r = false → PointInRect ⟨r.X, r.Y⟩ r = true := by
    intro hne
    have hn : ¬ (r.W ≤ 0 ∨ r.H ≤ 0) := fun h => by
      rw [hempty.mpr h] at hne; cases hne
    rw [PointInRect_iff ⟨r.X, r.Y⟩ r hx hy]
    simp only
    omega
  have hnone : RectEmpty r = true → ∀ p : Point, PointInRect p r = false := by
    intro he p
    have h := hempty.mp he
    cases hp : PointInRect p r with
    | false => rfl
    | true =>
      have := (PointInRect_iff p r hx hy).mp hp
      omega
  refine ⟨⟨fun he p _ _ => hnone he p, fun hall => ?_⟩, hcorner, hnone⟩
  cases he : RectEmpty r with
  | true => rfl
  | false =>
    have h1 := hcorner he
    rw [hall ⟨r.X, r.Y⟩ hX hY] at h1
    cases h1

/-- Witness of C25 on the 1x1 rectangle at the origin. -/
theorem C25_RectEmpty_iff_no_point_witness :
    RectEmpty exUnitRect = false ∧ RectEmpty ⟨3, 4, 0, 5⟩ = true ∧
    ((RectEmpty exUnitRect = true ↔
      ∀ p : Point, (-2 ^ 31 ≤ p.X ∧ p.X < 2 ^ 31) → (-2 ^ 31 ≤ p.Y ∧ p.Y < 2 ^ 31) →
        PointInRect p exUnitRect = false) ∧
    (RectEmpty exUnitRect = false →
      PointInRect ⟨exUnitRect.X, exUnitRect.Y⟩ exUnitRect = true) ∧
    (RectEmpty exUnitRect = true → ∀ p : Point, PointInRect p exUnitRect = false)) :=
  ⟨by decide, by decide,
    C25_RectEmpty_iff_no_point exUnitRect (by decide) (by decide) (by decide) (by decide)⟩

/-! ### Packed colors and pixel formats -/

theorem or_eq_add_of_dvd (x b i : Nat) (hx : 2 ^ i ∣ x) (hb : b < 2 ^ i) :
    x ||| b = x + b := by
  obtain ⟨a, rfl⟩ := hx
  exact (Nat.mul_add_lt_is_or hb a).symm

theorem and_mask_eq_mod (x k : Nat) : x &&& (2 ^ k - 1) = x % 2 ^ k :=
  Nat.and_pow_two_sub_one_eq_mod x k

theorem colorArg_eq_sum (c : Color) (hR : c.R < 256) (hG : c.G < 256) (hB : c.B < 256)
    (hA : c.A < 256) :
    ttf.colorArg c = c.A * 16777216 + c.B * 65536 + c.G * 256 + c.R := by
  have e1 : (c.A <<< 24) % 2 ^ 32 = c.A * 16777216 := by
    rw [Nat.shiftLeft_eq]; norm_num; omega
  have e2 : (c.B <<< 16) % 2 ^ 32 = c.B * 65536 := by
    rw [Nat.shiftLeft_eq]; norm_num; omega
  have e3 : (c.G <<< 8) % 2 ^ 32 = c.G * 256 := by
    rw [Nat.shiftLeft_eq]; norm_num; omega
  rw [ttf.colorArg, e1, e2, e3]
  norm_num
  omega

theorem colorOr_eq_sum (c : Color) (hR : c.R < 256) (hG : c.G < 256) (hB : c.B < 256) :
    c.A <<< 24 ||| c.B <<< 16 ||| c.G <<< 8 ||| c.R
      = c.A * 16777216 + c.B * 65536 + c.G * 256 + c.R := by
  have s1 : c.A * 16777216 ||| c.B * 65536 = c.A * 16777216 + c.B * 65536 :=
    or_eq_add_of_dvd _ _ 24 (by norm_num) (by norm_num; omega)
  have s2 : (c.A * 16777216 + c.B * 65536) ||| c.G * 256
      = c.A * 16777216 + c.B * 65536 + c.G * 256 :=
    or_eq_add_of_dvd _ _ 16 (by norm_num; omega) (by norm_num; omega)
  have s3 : (c.A * 16777216 + c.B * 65536 + c.G * 256) ||| c.R
      = c.A * 16777216 + c.B * 65536 + c.G * 256 + c.R :=
    or_eq_add_of_dvd _ _ 8 (by norm_num; omega) (by norm_num; omega)
  simp only [Nat.shiftLeft_eq]
  norm_num
  rw [s1, s2, s3]

/-- C26: for a color with byte components the value
`uint32(c.A)<<24 + uint32(c.B)<<16 + uint32(c.G)<<8 + uint32(c.R)` the `Render*`
wrappers pass does not overflow, equals the bitwise OR of the four terms, has
the little-endian bytes `[R, G, B, A]` (the memory layout of `sdl.Color`), and
determines the color: the components are `(v>>0)&0xFF`, `(v>>8)&0xFF`,
`(v>>16)&0xFF`, `(v>>24)&0xFF`. Each of the twelve `Render*` wrappers of package
`ttf` hands the native function exactly this value for its foreground color
`c`, and for its background color `d` where it has one, whatever the native
function and the other arguments are. -/
theorem C26_color_packing (c d : Color)
    (hc : c.R < 256 ∧ c.G < 256 ∧ c.B < 256 ∧ c.A < 256)
    (hd : d.R < 256 ∧ d.G < 256 ∧ d.B < 256 ∧ d.A < 256) :
    c.A <<< 24 + c.B <<< 16 + c.G <<< 8 + c.R < 2 ^ 32 ∧
    ttf.colorArg c = c.A <<< 24 + c.B <<< 16 + c.G <<< 8 + c.R ∧
    ttf.colorArg c = c.A <<< 24 ||| c.B <<< 16 ||| c.G <<< 8 ||| c.R ∧
    loadLE [c.R, c.G, c.B, c.A] 0 4 = ttf.colorArg c ∧
    load Layout.Color [c.R, c.G, c.B, c.A] 0 = some
      [("R", .scalar (.uint c.R)), ("G", .scalar (.uint c.G)), ("B", .scalar (.uint c.B)),
       ("A", .scalar (.uint c.A))] ∧
    ((ttf.colorArg c >>> 0) &&& 0xFF = c.R ∧ (ttf.colorArg c >>> 8) &&& 0xFF = c.G ∧
      (ttf.colorArg c >>> 16) &&& 0xFF = c.B ∧ (ttf.colorArg c >>> 24) &&& 0xFF = c.A) ∧
    (ttf.colorArg c = ttf.colorArg d → c = d) ∧
    (∀ (native : Nat → Nat → Nat → Nat) (font ch : Nat),
      ttf.RenderGlyphBlended native font ch c = native font ch (ttf.colorArg c) ∧
      ttf.RenderGlyphSolid native font ch c = native font ch (ttf.colorArg c)) ∧
    (∀ (native : Nat → Nat → Nat → Nat → Nat) (font ch : Nat),
      ttf.RenderGlyphLCD native font ch c d
        = native font ch (ttf.colorArg c) (ttf.colorArg d) ∧
      ttf.RenderGlyphShaded native font ch c d
        = native font ch (ttf.colorArg c) (ttf.colorArg d)) ∧
    (∀ (native : Nat → GoString → Nat → Nat → Nat) (font : Nat) (text : GoString)
        (length : Nat),
      ttf.RenderTextBlended native font text length c
        = native font text length (ttf.colorArg c) ∧
      ttf.RenderTextSolid native font text length c
        = native font text length (ttf.colorArg c)) ∧
    (∀ (native : Nat → GoString → Nat → Nat → Int → Nat) (font : Nat) (text : GoString)
        (length : Nat) (wrap : Int),
      ttf.RenderTextBlendedWrapped native font text length c wrap
        = native font text length (ttf.colorArg c) wrap ∧
      ttf.RenderTextSolidWrapped native font text length c wrap
        = native font text length (ttf.colorArg c) wrap) ∧
    (∀ (native : Nat → GoString → Nat → Nat → Nat → Nat) (font : Nat) (text : GoString)
        (length : Nat),
      ttf.RenderTextLCD native font text length c d
        = native font text length (ttf.colorArg c) (ttf.colorArg d) ∧
      ttf.RenderTextShaded native font text length c d
        = native font text length (ttf.colorArg c) (ttf.colorArg d)) ∧
    (∀ (native : Nat → GoString → Nat → Nat → Nat → Int → Nat) (font : Nat)
        (text : GoString) (length : Nat) (wrap : Int),
      ttf.RenderTextLCDWrapped native font text length c d wrap
        = native font text length (ttf.colorArg c) (ttf.colorArg d) wrap ∧
      ttf.RenderTextShadedWrapped native font text length c d wrap
        = native font text length (ttf.colorArg c) (ttf.colorArg d) wrap) := by
  obtain ⟨hR, hG, hB, hA⟩ := hc
  obtain ⟨hR2, hG2, hB2, hA2⟩ := hd
  have hsum := colorArg_eq_sum c hR hG hB hA
  have hsum2 := colorArg_eq_sum d hR2 hG2 hB2 hA2
  have hm : (0xFF : Nat) = 2 ^ 8 - 1 := by decide
  refine ⟨?_, ?_, ?_, ?_, ?_, ⟨?_, ?_, ?_, ?_⟩, ?_,
    fun _ _ _ => ⟨rfl, rfl⟩, fun _ _ _ => ⟨rfl, rfl⟩, fun _ _ _ _ => ⟨rfl, rfl⟩,
    fun _ _ _ _ _ => ⟨rfl, rfl⟩, fun _ _ _ _ => ⟨rfl, rfl⟩, fun _ _ _ _ _ => ⟨rfl, rfl⟩⟩
  · simp only [Nat.shiftLeft_eq]; norm_num; omega
  · rw [hsum]; simp only [Nat.shiftLeft_eq]
  · rw [hsum, colorOr_eq_sum c hR hG hB]
  · rw [hsum]; simp only [loadLE, List.getD_cons_zero, List.getD_cons_succ]; omega
  · have hs : Layout.Color.size = 4 := by decide
    simp only [load, hs, List.length_cons, List.length_nil]
    simp [Layout.Color, structOf, fld, FieldList.ofList, GoType.decode, FieldList.decode,
      GoType.align, GoType.size, Scalar.size, alignUp, decodeScalar, loadLE]
  · rw [hsum, hm, and_mask_eq_mod, Nat.shiftRight_eq_div_pow]; norm_num; omega
  · rw [hsum, hm, and_mask_eq_mod, Nat.shiftRight_eq_div_pow]; norm_num; omega
  · rw [hsum, hm, and_mask_eq_mod, Nat.shiftRight_eq_div_pow]; norm_num; omega
  · rw [hsum, hm, and_mask_eq_mod, Nat.shiftRight_eq_div_pow]; norm_num; omega
  · intro heq
    rw [hsum, hsum2] at heq
    have h1 : c.R = d.R := by omega
    have h2 : c.G = d.G := by omega
    have h3 : c.B = d.B := by omega
    have h4 : c.A = d.A := by omega
    cases c; cases d
    simp only at h1 h2 h3 h4
    subst h1 h2 h3 h4
    rfl

/-- Witness of C26 on an opaque orange, whose value is 0xFF0080FF. -/
theorem C26_color_packing_witness :
    ttf.colorArg exColor = 0xFF0080FF ∧
    (exColor.A <<< 24 + exColor.B <<< 16 + exColor.G <<< 8 + exColor.R < 2 ^ 32 ∧
    ttf.colorArg exColor = exColor.A <<< 24 + exColor.B <<< 16 + exColor.G <<< 8 + exColor.R ∧
    ttf.colorArg exColor
      = exColor.A <<< 24 ||| exColor.B <<< 16 ||| exColor.G <<< 8 ||| exColor.R ∧
    loadLE [exColor.R, exColor.G, exColor.B, exColor.A] 0 4 = ttf.colorArg exColor ∧
    load Layout.Color [exColor.R, exColor.G, exColor.B, exColor.A] 0 = some
      [("R", .scalar (.uint exColor.R)), ("G", .scalar (.uint exColor.G)),
       ("B", .scalar (.uint exColor.B)), ("A", .scalar (.uint exColor.A))] ∧
    ((ttf.colorArg exColor >>> 0) &&& 0xFF = exColor.R ∧
      (ttf.colorArg exColor >>> 8) &&& 0xFF = exColor.G ∧
      (ttf.colorArg exColor >>> 16) &&& 0xFF = exColor.B ∧
      (ttf.colorArg exColor >>> 24) &&& 0xFF = exColor.A) ∧
    (ttf.colorArg exColor = ttf.colorArg ⟨1, 2, 3, 4⟩ → exColor = ⟨1, 2, 3, 4⟩) ∧
    (∀ (native : Nat → Nat → Nat → Nat) (font ch : Nat),
      ttf.RenderGlyphBlended native font ch exColor = native font ch (ttf.colorArg exColor) ∧
      ttf.RenderGlyphSolid native font ch exColor = native font ch (ttf.colorArg exColor)) ∧
    (∀ (native : Nat → Nat → Nat → Nat → Nat) (font ch : Nat),
      ttf.RenderGlyphLCD native font ch exColor ⟨1, 2, 3, 4⟩
        = native font ch (ttf.colorArg exColor) (ttf.colorArg ⟨1, 2, 3, 4⟩) ∧
      ttf.RenderGlyphShaded native font ch exColor ⟨1, 2, 3, 4⟩
        = native font ch (ttf.colorArg exColor) (ttf.colorArg ⟨1, 2, 3, 4⟩)) ∧
    (∀ (native : Nat → GoString → Nat → Nat → Nat) (font : Nat) (text : GoString)
        (length : Nat),
      ttf.RenderTextBlended native font text length exColor
        = native font text length (ttf.colorArg exColor) ∧
      ttf.RenderTextSolid native font text length exColor
        = native font text length (ttf.colorArg exColor)) ∧
    (∀ (native : Nat → GoString → Nat → Nat → Int → Nat) (font : Nat) (text : GoString)
        (length : Nat) (wrap : Int),
      ttf.RenderTextBlendedWrapped native font text length exColor wrap
        = native font text length (ttf.colorArg exColor) wrap ∧
      ttf.RenderTextSolidWrapped native font text length exColor wrap
        = native font text length (ttf.colorArg exColor) wrap) ∧
    (∀ (native : Nat → GoString → Nat → Nat → Nat → Nat) (font : Nat) (text : GoString)
        (length : Nat),
      ttf.RenderTextLCD native font text length exColor ⟨1, 2, 3, 4⟩
        = native font text length (ttf.colorArg exColor) (ttf.colorArg ⟨1, 2, 3, 4⟩) ∧
      ttf.RenderTextShaded native font text length exColor ⟨1, 2, 3, 4⟩
        = native font text length (ttf.colorArg exColor) (ttf.colorArg ⟨1, 2, 3, 4⟩)) ∧
    (∀ (native : Nat → GoString → Nat → Nat → Nat → Int → Nat) (font : Nat)
        (text : GoString) (length : Nat) (wrap : Int),
      ttf.RenderTextLCDWrapped native font text length exColor ⟨1, 2, 3, 4⟩ wrap
        = native font text length (ttf.colorArg exColor) (ttf.colorArg ⟨1, 2, 3, 4⟩) wrap ∧
      ttf.RenderTextShadedWrapped native font text length exColor ⟨1, 2, 3, 4⟩ wrap
        = native font text length (ttf.colorArg exColor) (ttf.colorArg ⟨1, 2, 3, 4⟩) wrap)) :=
  ⟨by decide, C26_color_packing exColor ⟨1, 2, 3, 4⟩ (by decide) (by decide)⟩

theorem DefinePixelFormat_eq_sum (pt o l bits bytes : Nat) (hpt : pt < 16) (ho : o < 16)
    (hl : l < 16) (hbits : bits < 256) (hbytes : bytes < 256) :
    DefinePixelFormat pt o l bits bytes
      = 268435456 + pt * 16777216 + o * 1048576 + l * 65536 + bits * 256 + bytes := by
  have e0 : 1 <<< 28 = 268435456 := by decide
  have e1 : (pt <<< 24) % 2 ^ 32 = pt * 16777216 := by
    rw [Nat.shiftLeft_eq]; norm_num; omega
  have e2 : (o <<< 20) % 2 ^ 32 = o * 1048576 := by
    rw [Nat.shiftLeft_eq]; norm_num; omega
  have e3 : (l <<< 16) % 2 ^ 32 = l * 65536 := by
    rw [Nat.shiftLeft_eq]; norm_num; omega
  have e4 : (bits <<< 8) % 2 ^ 32 = bits * 256 := by
    rw [Nat.shiftLeft_eq]; norm_num; omega
  have s1 : 268435456 ||| pt * 16777216 = 268435456 + pt * 16777216 :=
    or_eq_add_of_dvd _ _ 28 (by norm_num) (by norm_num; omega)
  have s2 : (268435456 + pt * 16777216) ||| o * 1048576
      = 268435456 + pt * 16777216 + o * 1048576 :=
    or_eq_add_of_dvd _ _ 24 (by norm_num; omega) (by norm_num; omega)
  have s3 : (268435456 + pt * 16777216 + o * 1048576) ||| l * 65536
      = 268435456 + pt * 16777216 + o * 1048576 + l * 65536 :=
    or_eq_add_of_dvd _ _ 20 (by norm_num; omega) (by norm_num; omega)
  have s4 : (268435456 + pt * 16777216 + o * 1048576 + l * 65536) ||| bits * 256
      = 268435456 + pt * 16777216 + o * 1048576 + l * 65536 + bits * 256 :=
    or_eq_add_of_dvd _ _ 16 (by norm_num; omega) (by norm_num; omega)
  have s5 : (268435456 + pt * 16777216 + o * 1048576 + l * 65536 + bits * 256) ||| bytes
      = 268435456 + pt * 16777216 + o * 1048576 + l * 65536 + bits * 256 + bytes :=
    or_eq_add_of_dvd _ _ 8 (by norm_num; omega) (by norm_num; omega)
  rw [DefinePixelFormat, e0, e1, e2, e3, e4, s1, s2, s3, s4, s5]

/-- C27: for `pixelType`, `order`, `layout` below 16 and `bitsPerPixel`,
`bytesPerPixel` bytes, the fields of `f = DefinePixelFormat(...)` are recovered
by `(f>>28)&0xF == 1`, `(f>>24)&0xF`, `(f>>20)&0xF`, `(f>>16)&0xF`, `(f>>8)&0xFF`
and `f&0xFF`; so `DefinePixelFormat` is injective on that domain and never
returns `PixelFormatUnknown`. -/
theorem C27_pixel_format_fields (pt o l bits bytes pt2 o2 l2 bits2 bytes2 : Nat)
    (h : pt < 16 ∧ o < 16 ∧ l < 16 ∧ bits < 256 ∧ bytes < 256)
    (h2 : pt2 < 16 ∧ o2 < 16 ∧ l2 < 16 ∧ bits2 < 256 ∧ bytes2 < 256) :
    (DefinePixelFormat pt o l bits bytes >>> 28) &&& 0xF = 1 ∧
    (DefinePixelFormat pt o l bits bytes >>> 24) &&& 0xF = pt ∧
    (DefinePixelFormat pt o l bits bytes >>> 20) &&& 0xF = o ∧
    (DefinePixelFormat pt o l bits bytes >>> 16) &&& 0xF = l ∧
    (DefinePixelFormat pt o l bits bytes >>> 8) &&& 0xFF = bits ∧
    DefinePixelFormat pt o l bits bytes &&& 0xFF = bytes ∧
    DefinePixelFormat pt o l bits bytes ≠ PixelFormatUnknown ∧
    (DefinePixelFormat pt o l bits bytes = DefinePixelFormat pt2 o2 l2 bits2 bytes2 →
      pt = pt2 ∧ o = o2 ∧ l = l2 ∧ bits = bits2 ∧ bytes = bytes2) := by
  obtain ⟨hpt, ho, hl, hbits, hbytes⟩ := h
  obtain ⟨hpt2, ho2, hl2, hbits2, hbytes2⟩ := h2
  have hsum := DefinePixelFormat_eq_sum pt o l bits bytes hpt ho hl hbits hbytes
  have hsum2 := DefinePixelFormat_eq_sum pt2 o2 l2 bits2 bytes2 hpt2 ho2 hl2 hbits2 hbytes2
  have hm4 : (0xF : Nat) = 2 ^ 4 - 1 := by decide
  have hm8 : (0xFF : Nat) = 2 ^ 8 - 1 := by decide
  refine ⟨?_, ?_, ?_, ?_, ?_, ?_, ?_, ?_⟩
  · rw [hsum, hm4, and_mask_eq_mod, Nat.shiftRight_eq_div_pow]; norm_num; omega
  · rw [hsum, hm4, and_mask_eq_mod, Nat.shiftRight_eq_div_pow]; norm_num; omega
  · rw [hsum, hm4, and_mask_eq_mod, Nat.shiftRight_eq_div_pow]; norm_num; omega
  · rw [hsum, hm4, and_mask_eq_mod, Nat.shiftRight_eq_div_pow]; norm_num; omega
  · rw [hsum, hm8, and_mask_eq_mod, Nat.shiftRight_eq_div_pow]; norm_num; omega
  · rw [hsum, hm8, and_mask_eq_mod]; norm_num; omega
  · rw [hsum, PixelFormatUnknown]; omega
  · intro heq
    rw [hsum, hsum2] at heq
    omega

/-- Witness of C27 on the components of `PixelFormatARGB8888` and
`PixelFormatRGB24`. -/
theorem C27_pixel_format_fields_witness :
    (DefinePixelFormat 6 3 6 32 4 >>> 28) &&& 0xF = 1 ∧
    (DefinePixelFormat 6 3 6 32 4 >>> 24) &&& 0xF = 6 ∧
    (DefinePixelFormat 6 3 6 32 4 >>> 20) &&& 0xF = 3 ∧
    (DefinePixelFormat 6 3 6 32 4 >>> 16) &&& 0xF = 6 ∧
    (DefinePixelFormat 6 3 6 32 4 >>> 8) &&& 0xFF = 32 ∧
    DefinePixelFormat 6 3 6 32 4 &&& 0xFF = 4 ∧
    DefinePixelFormat 6 3 6 32 4 ≠ PixelFormatUnknown ∧
    (DefinePixelFormat 6 3 6 32 4 = DefinePixelFormat 7 1 0 24 3 →
      6 = 7 ∧ 3 = 1 ∧ 6 = 0 ∧ 32 = 24 ∧ 4 = 3) :=
  C27_pixel_format_fields 6 3 6 32 4 7 1 0 24 3 (by decide) (by decide)

/-! ### Gamepad bindings -/

theorem GamepadBinding.offsets :
    GamepadBinding.inputOffset = 4 ∧ GamepadBinding.outputOffset = 20 := by
  constructor <;> decide

theorem GamepadBinding.InputButton_eq (g : GamepadBinding) :
    g.InputButton = some (.int (toSigned 32 (loadLE g.bytes 4 4))) := by
  simp [GamepadBinding.InputButton, loadScalar, GamepadBinding.offsets.1, Scalar.size,
    g.size_eq, decodeScalar]

theorem GamepadBinding.OutputButton_eq (g : GamepadBinding) :
    g.OutputButton = some (.int (toSigned 32 (loadLE g.bytes 20 4))) := by
  simp [GamepadBinding.OutputButton, loadScalar, GamepadBinding.offsets.2,
    Layout.GamepadButton, Scalar.size, g.size_eq, decodeScalar]

theorem GamepadBinding.InputAxis_eq (g : GamepadBinding) :
    g.InputAxis = some
      [("Axis", .scalar (.int (toSigned 32 (loadLE g.bytes 4 4)))),
       ("AxisMin", .scalar (.int (toSigned 32 (loadLE g.bytes 8 4)))),
       ("AxisMax", .scalar (.int (toSigned 32 (loadLE g.bytes 12 4))))] := by
  have hs : Layout.InputAxisStruct.size = 12 := by decide
  simp only [GamepadBinding.InputAxis, load, hs, g.size_eq, GamepadBinding.offsets.1]
  simp [Layout.InputAxisStruct, structOf, fld, FieldList.ofList, GoType.decode,
    FieldList.decode, GoType.align, GoType.size, Scalar.size, alignUp, decodeScalar]

theorem GamepadBinding.InputHat_eq (g : GamepadBinding) :
    g.InputHat = some
      [("Hat", .scalar (.int (toSigned 32 (loadLE g.bytes 4 4)))),
       ("HatMask", .scalar (.int (toSigned 32 (loadLE g.bytes 8 4))))] := by
  have hs : Layout.InputHatStruct.size = 8 := by decide
  simp only [GamepadBinding.InputHat, load, hs, g.size_eq, GamepadBinding.offsets.1]
  simp [Layout.InputHatStruct, structOf, fld, FieldList.ofList, GoType.decode,
    FieldList.decode, GoType.align, GoType.size, Scalar.size, alignUp, decodeScalar]

theorem GamepadBinding.OutputAxis_eq (g : GamepadBinding) :
    g.OutputAxis = some
      [("Axis", .scalar (.int (toSigned 32 (loadLE g.bytes 20 4)))),
       ("AxisMin", .scalar (.int (toSigned 32 (loadLE g.bytes 24 4)))),
       ("AxisMax", .scalar (.int (toSigned 32 (loadLE g.bytes 28 4))))] := by
  have hs : Layout.OutputAxisStruct.size = 12 := by decide
  simp only [GamepadBinding.OutputAxis, load, hs, g.size_eq, GamepadBinding.offsets.2]
  simp [Layout.OutputAxisStruct, Layout.GamepadAxis, structOf, fld, FieldList.ofList,
    GoType.decode, FieldList.decode, GoType.align, GoType.size, Scalar.size, alignUp,
    decodeScalar]

set_option maxRecDepth 100000 in
/-- C28: the accessors of each union of a `GamepadBinding` decode the same bytes.
The input block is bytes 4-15 of the struct and the output block bytes 20-31;
`InputButton()`, `InputAxis().Axis` and `InputHat().Hat` are the `int32` at bytes
0-3 of the input block, `InputAxis().AxisMin` and `InputHat().HatMask` the one at
bytes 4-7, `OutputButton()` and `OutputAxis().Axis` the one at bytes 0-3 of the
output block. Each accessor reads at most 12 bytes, and two bindings that agree
on a block give the same results for its accessors, whatever `InputType`,
`OutputType` and the other block hold. On the binding with bytes 0, 1, ..., 31
the input button is 0x07060504 and the output button 0x17161514. -/
theorem C28_gamepad_binding_unions (g other : GamepadBinding) :
    (GamepadBinding.inputOffset = 4 ∧ GamepadBinding.outputOffset = 20) ∧
    (g.InputButton = some (.int (toSigned 32 (loadLE g.bytes 4 4))) ∧
      g.InputAxis.bind (fun v => v.lookup "Axis") = g.InputButton.map FieldVal.scalar ∧
      g.InputHat.bind (fun v => v.lookup "Hat") = g.InputButton.map FieldVal.scalar) ∧
    (g.InputAxis.bind (fun v => v.lookup "AxisMin")
        = some (.scalar (.int (toSigned 32 (loadLE g.bytes 8 4)))) ∧
      g.InputHat.bind (fun v => v.lookup "HatMask")
        = g.InputAxis.bind (fun v => v.lookup "AxisMin")) ∧
    (g.OutputButton = some (.int (toSigned 32 (loadLE g.bytes 20 4))) ∧
      g.OutputAxis.bind (fun v => v.lookup "Axis") = g.OutputButton.map FieldVal.scalar) ∧
    (Scalar.int32.size ≤ 12 ∧ Layout.GamepadButton.size ≤ 12 ∧
      Layout.InputAxisStruct.size ≤ 12 ∧ Layout.InputHatStruct.size ≤ 12 ∧
      Layout.OutputAxisStruct.size ≤ 12) ∧
    ((∀ j, 4 ≤ j → j < 16 → g.bytes.getD j 0 = other.bytes.getD j 0) →
      g.InputButton = other.InputButton ∧ g.InputAxis = other.InputAxis ∧
      g.InputHat = other.InputHat) ∧
    ((∀ j, 20 ≤ j → j < 32 → g.bytes.getD j 0 = other.bytes.getD j 0) →
      g.OutputButton = other.OutputButton ∧ g.OutputAxis = other.OutputAxis) ∧
    (exBinding.InputButton = some (.int 0x07060504) ∧
      exBinding.InputAxis = some
        [("Axis", .scalar (.int 0x07060504)), ("AxisMin", .scalar (.int 0x0b0a0908)),
         ("AxisMax", .scalar (.int 0x0f0e0d0c))] ∧
      exBinding.OutputButton = some (.int 0x17161514)) := by
  refine ⟨GamepadBinding.offsets, ⟨GamepadBinding.InputButton_eq g, ?_, ?_⟩, ⟨?_, ?_⟩,
    ⟨GamepadBinding.OutputButton_eq g, ?_⟩, by decide, ?_, ?_, ⟨rfl, rfl, rfl⟩⟩
  · simp [GamepadBinding.InputAxis_eq, GamepadBinding.InputButton_eq, List.lookup]
  · simp [GamepadBinding.InputHat_eq, GamepadBinding.InputButton_eq, List.lookup]
  · simp [GamepadBinding.InputAxis_eq, List.lookup]
  · simp [GamepadBinding.InputAxis_eq, GamepadBinding.InputHat_eq, List.lookup]
  · simp [GamepadBinding.OutputAxis_eq, GamepadBinding.OutputButton_eq, List.lookup]
  · intro hagree
    have h4 : loadLE g.bytes 4 4 = loadLE other.bytes 4 4 :=
      loadLE_congr _ _ 4 4 (fun j h1 h2 => hagree j h1 (by omega))
    have h8 : loadLE g.bytes 8 4 = loadLE other.bytes 8 4 :=
      loadLE_congr _ _ 4 8 (fun j h1 h2 => hagree j (by omega) (by omega))
    have h12 : loadLE g.bytes 12 4 = loadLE other.bytes 12 4 :=
      loadLE_congr _ _ 4 12 (fun j h1 h2 => hagree j (by omega) (by omega))
    simp only [GamepadBinding.InputButton_eq, GamepadBinding.InputAxis_eq,
      GamepadBinding.InputHat_eq, h4, h8, h12, and_self]
  · intro hagree
    have h20 : loadLE g.bytes 20 4 = loadLE other.bytes 20 4 :=
      loadLE_congr _ _ 4 20 (fun j h1 h2 => hagree j h1 (by omega))
    have h24 : loadLE g.bytes 24 4 = loadLE other.bytes 24 4 :=
      loadLE_congr _ _ 4 24 (fun j h1 h2 => hagree j (by omega) (by omega))
    have h28 : loadLE g.bytes 28 4 = loadLE other.bytes 28 4 :=
      loadLE_congr _ _ 4 28 (fun j h1 h2 => hagree j (by omega) (by omega))
    simp only [GamepadBinding.OutputButton_eq, GamepadBinding.OutputAxis_eq, h20, h24, h28,
      and_self]

end PuregoSdl3
